import Mathlib

/-!
learnVulkan: the swapchain negotiation, adapter selection and frame loop of
`glfw_test_vulkan.cpp`.

A shallow embedding of `ApplicationFw` (src/glfw_test_vulkan.cpp).

Conventions of the embedding

* `uint32_t` values are natural numbers; where the source does arithmetic on
  them the result is reduced modulo `2 ^ 32`.
* Vulkan handles are natural numbers, `0` being `VK_NULL_HANDLE`.
* `assert` is the program's failure mechanism and is modelled as active: a
  failing assertion ends the run with `Abort.assertFailed n`, `n` being the
  source line of the assertion.  (The program relies on it: the semaphores and
  the fence are created inside the `assert`s of lines 188-190.)
* What the platform (Vulkan driver, GLFW) answers is an explicit argument of
  the function that asks for it.
* Calls that create objects, record commands or drive the queues are logged
  as a list of `Call`s, oldest first; each entry carries what the platform
  answered.  Pure queries are not logged.
-/

namespace LearnVulkan

/-! ## Basic types -/

/-- Vulkan object handle; `0` is `VK_NULL_HANDLE`. -/
abbrev Handle := Nat

/-- Result code of a Vulkan call. -/
abbrev VkResult := Int

/-- The success code `VK_SUCCESS`. -/
def VK_SUCCESS : VkResult := 0

/-- Value of `std::numeric_limits<uint32_t>::max()`. -/
def UINT32_MAX : Nat := 4294967295

/-- Value of `UINT64_MAX`, the timeout passed to the two waits of `drawFrame`. -/
def UINT64_MAX : Nat := 18446744073709551615

/-- Conversion `static_cast<uint32_t>(int)`: reduction modulo `2 ^ 32`. -/
def castUInt32 (x : Int) : Nat := (x % 4294967296).toNat

/-- Ways in which a run ends abnormally. -/
inductive Abort where
  /-- An `assert` failed; the argument is its source line. -/
  | assertFailed (line : Nat)
  /-- Call of `std::optional::value()` on an empty optional. -/
  | badOptionalAccess
  /-- Indexing of a `std::vector` outside its bounds (undefined behaviour). -/
  | outOfBounds
  /-- A null `VkPhysicalDevice` was handed to the platform. -/
  | nullPhysicalDevice
  /-- The exception `std::length_error` of a `std::vector` constructor asked for
  more than `max_size()` elements. -/
  | vectorLengthError
  deriving DecidableEq, Repr

/-- Pixel size, the struct `VkExtent2D`. -/
structure VkExtent2D where
  width : Nat
  height : Nat
  deriving DecidableEq, Repr

/-- The fields of `VkSurfaceCapabilitiesKHR` the program reads. -/
structure VkSurfaceCapabilitiesKHR where
  minImageCount : Nat
  maxImageCount : Nat
  currentExtent : VkExtent2D
  minImageExtent : VkExtent2D
  maxImageExtent : VkExtent2D
  currentTransform : Nat
  deriving DecidableEq, Repr

/-- The struct `VkSurfaceFormatKHR`: a pixel format and a colour space. -/
structure VkSurfaceFormatKHR where
  format : Nat
  colorSpace : Nat
  deriving DecidableEq, Repr

/-- Enumerator `VK_FORMAT_B8G8R8A8_SRGB` of `VkFormat` (vulkan_core.h). -/
def VK_FORMAT_B8G8R8A8_SRGB : Nat := 50

/-- Enumerator `VK_COLOR_SPACE_SRGB_NONLINEAR_KHR` of `VkColorSpaceKHR`. -/
def VK_COLOR_SPACE_SRGB_NONLINEAR_KHR : Nat := 0

/-- Enumerator `VK_PRESENT_MODE_MAILBOX_KHR` of `VkPresentModeKHR`. -/
def VK_PRESENT_MODE_MAILBOX_KHR : Nat := 1

/-- Enumerator `VK_PRESENT_MODE_FIFO_KHR` of `VkPresentModeKHR`. -/
def VK_PRESENT_MODE_FIFO_KHR : Nat := 2

/-- The struct `SwapChainSupportDetails` (lines 44-49). -/
structure SwapChainSupportDetails where
  capabilities : VkSurfaceCapabilitiesKHR
  formats : List VkSurfaceFormatKHR
  presentModes : List Nat
  deriving DecidableEq, Repr

/-! ## Swapchain negotiation (lines 674-718) -/

/-- The function `std::clamp(v, lo, hi)` of `<algorithm>`:
`(v < lo) ? lo : (hi < v) ? hi : v`. -/
def stdClamp (v lo hi : Nat) : Nat :=
  if v < lo then lo else if hi < v then hi else v

/-- `ApplicationFw::chooseSwapExtent` (lines 674-694).  `fbWidth` and
`fbHeight` are the two `int`s written by `glfwGetFramebufferSize`. -/
def chooseSwapExtent (capabilities : VkSurfaceCapabilitiesKHR)
    (fbWidth fbHeight : Int) : VkExtent2D :=
  if capabilities.currentExtent.width ≠ UINT32_MAX then
    capabilities.currentExtent
  else
    let actualExtent : VkExtent2D := ⟨castUInt32 fbWidth, castUInt32 fbHeight⟩
    let w := stdClamp actualExtent.width capabilities.minImageExtent.width
      capabilities.maxImageExtent.width
    let h := stdClamp actualExtent.height capabilities.minImageExtent.height
      capabilities.maxImageExtent.height
    ⟨w, h⟩

/-- `ApplicationFw::chooseSwapPresentMode` (lines 696-705). -/
def chooseSwapPresentMode : List Nat → Nat
  | [] => VK_PRESENT_MODE_FIFO_KHR
  | presentMode :: rest =>
    if presentMode = VK_PRESENT_MODE_MAILBOX_KHR then presentMode
    else chooseSwapPresentMode rest

/-- The range-for loop of `chooseSwapSurfaceFormat` (lines 710-714): the first
element that is the preferred format, if there is one. -/
def findPreferredFormat : List VkSurfaceFormatKHR → Option VkSurfaceFormatKHR
  | [] => none
  | format :: rest =>
    if format.format = VK_FORMAT_B8G8R8A8_SRGB
        ∧ format.colorSpace = VK_COLOR_SPACE_SRGB_NONLINEAR_KHR then some format
    else findPreferredFormat rest

/-- `ApplicationFw::chooseSwapSurfaceFormat` (lines 707-718). -/
def chooseSwapSurfaceFormat (availableFormats : List VkSurfaceFormatKHR) :
    Except Abort VkSurfaceFormatKHR :=
  if ¬ (availableFormats.length > 0) then .error (.assertFailed 709)
  else
    match findPreferredFormat availableFormats with
    | some format => .ok format
    | none =>
      match availableFormats with
      | first :: _ => .ok first
      | [] => .error .outOfBounds

/-! ## Adapters and queue families (lines 34-42, 720-766, 824-897) -/

/-- The struct `QueueFamilyIndices` (lines 34-42). -/
structure QueueFamilyIndices where
  graphicsFamily : Option Nat
  presentFamily : Option Nat
  deriving DecidableEq, Repr

/-- `QueueFamilyIndices::isComplete` (lines 38-41). -/
def QueueFamilyIndices.isComplete (indices : QueueFamilyIndices) : Bool :=
  indices.graphicsFamily.isSome && indices.presentFamily.isSome

/-- What the platform reports of one queue family: the `queueFlags` of its
`VkQueueFamilyProperties`, and the answer of
`vkGetPhysicalDeviceSurfaceSupportKHR` for its index and `mSurface`. -/
structure QueueFamily where
  queueFlags : Nat
  presentSupport : Bool
  deriving DecidableEq, Repr

/-- What the platform reports of one physical adapter, for the surface
`mSurface`: its handle, its queue families in index order, the names of its
device extensions, and the capabilities, formats and present modes of the
surface on it. -/
structure PhysicalDevice where
  handle : Handle
  queueFamilies : List QueueFamily
  extensions : List String
  capabilities : VkSurfaceCapabilitiesKHR
  formats : List VkSurfaceFormatKHR
  presentModes : List Nat
  deriving DecidableEq, Repr

/-- Flag `VK_QUEUE_GRAPHICS_BIT` of `VkQueueFlagBits`. -/
def VK_QUEUE_GRAPHICS_BIT : Nat := 1

/-- The member `deviceExtensions` (lines 168-169); the string is the value of
`VK_KHR_SWAPCHAIN_EXTENSION_NAME`. -/
def deviceExtensions : List String := ["VK_KHR_swapchain"]

/-- The member `validationLayers` (lines 165-166). -/
def validationLayers : List String := ["VK_LAYER_KHRONOS_validation"]

/-- The member `enableValidationLayer` (line 162). -/
def enableValidationLayer : Bool := true

/-- The loop of `findQueueFamilies` (lines 836-855); `i` is the running
index, `indices` what has been found so far. -/
def findQueueFamiliesLoop :
    List QueueFamily → Nat → QueueFamilyIndices → QueueFamilyIndices
  | [], _, indices => indices
  | queueFamily :: rest, i, indices =>
    let indices1 : QueueFamilyIndices :=
      if queueFamily.queueFlags &&& VK_QUEUE_GRAPHICS_BIT ≠ 0 then
        { indices with graphicsFamily := some i }
      else indices
    let indices2 : QueueFamilyIndices :=
      if queueFamily.presentSupport then { indices1 with presentFamily := some i }
      else indices1
    if indices2.isComplete then indices2
    else findQueueFamiliesLoop rest (i + 1) indices2

/-- `ApplicationFw::findQueueFamilies` (lines 824-858). -/
def findQueueFamilies (device : PhysicalDevice) : Except Abort QueueFamilyIndices :=
  if ¬ (device.queueFamilies.length > 0) then .error (.assertFailed 832)
  else .ok (findQueueFamiliesLoop device.queueFamilies 0 ⟨none, none⟩)

/-- The loop of `checkDeviceExtensionSupport` (lines 760-763): every available
name is erased from the set of required names.  The `std::set<std::string>`
is a duplicate-free list; only its emptiness is observed. -/
def eraseAvailable : List String → List String → List String
  | requiredExtensions, [] => requiredExtensions
  | requiredExtensions, extensionName :: rest =>
    eraseAvailable (requiredExtensions.filter (fun r => r ≠ extensionName)) rest

/-- `ApplicationFw::checkDeviceExtensionSupport` (lines 750-766). -/
def checkDeviceExtensionSupport (device : PhysicalDevice) : Except Abort Bool :=
  if ¬ (device.extensions.length > 0) then .error (.assertFailed 754)
  else .ok (eraseAvailable deviceExtensions.dedup device.extensions).isEmpty

/-- `ApplicationFw::querySwapChainSupport` (lines 720-748). -/
def querySwapChainSupport (device : PhysicalDevice) :
    Except Abort SwapChainSupportDetails :=
  let formatCount := device.formats.length
  if ¬ (formatCount > 0) then .error (.assertFailed 730)
  else
    let formats := if formatCount ≠ 0 then device.formats else []
    let presentModeCount := device.presentModes.length
    if ¬ (presentModeCount > 0) then .error (.assertFailed 740)
    else
      let presentModes := if presentModeCount ≠ 0 then device.presentModes else []
      .ok ⟨device.capabilities, formats, presentModes⟩

/-- `ApplicationFw::isDeviceSuitable` (lines 860-876). -/
def isDeviceSuitable (device : PhysicalDevice) : Except Abort Bool :=
  match findQueueFamilies device with
  | .error e => .error e
  | .ok indices =>
    let suitable := indices.isComplete
    match checkDeviceExtensionSupport device with
    | .error e => .error e
    | .ok extensionsSupported =>
      if extensionsSupported then
        match querySwapChainSupport device with
        | .error e => .error e
        | .ok swapChainSupport =>
          let swapChainAdequate :=
            !swapChainSupport.formats.isEmpty && !swapChainSupport.presentModes.isEmpty
          .ok (suitable && extensionsSupported && swapChainAdequate)
      else
        .ok (suitable && extensionsSupported && false)

/-- The loop of `pickPhysicalDevice` (lines 887-894); `mPhysicalDevice` is the
member as it stands when the loop is entered. -/
def pickPhysicalDeviceLoop :
    List PhysicalDevice → Option PhysicalDevice → Except Abort (Option PhysicalDevice)
  | [], mPhysicalDevice => .ok mPhysicalDevice
  | device :: rest, mPhysicalDevice =>
    match isDeviceSuitable device with
    | .error e => .error e
    | .ok true => .ok (some device)
    | .ok false => pickPhysicalDeviceLoop rest mPhysicalDevice

/-- `ApplicationFw::pickPhysicalDevice` (lines 878-897).  `physicalDevices` is
what `vkEnumeratePhysicalDevices` lists, `mPhysicalDevice` the member on entry
(`none` is `VK_NULL_HANDLE`, its initial value, line 135); the result is the
member on return. -/
def pickPhysicalDevice (mPhysicalDevice : Option PhysicalDevice)
    (physicalDevices : List PhysicalDevice) : Except Abort PhysicalDevice :=
  if ¬ (physicalDevices.length > 0) then .error (.assertFailed 882)
  else
    match pickPhysicalDeviceLoop physicalDevices mPhysicalDevice with
    | .error e => .error e
    | .ok none => .error (.assertFailed 896)
    | .ok (some device) => .ok device

/-- The conditions (a)-(d) of adapter suitability, as the specification words
them: (a) some queue family has the graphics bit, (b) some queue family can
present to the surface, (c) every required device extension is among the
available ones, (d) the surface has at least one format and one present mode. -/
def SuitabilityConditions (device : PhysicalDevice) : Prop :=
  (∃ q ∈ device.queueFamilies, q.queueFlags &&& VK_QUEUE_GRAPHICS_BIT ≠ 0)
    ∧ (∃ q ∈ device.queueFamilies, q.presentSupport = true)
    ∧ (∀ r ∈ deviceExtensions, r ∈ device.extensions)
    ∧ (device.formats ≠ [] ∧ device.presentModes ≠ [])

instance (device : PhysicalDevice) : Decidable (SuitabilityConditions device) := by
  unfold SuitabilityConditions
  infer_instance

/-- The assertions met while `isDeviceSuitable` examines an adapter all hold:
it has a queue family (line 832) and an extension (line 754) and, when the
required extensions are all there, a surface format (line 730) and a present
mode (line 740). -/
def AssertionsHold (device : PhysicalDevice) : Prop :=
  device.queueFamilies ≠ [] ∧ device.extensions ≠ []
    ∧ ((∀ r ∈ deviceExtensions, r ∈ device.extensions) →
        device.formats ≠ [] ∧ device.presentModes ≠ [])

instance (device : PhysicalDevice) : Decidable (AssertionsHold device) := by
  unfold AssertionsHold
  infer_instance

/-! ## Application state and the call log -/

/-- The data members of `ApplicationFw` (lines 133-160).  `mPhysicalDevice`
holds the selected adapter together with what the platform reports of it;
`none` is `VK_NULL_HANDLE`. -/
structure App where
  window : Handle
  mInstance : Handle
  mPhysicalDevice : Option PhysicalDevice
  mDevice : Handle
  mGraphicsQueue : Handle
  mPresentQueue : Handle
  mSurface : Handle
  mSwapChain : Handle
  mSwapChainImages : List Handle
  mSwapChainImageViews : List Handle
  mSwapChainImageFormat : Nat
  mSwapChainExtent : VkExtent2D
  mRenderPass : Handle
  mPipelineLayout : Handle
  mGraphicsPipeline : Handle
  mSwapChainFramebuffers : List Handle
  mCommandPool : Handle
  mCommandBuffer : Handle
  mImageAvailableSemaphore : Handle
  mRenderFinishedSemaphore : Handle
  mInFlightFence : Handle
  mDebugMessenger : Handle
  deriving DecidableEq, Repr

/-- The enumeration `VkSharingMode`. -/
inductive VkSharingMode where
  | VK_SHARING_MODE_EXCLUSIVE
  | VK_SHARING_MODE_CONCURRENT
  deriving DecidableEq, Repr

/-- Flag `VK_IMAGE_USAGE_COLOR_ATTACHMENT_BIT`. -/
def VK_IMAGE_USAGE_COLOR_ATTACHMENT_BIT : Nat := 16

/-- Flag `VK_COMPOSITE_ALPHA_OPAQUE_BIT_KHR`. -/
def VK_COMPOSITE_ALPHA_OPAQUE_BIT_KHR : Nat := 1

/-- Enumerator `VK_IMAGE_VIEW_TYPE_2D`. -/
def VK_IMAGE_VIEW_TYPE_2D : Nat := 1

/-- Enumerator `VK_COMPONENT_SWIZZLE_IDENTITY`. -/
def VK_COMPONENT_SWIZZLE_IDENTITY : Nat := 0

/-- Flag `VK_IMAGE_ASPECT_COLOR_BIT`. -/
def VK_IMAGE_ASPECT_COLOR_BIT : Nat := 1

/-- Flag `VK_PIPELINE_STAGE_COLOR_ATTACHMENT_OUTPUT_BIT`. -/
def VK_PIPELINE_STAGE_COLOR_ATTACHMENT_OUTPUT_BIT : Nat := 1024

/-- Enumerator `VK_PIPELINE_BIND_POINT_GRAPHICS`. -/
def VK_PIPELINE_BIND_POINT_GRAPHICS : Nat := 0

/-- Enumerator `VK_SUBPASS_CONTENTS_INLINE`. -/
def VK_SUBPASS_CONTENTS_INLINE : Nat := 0

/-- The fields of `VkSwapchainCreateInfoKHR` set in lines 630-657.
`pQueueFamilyIndices` is `none` for `nullptr`. -/
structure VkSwapchainCreateInfoKHR where
  surface : Handle
  minImageCount : Nat
  imageFormat : Nat
  imageColorSpace : Nat
  imageExtent : VkExtent2D
  imageArrayLayers : Nat
  imageUsage : Nat
  imageSharingMode : VkSharingMode
  queueFamilyIndexCount : Nat
  pQueueFamilyIndices : Option (List Nat)
  preTransform : Nat
  compositeAlpha : Nat
  presentMode : Nat
  clipped : Bool
  oldSwapchain : Handle
  deriving DecidableEq, Repr

/-- The fields of `VkImageViewCreateInfo` set in lines 592-607. -/
structure VkImageViewCreateInfo where
  image : Handle
  viewType : Nat
  format : Nat
  componentsR : Nat
  componentsG : Nat
  componentsB : Nat
  componentsA : Nat
  aspectMask : Nat
  baseMipLevel : Nat
  levelCount : Nat
  baseArrayLayer : Nat
  layerCount : Nat
  deriving DecidableEq, Repr

/-- The fields of `VkFramebufferCreateInfo` set in lines 333-341;
`attachmentCount` is the length of `pAttachments`. -/
structure VkFramebufferCreateInfo where
  renderPass : Handle
  pAttachments : List Handle
  width : Nat
  height : Nat
  layers : Nat
  deriving DecidableEq, Repr

/-- The fields of `VkDeviceQueueCreateInfo` set in lines 784-788.  The one
priority `1.0f` is held as the number 1. -/
structure VkDeviceQueueCreateInfo where
  queueFamilyIndex : Nat
  queueCount : Nat
  pQueuePriorities : List Nat
  deriving DecidableEq, Repr

/-- The fields of `VkDeviceCreateInfo` set in lines 796-814; the counts are the
lengths of the lists. -/
structure VkDeviceCreateInfo where
  pQueueCreateInfos : List VkDeviceQueueCreateInfo
  ppEnabledExtensionNames : List String
  ppEnabledLayerNames : List String
  deriving DecidableEq, Repr

/-- The struct `VkRect2D`. -/
structure VkRect2D where
  offsetX : Int
  offsetY : Int
  extent : VkExtent2D
  deriving DecidableEq, Repr

/-- The struct `VkViewport`.  Its fields are `float`s; each holds the integer
the source converts (the conversion itself is not modelled). -/
structure VkViewport where
  x : Nat
  y : Nat
  width : Nat
  height : Nat
  minDepth : Nat
  maxDepth : Nat
  deriving DecidableEq, Repr

/-- The fields of `VkRenderPassBeginInfo` set in lines 258-267; a clear value
is its four colour components, `clearValueCount` the length of the list. -/
structure VkRenderPassBeginInfo where
  renderPass : Handle
  framebuffer : Handle
  renderArea : VkRect2D
  pClearValues : List (List Nat)
  deriving DecidableEq, Repr

/-- The fields of `VkSubmitInfo` set in lines 213-223; the counts are the
lengths of the lists. -/
structure VkSubmitInfo where
  pWaitSemaphores : List Handle
  pWaitDstStageMask : List Nat
  pCommandBuffers : List Handle
  pSignalSemaphores : List Handle
  deriving DecidableEq, Repr

/-- The fields of `VkPresentInfoKHR` set in lines 230-239. -/
structure VkPresentInfoKHR where
  pWaitSemaphores : List Handle
  pSwapchains : List Handle
  pImageIndices : List Nat
  deriving DecidableEq, Repr

/-- The fields of `VkInstanceCreateInfo` set in lines 1113-1134; `chainsDebugInfo`
says that `pNext` points to the debug messenger create info. -/
structure VkInstanceCreateInfo where
  flags : Nat
  ppEnabledExtensionNames : List String
  ppEnabledLayerNames : List String
  chainsDebugInfo : Bool
  deriving DecidableEq, Repr

/-- The fields of the render pass description of lines 365-409 that vary or
that the specification names: the format, load and store operation and the
initial and final layout of the one colour attachment, and the numbers of
attachments, subpasses and dependencies. -/
structure VkRenderPassCreateInfo where
  format : Nat
  loadOp : Nat
  storeOp : Nat
  initialLayout : Nat
  finalLayout : Nat
  attachmentCount : Nat
  subpassCount : Nat
  dependencyCount : Nat
  deriving DecidableEq, Repr

/-- The fields of `VkGraphicsPipelineCreateInfo` (lines 559-577) that hold
handles: the modules of the vertex and the fragment stage, the layout and the
render pass with its subpass. -/
structure VkGraphicsPipelineCreateInfo where
  vertexModule : Handle
  fragmentModule : Handle
  layout : Handle
  renderPass : Handle
  subpass : Nat
  deriving DecidableEq, Repr

/-- One logged call of the platform, with its arguments and, where the source
reads it, what the platform answered. -/
inductive Call where
  | vkCreateDevice (physicalDevice : Handle) (info : VkDeviceCreateInfo)
      (result : VkResult) (device : Handle)
  | vkGetDeviceQueue (device : Handle) (queueFamilyIndex queueIndex : Nat)
      (queue : Handle)
  | vkCreateSwapchainKHR (device : Handle) (info : VkSwapchainCreateInfoKHR)
      (result : VkResult) (swapchain : Handle)
  | vkCreateImageView (device : Handle) (info : VkImageViewCreateInfo)
      (result : VkResult) (view : Handle)
  | vkCreateFramebuffer (device : Handle) (info : VkFramebufferCreateInfo)
      (result : VkResult) (framebuffer : Handle)
  | vkWaitForFences (device : Handle) (fences : List Handle) (waitAll : Bool)
      (timeout : Nat)
  | vkResetFences (device : Handle) (fences : List Handle)
  | vkAcquireNextImageKHR (device swapchain : Handle) (timeout : Nat)
      (semaphore fence : Handle) (result : VkResult) (imageIndex : Nat)
  | vkResetCommandBuffer (commandBuffer : Handle) (flags : Nat)
  | vkBeginCommandBuffer (commandBuffer : Handle) (result : VkResult)
  | vkCmdBeginRenderPass (commandBuffer : Handle) (info : VkRenderPassBeginInfo)
      (contents : Nat)
  | vkCmdBindPipeline (commandBuffer : Handle) (bindPoint : Nat) (pipeline : Handle)
  | vkCmdSetViewport (commandBuffer : Handle) (firstViewport : Nat)
      (viewports : List VkViewport)
  | vkCmdSetScissor (commandBuffer : Handle) (firstScissor : Nat)
      (scissors : List VkRect2D)
  | vkCmdDraw (commandBuffer : Handle)
      (vertexCount instanceCount firstVertex firstInstance : Nat)
  | vkCmdEndRenderPass (commandBuffer : Handle)
  | vkEndCommandBuffer (commandBuffer : Handle) (result : VkResult)
  | vkQueueSubmit (queue : Handle) (submits : List VkSubmitInfo) (fence : Handle)
      (result : VkResult)
  | vkQueuePresentKHR (queue : Handle) (info : VkPresentInfoKHR) (result : VkResult)
  | glfwInit
  | glfwTerminate
  | glfwCreateWindow (width height : Nat) (window : Handle)
  | glfwDestroyWindow (window : Handle)
  | glfwWindowShouldClose (window : Handle) (close : Bool)
  | glfwPollEvents
  | vkCreateInstance (info : VkInstanceCreateInfo) (result : VkResult) (inst : Handle)
  | vkCreateDebugUtilsMessengerEXT (inst : Handle) (result : VkResult)
      (messenger : Handle)
  | glfwCreateWindowSurface (inst window : Handle) (result : VkResult)
      (surface : Handle)
  | vkCreateRenderPass (device : Handle) (info : VkRenderPassCreateInfo)
      (result : VkResult) (renderPass : Handle)
  | vkCreateShaderModule (device : Handle) (code : List Nat) (result : VkResult)
      (shaderModule : Handle)
  | vkDestroyShaderModule (device shaderModule : Handle)
  | vkCreatePipelineLayout (device : Handle) (result : VkResult) (layout : Handle)
  | vkCreateGraphicsPipelines (device : Handle) (info : VkGraphicsPipelineCreateInfo)
      (result : VkResult) (pipeline : Handle)
  | vkCreateCommandPool (device : Handle) (flags queueFamilyIndex : Nat)
      (result : VkResult) (commandPool : Handle)
  | vkAllocateCommandBuffers (device commandPool : Handle) (count : Nat)
      (result : VkResult) (commandBuffer : Handle)
  | vkCreateSemaphore (device : Handle) (result : VkResult) (semaphore : Handle)
  | vkCreateFence (device : Handle) (flags : Nat) (result : VkResult) (fence : Handle)
  | vkDeviceWaitIdle (device : Handle)
  | vkDestroySemaphore (device semaphore : Handle)
  | vkDestroyFence (device fence : Handle)
  | vkDestroyCommandPool (device commandPool : Handle)
  | vkDestroyFramebuffer (device framebuffer : Handle)
  | vkDestroyPipeline (device pipeline : Handle)
  | vkDestroyPipelineLayout (device layout : Handle)
  | vkDestroyRenderPass (device renderPass : Handle)
  | vkDestroyImageView (device view : Handle)
  | vkDestroySwapchainKHR (device swapchain : Handle)
  | vkDestroyDevice (device : Handle)
  | vkDestroyDebugUtilsMessengerEXT (inst messenger : Handle)
  | vkDestroySurfaceKHR (inst surface : Handle)
  | vkDestroyInstance (inst : Handle)
  deriving Repr

/-- Whether two logged calls are the same function called with the same
arguments and answered the same. -/
def Call.same : Call → Call → Bool
  | .vkCreateDevice a1 a2 a3 a4, .vkCreateDevice b1 b2 b3 b4 =>
    decide (a1 = b1 ∧ a2 = b2 ∧ a3 = b3 ∧ a4 = b4)
  | .vkGetDeviceQueue a1 a2 a3 a4, .vkGetDeviceQueue b1 b2 b3 b4 =>
    decide (a1 = b1 ∧ a2 = b2 ∧ a3 = b3 ∧ a4 = b4)
  | .vkCreateSwapchainKHR a1 a2 a3 a4, .vkCreateSwapchainKHR b1 b2 b3 b4 =>
    decide (a1 = b1 ∧ a2 = b2 ∧ a3 = b3 ∧ a4 = b4)
  | .vkCreateImageView a1 a2 a3 a4, .vkCreateImageView b1 b2 b3 b4 =>
    decide (a1 = b1 ∧ a2 = b2 ∧ a3 = b3 ∧ a4 = b4)
  | .vkCreateFramebuffer a1 a2 a3 a4, .vkCreateFramebuffer b1 b2 b3 b4 =>
    decide (a1 = b1 ∧ a2 = b2 ∧ a3 = b3 ∧ a4 = b4)
  | .vkWaitForFences a1 a2 a3 a4, .vkWaitForFences b1 b2 b3 b4 =>
    decide (a1 = b1 ∧ a2 = b2 ∧ a3 = b3 ∧ a4 = b4)
  | .vkResetFences a1 a2, .vkResetFences b1 b2 => decide (a1 = b1 ∧ a2 = b2)
  | .vkAcquireNextImageKHR a1 a2 a3 a4 a5 a6 a7, .vkAcquireNextImageKHR b1 b2 b3 b4 b5 b6 b7 =>
    decide (a1 = b1 ∧ a2 = b2 ∧ a3 = b3 ∧ a4 = b4 ∧ a5 = b5 ∧ a6 = b6 ∧ a7 = b7)
  | .vkResetCommandBuffer a1 a2, .vkResetCommandBuffer b1 b2 => decide (a1 = b1 ∧ a2 = b2)
  | .vkBeginCommandBuffer a1 a2, .vkBeginCommandBuffer b1 b2 => decide (a1 = b1 ∧ a2 = b2)
  | .vkCmdBeginRenderPass a1 a2 a3, .vkCmdBeginRenderPass b1 b2 b3 =>
    decide (a1 = b1 ∧ a2 = b2 ∧ a3 = b3)
  | .vkCmdBindPipeline a1 a2 a3, .vkCmdBindPipeline b1 b2 b3 => decide (a1 = b1 ∧ a2 = b2 ∧ a3 = b3)
  | .vkCmdSetViewport a1 a2 a3, .vkCmdSetViewport b1 b2 b3 => decide (a1 = b1 ∧ a2 = b2 ∧ a3 = b3)
  | .vkCmdSetScissor a1 a2 a3, .vkCmdSetScissor b1 b2 b3 => decide (a1 = b1 ∧ a2 = b2 ∧ a3 = b3)
  | .vkCmdDraw a1 a2 a3 a4 a5, .vkCmdDraw b1 b2 b3 b4 b5 =>
    decide (a1 = b1 ∧ a2 = b2 ∧ a3 = b3 ∧ a4 = b4 ∧ a5 = b5)
  | .vkCmdEndRenderPass a1, .vkCmdEndRenderPass b1 => decide (a1 = b1)
  | .vkEndCommandBuffer a1 a2, .vkEndCommandBuffer b1 b2 => decide (a1 = b1 ∧ a2 = b2)
  | .vkQueueSubmit a1 a2 a3 a4, .vkQueueSubmit b1 b2 b3 b4 =>
    decide (a1 = b1 ∧ a2 = b2 ∧ a3 = b3 ∧ a4 = b4)
  | .vkQueuePresentKHR a1 a2 a3, .vkQueuePresentKHR b1 b2 b3 => decide (a1 = b1 ∧ a2 = b2 ∧ a3 = b3)
  | .glfwInit, .glfwInit => true
  | .glfwTerminate, .glfwTerminate => true
  | .glfwCreateWindow a1 a2 a3, .glfwCreateWindow b1 b2 b3 => decide (a1 = b1 ∧ a2 = b2 ∧ a3 = b3)
  | .glfwDestroyWindow a1, .glfwDestroyWindow b1 => decide (a1 = b1)
  | .glfwWindowShouldClose a1 a2, .glfwWindowShouldClose b1 b2 => decide (a1 = b1 ∧ a2 = b2)
  | .glfwPollEvents, .glfwPollEvents => true
  | .vkCreateInstance a1 a2 a3, .vkCreateInstance b1 b2 b3 => decide (a1 = b1 ∧ a2 = b2 ∧ a3 = b3)
  | .vkCreateDebugUtilsMessengerEXT a1 a2 a3, .vkCreateDebugUtilsMessengerEXT b1 b2 b3 =>
    decide (a1 = b1 ∧ a2 = b2 ∧ a3 = b3)
  | .glfwCreateWindowSurface a1 a2 a3 a4, .glfwCreateWindowSurface b1 b2 b3 b4 =>
    decide (a1 = b1 ∧ a2 = b2 ∧ a3 = b3 ∧ a4 = b4)
  | .vkCreateRenderPass a1 a2 a3 a4, .vkCreateRenderPass b1 b2 b3 b4 =>
    decide (a1 = b1 ∧ a2 = b2 ∧ a3 = b3 ∧ a4 = b4)
  | .vkCreateShaderModule a1 a2 a3 a4, .vkCreateShaderModule b1 b2 b3 b4 =>
    decide (a1 = b1 ∧ a2 = b2 ∧ a3 = b3 ∧ a4 = b4)
  | .vkDestroyShaderModule a1 a2, .vkDestroyShaderModule b1 b2 => decide (a1 = b1 ∧ a2 = b2)
  | .vkCreatePipelineLayout a1 a2 a3, .vkCreatePipelineLayout b1 b2 b3 =>
    decide (a1 = b1 ∧ a2 = b2 ∧ a3 = b3)
  | .vkCreateGraphicsPipelines a1 a2 a3 a4, .vkCreateGraphicsPipelines b1 b2 b3 b4 =>
    decide (a1 = b1 ∧ a2 = b2 ∧ a3 = b3 ∧ a4 = b4)
  | .vkCreateCommandPool a1 a2 a3 a4 a5, .vkCreateCommandPool b1 b2 b3 b4 b5 =>
    decide (a1 = b1 ∧ a2 = b2 ∧ a3 = b3 ∧ a4 = b4 ∧ a5 = b5)
  | .vkAllocateCommandBuffers a1 a2 a3 a4 a5, .vkAllocateCommandBuffers b1 b2 b3 b4 b5 =>
    decide (a1 = b1 ∧ a2 = b2 ∧ a3 = b3 ∧ a4 = b4 ∧ a5 = b5)
  | .vkCreateSemaphore a1 a2 a3, .vkCreateSemaphore b1 b2 b3 => decide (a1 = b1 ∧ a2 = b2 ∧ a3 = b3)
  | .vkCreateFence a1 a2 a3 a4, .vkCreateFence b1 b2 b3 b4 =>
    decide (a1 = b1 ∧ a2 = b2 ∧ a3 = b3 ∧ a4 = b4)
  | .vkDeviceWaitIdle a1, .vkDeviceWaitIdle b1 => decide (a1 = b1)
  | .vkDestroySemaphore a1 a2, .vkDestroySemaphore b1 b2 => decide (a1 = b1 ∧ a2 = b2)
  | .vkDestroyFence a1 a2, .vkDestroyFence b1 b2 => decide (a1 = b1 ∧ a2 = b2)
  | .vkDestroyCommandPool a1 a2, .vkDestroyCommandPool b1 b2 => decide (a1 = b1 ∧ a2 = b2)
  | .vkDestroyFramebuffer a1 a2, .vkDestroyFramebuffer b1 b2 => decide (a1 = b1 ∧ a2 = b2)
  | .vkDestroyPipeline a1 a2, .vkDestroyPipeline b1 b2 => decide (a1 = b1 ∧ a2 = b2)
  | .vkDestroyPipelineLayout a1 a2, .vkDestroyPipelineLayout b1 b2 => decide (a1 = b1 ∧ a2 = b2)
  | .vkDestroyRenderPass a1 a2, .vkDestroyRenderPass b1 b2 => decide (a1 = b1 ∧ a2 = b2)
  | .vkDestroyImageView a1 a2, .vkDestroyImageView b1 b2 => decide (a1 = b1 ∧ a2 = b2)
  | .vkDestroySwapchainKHR a1 a2, .vkDestroySwapchainKHR b1 b2 => decide (a1 = b1 ∧ a2 = b2)
  | .vkDestroyDevice a1, .vkDestroyDevice b1 => decide (a1 = b1)
  | .vkDestroyDebugUtilsMessengerEXT a1 a2, .vkDestroyDebugUtilsMessengerEXT b1 b2 =>
    decide (a1 = b1 ∧ a2 = b2)
  | .vkDestroySurfaceKHR a1 a2, .vkDestroySurfaceKHR b1 b2 => decide (a1 = b1 ∧ a2 = b2)
  | .vkDestroyInstance a1, .vkDestroyInstance b1 => decide (a1 = b1)
  | _, _ => false

set_option maxHeartbeats 4000000 in
instance : DecidableEq Call := fun a b =>
  decidable_of_iff (Call.same a b = true) (by
    constructor
    · intro h
      cases a <;> cases b <;>
        first
          | rfl
          | exact absurd h Bool.false_ne_true
          | (have h2 := of_decide_eq_true h; simp [h2])
    · intro h
      subst h
      cases a <;> first | rfl | exact decide_eq_true (by simp))

/-! ## Logical device (lines 774-822) -/

/-- Insertion into a `std::set<uint32_t>`, held as a strictly increasing list. -/
def stdSetInsert (x : Nat) : List Nat → List Nat
  | [] => [x]
  | y :: ys =>
    if x < y then x :: y :: ys
    else if x = y then y :: ys
    else y :: stdSetInsert x ys

/-- Construction of a `std::set<uint32_t>` from an initializer list. -/
def stdSetOfList (xs : List Nat) : List Nat :=
  xs.foldl (fun set x => stdSetInsert x set) []

/-- What the platform answers during `createLogicalDevice`: the result and
handle of `vkCreateDevice`, and the queues handed out by the two
`vkGetDeviceQueue` calls. -/
structure LogicalDeviceAnswers where
  result : VkResult
  device : Handle
  graphicsQueue : Handle
  presentQueue : Handle
  deriving DecidableEq, Repr

/-- `ApplicationFw::createLogicalDevice` (lines 774-822). -/
def createLogicalDevice (s : App) (a : LogicalDeviceAnswers) :
    List Call × Except Abort App :=
  match s.mPhysicalDevice with
  | none => ([], .error .nullPhysicalDevice)
  | some physicalDevice =>
    match findQueueFamilies physicalDevice with
    | .error e => ([], .error e)
    | .ok indices =>
      match indices.graphicsFamily, indices.presentFamily with
      | some graphicsFamily, some presentFamily =>
        let uniqueQueueFamilies := stdSetOfList [graphicsFamily, presentFamily]
        let deviceQueueCreateInfos : List VkDeviceQueueCreateInfo :=
          uniqueQueueFamilies.map (fun queueFamily => ⟨queueFamily, 1, [1]⟩)
        let deviceCreateInfo : VkDeviceCreateInfo :=
          ⟨deviceQueueCreateInfos, deviceExtensions,
            if enableValidationLayer then validationLayers else []⟩
        let created :=
          Call.vkCreateDevice physicalDevice.handle deviceCreateInfo a.result a.device
        if a.result ≠ VK_SUCCESS then ([created], .error (.assertFailed 817))
        else
          ([created,
            Call.vkGetDeviceQueue a.device graphicsFamily 0 a.graphicsQueue,
            Call.vkGetDeviceQueue a.device presentFamily 0 a.presentQueue],
           .ok { s with mDevice := a.device, mGraphicsQueue := a.graphicsQueue,
                        mPresentQueue := a.presentQueue })
      | _, _ => ([], .error .badOptionalAccess)

/-! ## Swapchain, image views and framebuffers (lines 325-347, 586-672) -/

/-- What the platform answers during `createSwapChain`: the framebuffer size
of `glfwGetFramebufferSize`, the result and handle of `vkCreateSwapchainKHR`,
and the images of the swapchain as `vkGetSwapchainImagesKHR` returns them
(their number is the count of the first call, the list what the second call
writes). -/
structure SwapChainAnswers where
  fbWidth : Int
  fbHeight : Int
  result : VkResult
  swapchain : Handle
  images : List Handle
  deriving DecidableEq, Repr

/-- `ApplicationFw::createSwapChain` (lines 613-672). -/
def createSwapChain (s : App) (a : SwapChainAnswers) : List Call × Except Abort App :=
  match s.mPhysicalDevice with
  | none => ([], .error .nullPhysicalDevice)
  | some physicalDevice =>
    match querySwapChainSupport physicalDevice with
    | .error e => ([], .error e)
    | .ok swapChainSupport =>
      match chooseSwapSurfaceFormat swapChainSupport.formats with
      | .error e => ([], .error e)
      | .ok surfaceFormat =>
        let presentMode := chooseSwapPresentMode swapChainSupport.presentModes
        let extent := chooseSwapExtent swapChainSupport.capabilities a.fbWidth a.fbHeight
        let imageCount0 := (swapChainSupport.capabilities.minImageCount + 1) % 4294967296
        let imageCount :=
          if swapChainSupport.capabilities.maxImageCount > 0
              ∧ imageCount0 > swapChainSupport.capabilities.maxImageCount then
            swapChainSupport.capabilities.maxImageCount
          else imageCount0
        match findQueueFamilies physicalDevice with
        | .error e => ([], .error e)
        | .ok indices =>
          match indices.graphicsFamily, indices.presentFamily with
          | some graphicsFamily, some presentFamily =>
            let queueFamilyIndices := [graphicsFamily, presentFamily]
            let concurrent : Bool :=
              decide (indices.graphicsFamily ≠ indices.presentFamily)
            let swapChainCreateInfo : VkSwapchainCreateInfoKHR :=
              { surface := s.mSurface
                minImageCount := imageCount
                imageFormat := surfaceFormat.format
                imageColorSpace := surfaceFormat.colorSpace
                imageExtent := extent
                imageArrayLayers := 1
                imageUsage := VK_IMAGE_USAGE_COLOR_ATTACHMENT_BIT
                imageSharingMode :=
                  if concurrent then .VK_SHARING_MODE_CONCURRENT
                  else .VK_SHARING_MODE_EXCLUSIVE
                queueFamilyIndexCount := if concurrent then 2 else 0
                pQueueFamilyIndices := if concurrent then some queueFamilyIndices else none
                preTransform := swapChainSupport.capabilities.currentTransform
                compositeAlpha := VK_COMPOSITE_ALPHA_OPAQUE_BIT_KHR
                presentMode := presentMode
                clipped := true
                oldSwapchain := 0 }
            let created :=
              Call.vkCreateSwapchainKHR s.mDevice swapChainCreateInfo a.result a.swapchain
            if a.result ≠ VK_SUCCESS then ([created], .error (.assertFailed 660))
            else
              let swapChainImagesCount := a.images.length
              if ¬ (swapChainImagesCount > 0) then ([created], .error (.assertFailed 665))
              else
                ([created],
                 .ok { s with mSwapChain := a.swapchain
                              mSwapChainImages := a.images
                              mSwapChainImageFormat := surfaceFormat.format
                              mSwapChainExtent := extent })
          | _, _ => ([], .error .badOptionalAccess)

/-- The call `std::vector::resize(n)` on a vector of handles: the first `n`
elements are kept, missing ones are value-initialised. -/
def vectorResize (xs : List Handle) (n : Nat) : List Handle :=
  xs.take n ++ List.replicate (n - xs.length) 0

/-- The create info of image view `i` (lines 592-607). -/
def imageViewCreateInfo (s : App) (i : Nat) : VkImageViewCreateInfo :=
  { image := s.mSwapChainImages.getD i 0
    viewType := VK_IMAGE_VIEW_TYPE_2D
    format := s.mSwapChainImageFormat
    componentsR := VK_COMPONENT_SWIZZLE_IDENTITY
    componentsG := VK_COMPONENT_SWIZZLE_IDENTITY
    componentsB := VK_COMPONENT_SWIZZLE_IDENTITY
    componentsA := VK_COMPONENT_SWIZZLE_IDENTITY
    aspectMask := VK_IMAGE_ASPECT_COLOR_BIT
    baseMipLevel := 0
    levelCount := 1
    baseArrayLayer := 0
    layerCount := 1 }

/-- The loop of `createImageViews` (lines 590-610): `remaining` iterations are
left, `i` is the loop index, `views` the vector `mSwapChainImageViews`;
`answer i` is the result and handle `vkCreateImageView` returns in iteration
`i`.  The result is the calls made and the vector at the end. -/
def createImageViewsLoop (s : App) (answer : Nat → VkResult × Handle) :
    Nat → Nat → List Handle → List Call × Except Abort (List Handle)
  | 0, _, views => ([], .ok views)
  | remaining + 1, i, views =>
    let created :=
      Call.vkCreateImageView s.mDevice (imageViewCreateInfo s i) (answer i).1 (answer i).2
    if (answer i).1 ≠ VK_SUCCESS then ([created], .error (.assertFailed 609))
    else
      let r := createImageViewsLoop s answer remaining (i + 1) (views.set i (answer i).2)
      (created :: r.1, r.2)

/-- `ApplicationFw::createImageViews` (lines 586-611). -/
def createImageViews (s : App) (answer : Nat → VkResult × Handle) :
    List Call × Except Abort App :=
  let views := vectorResize s.mSwapChainImageViews s.mSwapChainImages.length
  match createImageViewsLoop s answer s.mSwapChainImages.length 0 views with
  | (log, .error e) => (log, .error e)
  | (log, .ok views1) => (log, .ok { s with mSwapChainImageViews := views1 })

/-- The create info of framebuffer `i` (lines 331-341). -/
def framebufferCreateInfo (s : App) (i : Nat) : VkFramebufferCreateInfo :=
  let attachments := [s.mSwapChainImageViews.getD i 0]
  { renderPass := s.mRenderPass
    pAttachments := attachments
    width := s.mSwapChainExtent.width
    height := s.mSwapChainExtent.height
    layers := 1 }

/-- The loop of `createFramebuffers` (lines 329-346), in the manner of
`createImageViewsLoop`; `framebuffers` is the vector `mSwapChainFramebuffers`. -/
def createFramebuffersLoop (s : App) (answer : Nat → VkResult × Handle) :
    Nat → Nat → List Handle → List Call × Except Abort (List Handle)
  | 0, _, framebuffers => ([], .ok framebuffers)
  | remaining + 1, i, framebuffers =>
    let created :=
      Call.vkCreateFramebuffer s.mDevice (framebufferCreateInfo s i) (answer i).1 (answer i).2
    if (answer i).1 ≠ VK_SUCCESS then ([created], .error (.assertFailed 344))
    else
      let r := createFramebuffersLoop s answer remaining (i + 1)
        (framebuffers.set i (answer i).2)
      (created :: r.1, r.2)

/-- `ApplicationFw::createFramebuffers` (lines 325-347). -/
def createFramebuffers (s : App) (answer : Nat → VkResult × Handle) :
    List Call × Except Abort App :=
  let framebuffers := vectorResize s.mSwapChainFramebuffers s.mSwapChainImageViews.length
  match createFramebuffersLoop s answer s.mSwapChainImageViews.length 0 framebuffers with
  | (log, .error e) => (log, .error e)
  | (log, .ok framebuffers1) => (log, .ok { s with mSwapChainFramebuffers := framebuffers1 })

/-! ## Command recording and the frame (lines 193-294) -/

/-- `ApplicationFw::recordCommandBuffer` (lines 245-294).  `beginResult` and
`endResult` are what `vkBeginCommandBuffer` and `vkEndCommandBuffer` return.
The subscript `mSwapChainFramebuffers[imageIndex]` of line 262 is unchecked;
outside the vector it is `Abort.outOfBounds`. -/
def recordCommandBuffer (s : App) (commandBuffer : Handle) (imageIndex : Nat)
    (beginResult endResult : VkResult) : List Call × Except Abort Unit :=
  let begun := Call.vkBeginCommandBuffer commandBuffer beginResult
  if beginResult ≠ VK_SUCCESS then ([begun], .error (.assertFailed 255))
  else
    let clearColor : List Nat := [1, 1, 0, 1]
    match s.mSwapChainFramebuffers.get? imageIndex with
    | none => ([begun], .error .outOfBounds)
    | some framebuffer =>
      let renderPassBeginInfo : VkRenderPassBeginInfo :=
        { renderPass := s.mRenderPass
          framebuffer := framebuffer
          renderArea := ⟨0, 0, s.mSwapChainExtent⟩
          pClearValues := [clearColor] }
      let viewport : VkViewport :=
        { x := 0
          y := 0
          width := s.mSwapChainExtent.width
          height := s.mSwapChainExtent.height
          minDepth := 0
          maxDepth := 1 }
      let scissor : VkRect2D := ⟨0, 0, s.mSwapChainExtent⟩
      let log :=
        [begun,
         Call.vkCmdBeginRenderPass commandBuffer renderPassBeginInfo VK_SUBPASS_CONTENTS_INLINE,
         Call.vkCmdBindPipeline commandBuffer VK_PIPELINE_BIND_POINT_GRAPHICS
           s.mGraphicsPipeline,
         Call.vkCmdSetViewport commandBuffer 0 [viewport],
         Call.vkCmdSetScissor commandBuffer 0 [scissor],
         Call.vkCmdDraw commandBuffer 3 1 0 0,
         Call.vkCmdEndRenderPass commandBuffer,
         Call.vkEndCommandBuffer commandBuffer endResult]
      if endResult ≠ VK_SUCCESS then (log, .error (.assertFailed 293))
      else (log, .ok ())

/-- What the platform answers during one `drawFrame`: the result and image
index of `vkAcquireNextImageKHR` and the results of `vkBeginCommandBuffer`,
`vkEndCommandBuffer`, `vkQueueSubmit` and `vkQueuePresentKHR`. -/
structure FrameAnswers where
  acquireResult : VkResult
  imageIndex : Nat
  beginResult : VkResult
  endResult : VkResult
  submitResult : VkResult
  presentResult : VkResult
  deriving DecidableEq, Repr

/-- `ApplicationFw::drawFrame` (lines 193-243). -/
def drawFrame (s : App) (a : FrameAnswers) : List Call × Except Abort Unit :=
  let waited := Call.vkWaitForFences s.mDevice [s.mInFlightFence] true UINT64_MAX
  let reset := Call.vkResetFences s.mDevice [s.mInFlightFence]
  let swapChainImageIndex := a.imageIndex
  let acquired := Call.vkAcquireNextImageKHR s.mDevice s.mSwapChain UINT64_MAX
    s.mImageAvailableSemaphore 0 a.acquireResult swapChainImageIndex
  if a.acquireResult ≠ VK_SUCCESS then
    ([waited, reset, acquired], .error (.assertFailed 201))
  else
    let resetBuffer := Call.vkResetCommandBuffer s.mCommandBuffer 0
    match recordCommandBuffer s s.mCommandBuffer swapChainImageIndex
        a.beginResult a.endResult with
    | (recorded, .error e) => ([waited, reset, acquired, resetBuffer] ++ recorded, .error e)
    | (recorded, .ok _) =>
      let waitSemaphore := [s.mImageAvailableSemaphore]
      let waitStages := [VK_PIPELINE_STAGE_COLOR_ATTACHMENT_OUTPUT_BIT]
      let signalSemaphores := [s.mRenderFinishedSemaphore]
      let submitInfo : VkSubmitInfo :=
        { pWaitSemaphores := waitSemaphore
          pWaitDstStageMask := waitStages
          pCommandBuffers := [s.mCommandBuffer]
          pSignalSemaphores := signalSemaphores }
      let submitted :=
        Call.vkQueueSubmit s.mGraphicsQueue [submitInfo] s.mInFlightFence a.submitResult
      let presentInfoKHR : VkPresentInfoKHR :=
        { pWaitSemaphores := signalSemaphores
          pSwapchains := [s.mSwapChain]
          pImageIndices := [swapChainImageIndex] }
      let presented := Call.vkQueuePresentKHR s.mPresentQueue presentInfoKHR a.presentResult
      ([waited, reset, acquired, resetBuffer] ++ recorded ++ [submitted, presented], .ok ())

/-- Consecutive calls of `drawFrame`, one for each element of `answers`, as
the loop of `mainLoop` makes them (lines 1025-1029); a frame that aborts ends
the run. -/
def drawFrames (s : App) : List FrameAnswers → List Call × Except Abort Unit
  | [] => ([], .ok ())
  | a :: rest =>
    match drawFrame s a with
    | (log, .error e) => (log, .error e)
    | (log, .ok _) =>
      let r := drawFrames s rest
      (log ++ r.1, r.2)

/-- The six steps of a frame. -/
inductive FrameStep where
  | waitGuard
  | resetGuard
  | acquireImage
  | record
  | submit
  | present
  deriving DecidableEq, Repr

/-- The step of a frame a logged call belongs to: the reset of the command
buffer and the calls of `recordCommandBuffer` make up the step `record`. -/
def Call.frameStep : Call → Option FrameStep
  | .vkWaitForFences .. => some .waitGuard
  | .vkResetFences .. => some .resetGuard
  | .vkAcquireNextImageKHR .. => some .acquireImage
  | .vkResetCommandBuffer .. => some .record
  | .vkBeginCommandBuffer .. => some .record
  | .vkCmdBeginRenderPass .. => some .record
  | .vkCmdBindPipeline .. => some .record
  | .vkCmdSetViewport .. => some .record
  | .vkCmdSetScissor .. => some .record
  | .vkCmdDraw .. => some .record
  | .vkCmdEndRenderPass .. => some .record
  | .vkEndCommandBuffer .. => some .record
  | .vkQueueSubmit .. => some .submit
  | .vkQueuePresentKHR .. => some .present
  | _ => none

/-- One occurrence is kept of every run of equal adjacent steps. -/
def collapseRuns : List FrameStep → List FrameStep
  | a :: b :: rest =>
    if a = b then collapseRuns (b :: rest) else a :: collapseRuns (b :: rest)
  | l => l

/-- The steps of a log, in order, a run of calls of one step counted once. -/
def frameSteps (log : List Call) : List FrameStep :=
  collapseRuns (log.filterMap Call.frameStep)

/-- The order of the steps in one frame. -/
def framePattern : List FrameStep :=
  [.waitGuard, .resetGuard, .acquireImage, .record, .submit, .present]

/-- A check of a log used in the proofs: `pending` says that a submission
has been logged since the last wait `waited`; the check fails at a
`vkBeginCommandBuffer` logged while `pending`, and at a submission with a
fence other than `fence`. -/
def guardMonitor (waited : Call) (fence : Handle) : Bool → List Call → Bool
  | _, [] => true
  | pending, c :: rest =>
    if c = waited then guardMonitor waited fence false rest
    else
      match c with
      | .vkQueueSubmit _ _ f _ => decide (f = fence) && guardMonitor waited fence true rest
      | .vkBeginCommandBuffer .. => !pending && guardMonitor waited fence pending rest
      | _ => guardMonitor waited fence pending rest

/-- The create info of the first `vkCreateSwapchainKHR` of a log. -/
def requestedSwapChain : List Call → Option VkSwapchainCreateInfoKHR
  | [] => none
  | .vkCreateSwapchainKHR _ info _ _ :: _ => some info
  | _ :: rest => requestedSwapChain rest

/-- The create info of the first `vkCreateDevice` of a log. -/
def requestedDevice : List Call → Option VkDeviceCreateInfo
  | [] => none
  | .vkCreateDevice _ info _ _ :: _ => some info
  | _ :: rest => requestedDevice rest

/-- A frame answered with success everywhere and an image index inside the
framebuffer vector. -/
def FrameAnswers.succeeds (s : App) (a : FrameAnswers) : Prop :=
  a.acquireResult = VK_SUCCESS ∧ a.beginResult = VK_SUCCESS
    ∧ a.imageIndex < s.mSwapChainFramebuffers.length ∧ a.endResult = VK_SUCCESS

instance (s : App) (a : FrameAnswers) : Decidable (a.succeeds s) := by
  unfold FrameAnswers.succeeds
  infer_instance

/-! ## Sample inputs -/

/-- An adapter with a graphics family 0 and a presentation family 1. -/
def sampleDevice : PhysicalDevice :=
  { handle := 7
    queueFamilies := [⟨1, false⟩, ⟨0, true⟩]
    extensions := ["VK_KHR_swapchain"]
    capabilities := ⟨2, 0, ⟨800, 600⟩, ⟨1, 1⟩, ⟨4096, 4096⟩, 1⟩
    formats := [⟨44, 0⟩, ⟨50, 0⟩]
    presentModes := [2, 1] }

/-- An adapter whose family 0 does graphics and presentation both. -/
def sampleDeviceShared : PhysicalDevice :=
  { sampleDevice with handle := 8, queueFamilies := [⟨1, true⟩] }

/-- An adapter that has the required extension and both queue capabilities
but reports no surface format. -/
def sampleDeviceNoFormats : PhysicalDevice :=
  { sampleDeviceShared with handle := 9, formats := [] }

/-- An adapter whose surface reports `minImageCount = UINT32_MAX`. -/
def sampleDeviceMaxCount : PhysicalDevice :=
  { sampleDevice with
    capabilities := ⟨4294967295, 0, ⟨800, 600⟩, ⟨1, 1⟩, ⟨4096, 4096⟩, 1⟩ }

/-- An application state on the adapter `device`, all handles distinct. -/
def sampleApp (device : PhysicalDevice) : App :=
  { window := 1
    mInstance := 2
    mPhysicalDevice := some device
    mDevice := 3
    mGraphicsQueue := 4
    mPresentQueue := 5
    mSurface := 6
    mSwapChain := 10
    mSwapChainImages := []
    mSwapChainImageViews := []
    mSwapChainImageFormat := 0
    mSwapChainExtent := ⟨0, 0⟩
    mRenderPass := 11
    mPipelineLayout := 12
    mGraphicsPipeline := 13
    mSwapChainFramebuffers := []
    mCommandPool := 14
    mCommandBuffer := 15
    mImageAvailableSemaphore := 16
    mRenderFinishedSemaphore := 17
    mInFlightFence := 18
    mDebugMessenger := 19 }

/-- Answers of a platform that creates a swapchain of three images. -/
def sampleSwapChainAnswers : SwapChainAnswers :=
  { fbWidth := 800, fbHeight := 600, result := VK_SUCCESS, swapchain := 20,
    images := [21, 22, 23] }

/-- Answers of a platform that creates the logical device 24 with the
queues 25 and 26. -/
def sampleLogicalDeviceAnswers : LogicalDeviceAnswers :=
  { result := VK_SUCCESS, device := 24, graphicsQueue := 25, presentQueue := 26 }

/-- The steps of `n` frames, one after the other. -/
def repeatPattern : Nat → List FrameStep
  | 0 => []
  | n + 1 => framePattern ++ repeatPattern n

/-- Answers of a frame in which every call succeeds, on image 1. -/
def sampleFrameAnswers : FrameAnswers :=
  { acquireResult := VK_SUCCESS, imageIndex := 1, beginResult := VK_SUCCESS,
    endResult := VK_SUCCESS, submitResult := VK_SUCCESS, presentResult := VK_SUCCESS }

/-- An application state with three framebuffers, ready to draw. -/
def sampleFrameApp : App :=
  { sampleApp sampleDevice with
    mSwapChainImages := [21, 22, 23]
    mSwapChainImageViews := [30, 31, 32]
    mSwapChainFramebuffers := [40, 41, 42] }

/-- Result code `VK_ERROR_DEVICE_LOST`. -/
def VK_ERROR_DEVICE_LOST : VkResult := -4

/-- Answers of a frame in which only the queue submission fails. -/
def sampleSubmitFailure : FrameAnswers :=
  { sampleFrameAnswers with submitResult := VK_ERROR_DEVICE_LOST }

/-- An adapter whose surface reports `maxImageCount = 3` below
`minImageCount = 5`. -/
def sampleDeviceNarrow : PhysicalDevice :=
  { sampleDevice with
    capabilities := ⟨5, 3, ⟨800, 600⟩, ⟨1, 1⟩, ⟨4096, 4096⟩, 1⟩ }

/-- A capability record whose current extent 800 x 600 is not the sentinel
and lies below the minimum extent 1000 x 1000. -/
def sampleCapabilitiesSmall : VkSurfaceCapabilitiesKHR :=
  ⟨2, 0, ⟨800, 600⟩, ⟨1000, 1000⟩, ⟨2000, 2000⟩, 1⟩

/-! ## Description of the scan of `findQueueFamilies` -/

/-- Family `j` of the list has the graphics bit. -/
def graphicsAt (l : List QueueFamily) (j : Nat) : Prop :=
  ∃ q, l.get? j = some q ∧ q.queueFlags &&& VK_QUEUE_GRAPHICS_BIT ≠ 0

/-- Family `j` of the list can present to the surface. -/
def presentAt (l : List QueueFamily) (j : Nat) : Prop :=
  ∃ q, l.get? j = some q ∧ q.presentSupport = true

/-- The families `0..k` contain a graphics-capable one and a
presentation-capable one. -/
def bothWithin (l : List QueueFamily) (k : Nat) : Prop :=
  (∃ i, i ≤ k ∧ graphicsAt l i) ∧ (∃ j, j ≤ k ∧ presentAt l j)

/-- The index of the last family with property `p`, counted from `i`, or
`found` when there is none: what one member of `QueueFamilyIndices` holds
after a scan of the whole list without the `break`. -/
def lastCapable (p : QueueFamily → Prop) [DecidablePred p] :
    List QueueFamily → Nat → Option Nat → Option Nat
  | [], _, found => found
  | q :: rest, i, found => lastCapable p rest (i + 1) (if p q then some i else found)

/-- The indices after one pass of the loop body of `findQueueFamilies`
(lines 839-848). -/
def familyStep (q : QueueFamily) (i : Nat) (indices : QueueFamilyIndices) :
    QueueFamilyIndices :=
  ⟨if q.queueFlags &&& VK_QUEUE_GRAPHICS_BIT ≠ 0 then some i else indices.graphicsFamily,
   if q.presentSupport = true then some i else indices.presentFamily⟩

/-- The indices after a scan of the whole list without the `break`. -/
def scanFamilies (l : List QueueFamily) (i : Nat) (indices : QueueFamilyIndices) :
    QueueFamilyIndices :=
  ⟨lastCapable (fun q => q.queueFlags &&& VK_QUEUE_GRAPHICS_BIT ≠ 0) l i
     indices.graphicsFamily,
   lastCapable (fun q => q.presentSupport = true) l i indices.presentFamily⟩

/-- An adapter with the families: graphics only, graphics only, presentation
only, both. -/
def sampleDeviceFour : PhysicalDevice :=
  { sampleDevice with queueFamilies := [⟨1, false⟩, ⟨1, false⟩, ⟨0, true⟩, ⟨1, true⟩] }

/-! ## Start-up, main loop and teardown (lines 54-60, 108-123, 174-191,
296-323, 349-424, 547-584, 768-772, 930-1065, 1067-1138) -/

/-- Result code `VK_ERROR_EXTENSION_NOT_PRESENT`. -/
def VK_ERROR_EXTENSION_NOT_PRESENT : VkResult := -7

/-- The constant `WIDTH` (line 31). -/
def WIDTH : Nat := 800

/-- The constant `HEIGHT` (line 32). -/
def HEIGHT : Nat := 600

/-- Flag `VK_INSTANCE_CREATE_ENUMERATE_PORTABILITY_BIT_KHR`. -/
def VK_INSTANCE_CREATE_ENUMERATE_PORTABILITY_BIT_KHR : Nat := 1

/-- Flag `VK_COMMAND_POOL_CREATE_RESET_COMMAND_BUFFER_BIT`. -/
def VK_COMMAND_POOL_CREATE_RESET_COMMAND_BUFFER_BIT : Nat := 2

/-- Flag `VK_FENCE_CREATE_SIGNALED_BIT`. -/
def VK_FENCE_CREATE_SIGNALED_BIT : Nat := 1

/-- Enumerator `VK_ATTACHMENT_LOAD_OP_CLEAR`. -/
def VK_ATTACHMENT_LOAD_OP_CLEAR : Nat := 1

/-- Enumerator `VK_ATTACHMENT_STORE_OP_STORE`. -/
def VK_ATTACHMENT_STORE_OP_STORE : Nat := 0

/-- Enumerator `VK_IMAGE_LAYOUT_UNDEFINED`. -/
def VK_IMAGE_LAYOUT_UNDEFINED : Nat := 0

/-- Enumerator `VK_IMAGE_LAYOUT_PRESENT_SRC_KHR`. -/
def VK_IMAGE_LAYOUT_PRESENT_SRC_KHR : Nat := 1000001002

/-- What the platform and the file system answer during `initWindow` and
`initVulkan`, call by call.  `vertexFile` and `fragmentFile` are the contents
of `shader.vert.spv` and `shader.frag.spv`, `none` for a file that cannot be
opened; `createMessengerFound` says that `vkGetInstanceProcAddr` finds
`vkCreateDebugUtilsMessengerEXT`. -/
structure StartupAnswers where
  vulkanSupported : Bool
  window : Handle
  glfwExtensions : List String
  instanceLayers : List String
  instanceResult : VkResult
  inst : Handle
  createMessengerFound : Bool
  messengerResult : VkResult
  messenger : Handle
  surfaceResult : VkResult
  surface : Handle
  physicalDevices : List PhysicalDevice
  logicalDevice : LogicalDeviceAnswers
  swapChain : SwapChainAnswers
  imageView : Nat → VkResult × Handle
  renderPassResult : VkResult
  renderPass : Handle
  vertexFile : Option (List Nat)
  fragmentFile : Option (List Nat)
  vertexModule : VkResult × Handle
  fragmentModule : VkResult × Handle
  layoutResult : VkResult
  layout : Handle
  pipelineResult : VkResult
  pipeline : Handle
  framebuffer : Nat → VkResult × Handle
  poolResult : VkResult
  pool : Handle
  bufferResult : VkResult
  buffer : Handle
  imageAvailable : VkResult × Handle
  renderFinished : VkResult × Handle
  inFlight : VkResult × Handle

/-- The sequencing of two steps of a run: the second step runs on the state the
first returns, and an abort of the first ends the run. -/
def andThen (first : List Call × Except Abort App)
    (next : App → List Call × Except Abort App) : List Call × Except Abort App :=
  match first with
  | (log, .error e) => (log, .error e)
  | (log, .ok s) => (log ++ (next s).1, (next s).2)

/-- `ApplicationFw::readFile` (lines 108-123).  `file` is the content of the
named file, `none` when it cannot be opened.  The `assert` of line 113 tests
a string literal, which is never null, so it never fails; on a stream that is
not open `tellg()` returns -1, `fileSize` is `(size_t)-1`, and the
construction of a vector of that size throws `std::length_error`. -/
def readFile (file : Option (List Nat)) : Except Abort (List Nat) :=
  match file with
  | none =>
    let stringLiteralIsNonNull := true
    if ¬ (stringLiteralIsNonNull = true) then .error (.assertFailed 113)
    else .error .vectorLengthError
  | some bytes => .ok bytes

/-- `ApplicationFw::initWindow` (lines 988-1004). -/
def initWindow (s : App) (a : StartupAnswers) : List Call × Except Abort App :=
  if a.vulkanSupported = false then ([Call.glfwInit, Call.glfwTerminate], .ok s)
  else
    ([Call.glfwInit, Call.glfwCreateWindow WIDTH HEIGHT a.window],
     .ok { s with window := a.window })

/-- `ApplicationFw::getRequiredExtensions` (lines 945-959); the string is the
value of `VK_EXT_DEBUG_UTILS_EXTENSION_NAME`. -/
def getRequiredExtensions (glfwExtensions : List String) : List String :=
  if enableValidationLayer then glfwExtensions ++ ["VK_EXT_debug_utils"]
  else glfwExtensions

/-- `ApplicationFw::checkValidationSupport` (lines 961-986); `layerNames` are
the names `vkEnumerateInstanceLayerProperties` lists. -/
def checkValidationSupport (layerNames : List String) : Except Abort Bool :=
  if ¬ (layerNames.length > 0) then .error (.assertFailed 965)
  else
    .ok (validationLayers.all
      (fun layerName => layerNames.any (fun available => layerName == available)))

/-- `ApplicationFw::createInstance` (lines 1067-1138); the last string is the
value of `VK_KHR_PORTABILITY_ENUMERATION_EXTENSION_NAME`. -/
def createInstance (s : App) (a : StartupAnswers) : List Call × Except Abort App :=
  if ¬ (a.glfwExtensions.length > 0) then ([], .error (.assertFailed 1084))
  else
    let requiredExtensions := getRequiredExtensions a.glfwExtensions ++ a.glfwExtensions
      ++ ["VK_KHR_portability_enumeration"]
    match checkValidationSupport a.instanceLayers with
    | .error e => ([], .error e)
    | .ok isValidationLayerSupported =>
      if ¬ (isValidationLayerSupported = true) then ([], .error (.assertFailed 1110))
      else
        let instanceCreateInfo : VkInstanceCreateInfo :=
          if enableValidationLayer && isValidationLayerSupported then
            ⟨VK_INSTANCE_CREATE_ENUMERATE_PORTABILITY_BIT_KHR, requiredExtensions,
              validationLayers, true⟩
          else
            ⟨VK_INSTANCE_CREATE_ENUMERATE_PORTABILITY_BIT_KHR, requiredExtensions, [], false⟩
        let created := Call.vkCreateInstance instanceCreateInfo a.instanceResult a.inst
        if a.instanceResult ≠ VK_SUCCESS then ([created], .error (.assertFailed 1137))
        else ([created], .ok { s with mInstance := a.inst })

/-- `ApplicationFw::CreateDebugUtilsMessengerEXT` (lines 899-910): the calls
made, the result returned and the messenger written. -/
def CreateDebugUtilsMessengerEXT (inst : Handle) (a : StartupAnswers)
    (pDebugMessenger : Handle) : List Call × VkResult × Handle :=
  if a.createMessengerFound then
    ([Call.vkCreateDebugUtilsMessengerEXT inst a.messengerResult a.messenger],
      a.messengerResult, a.messenger)
  else ([], VK_ERROR_EXTENSION_NOT_PRESENT, pDebugMessenger)

/-- `ApplicationFw::setupDebugMessenger` (lines 930-943). -/
def setupDebugMessenger (s : App) (a : StartupAnswers) : List Call × Except Abort App :=
  if ¬ (enableValidationLayer = true) then ([], .ok s)
  else
    let r := CreateDebugUtilsMessengerEXT s.mInstance a s.mDebugMessenger
    if r.2.1 ≠ VK_SUCCESS then (r.1, .error (.assertFailed 939))
    else (r.1, .ok { s with mDebugMessenger := r.2.2 })

/-- `ApplicationFw::createSurface` (lines 768-772). -/
def createSurface (s : App) (a : StartupAnswers) : List Call × Except Abort App :=
  let created := Call.glfwCreateWindowSurface s.mInstance s.window a.surfaceResult a.surface
  if a.surfaceResult ≠ VK_SUCCESS then ([created], .error (.assertFailed 771))
  else ([created], .ok { s with mSurface := a.surface })

/-- The step `pickPhysicalDevice()` of `initVulkan` on the application state. -/
def pickPhysicalDeviceStep (s : App) (a : StartupAnswers) : List Call × Except Abort App :=
  match pickPhysicalDevice s.mPhysicalDevice a.physicalDevices with
  | .error e => ([], .error e)
  | .ok device => ([], .ok { s with mPhysicalDevice := some device })

/-- `ApplicationFw::createRenderPass` (lines 363-413). -/
def createRenderPass (s : App) (a : StartupAnswers) : List Call × Except Abort App :=
  let renderPassCreateInfo : VkRenderPassCreateInfo :=
    { format := s.mSwapChainImageFormat
      loadOp := VK_ATTACHMENT_LOAD_OP_CLEAR
      storeOp := VK_ATTACHMENT_STORE_OP_STORE
      initialLayout := VK_IMAGE_LAYOUT_UNDEFINED
      finalLayout := VK_IMAGE_LAYOUT_PRESENT_SRC_KHR
      attachmentCount := 1
      subpassCount := 1
      dependencyCount := 1 }
  let created :=
    Call.vkCreateRenderPass s.mDevice renderPassCreateInfo a.renderPassResult a.renderPass
  if a.renderPassResult ≠ VK_SUCCESS then ([created], .error (.assertFailed 412))
  else ([created], .ok { s with mRenderPass := a.renderPass })

/-- `ApplicationFw::createShaderModule` (lines 349-361); `answer` is the result
and the handle `vkCreateShaderModule` returns. -/
def createShaderModule (s : App) (code : List Nat) (answer : VkResult × Handle) :
    List Call × Except Abort Handle :=
  let created := Call.vkCreateShaderModule s.mDevice code answer.1 answer.2
  if answer.1 ≠ VK_SUCCESS then ([created], .error (.assertFailed 359))
  else ([created], .ok answer.2)

/-- `ApplicationFw::createGraphicsPipeline` (lines 415-584). -/
def createGraphicsPipeline (s : App) (a : StartupAnswers) : List Call × Except Abort App :=
  match readFile a.vertexFile with
  | .error e => ([], .error e)
  | .ok vertexShaderCode =>
    if ¬ (vertexShaderCode.length > 0) then ([], .error (.assertFailed 418))
    else
      match readFile a.fragmentFile with
      | .error e => ([], .error e)
      | .ok fragmentShaderCode =>
        if ¬ (fragmentShaderCode.length > 0) then ([], .error (.assertFailed 420))
        else
          match createShaderModule s vertexShaderCode a.vertexModule with
          | (log1, .error e) => (log1, .error e)
          | (log1, .ok vertexShaderModule) =>
            match createShaderModule s fragmentShaderCode a.fragmentModule with
            | (log2, .error e) => (log1 ++ log2, .error e)
            | (log2, .ok fragmentShaderModule) =>
              let layoutCreated :=
                Call.vkCreatePipelineLayout s.mDevice a.layoutResult a.layout
              if a.layoutResult ≠ VK_SUCCESS then
                (log1 ++ log2 ++ [layoutCreated], .error (.assertFailed 557))
              else
                let s1 : App := { s with mPipelineLayout := a.layout }
                let graphicsPipelineCreateInfo : VkGraphicsPipelineCreateInfo :=
                  { vertexModule := vertexShaderModule
                    fragmentModule := fragmentShaderModule
                    layout := s1.mPipelineLayout
                    renderPass := s1.mRenderPass
                    subpass := 0 }
                let pipelineCreated := Call.vkCreateGraphicsPipelines s1.mDevice
                  graphicsPipelineCreateInfo a.pipelineResult a.pipeline
                if a.pipelineResult ≠ VK_SUCCESS then
                  (log1 ++ log2 ++ [layoutCreated, pipelineCreated],
                   .error (.assertFailed 580))
                else
                  (log1 ++ log2 ++ [layoutCreated, pipelineCreated,
                     Call.vkDestroyShaderModule s1.mDevice fragmentShaderModule,
                     Call.vkDestroyShaderModule s1.mDevice vertexShaderModule],
                   .ok { s1 with mGraphicsPipeline := a.pipeline })

/-- `ApplicationFw::createCommandPool` (lines 310-323). -/
def createCommandPool (s : App) (a : StartupAnswers) : List Call × Except Abort App :=
  match s.mPhysicalDevice with
  | none => ([], .error .nullPhysicalDevice)
  | some physicalDevice =>
    match findQueueFamilies physicalDevice with
    | .error e => ([], .error e)
    | .ok indices =>
      match indices.graphicsFamily with
      | none => ([], .error .badOptionalAccess)
      | some graphicsFamily =>
        let created := Call.vkCreateCommandPool s.mDevice
          VK_COMMAND_POOL_CREATE_RESET_COMMAND_BUFFER_BIT graphicsFamily a.poolResult a.pool
        if a.poolResult ≠ VK_SUCCESS then ([created], .error (.assertFailed 322))
        else ([created], .ok { s with mCommandPool := a.pool })

/-- `ApplicationFw::createCommandBuffer` (lines 296-308). -/
def createCommandBuffer (s : App) (a : StartupAnswers) : List Call × Except Abort App :=
  let allocated :=
    Call.vkAllocateCommandBuffers s.mDevice s.mCommandPool 1 a.bufferResult a.buffer
  if a.bufferResult ≠ VK_SUCCESS then ([allocated], .error (.assertFailed 307))
  else ([allocated], .ok { s with mCommandBuffer := a.buffer })

/-- `ApplicationFw::createSyncObjects` (lines 174-191). -/
def createSyncObjects (s : App) (a : StartupAnswers) : List Call × Except Abort App :=
  let first := Call.vkCreateSemaphore s.mDevice a.imageAvailable.1 a.imageAvailable.2
  if a.imageAvailable.1 ≠ VK_SUCCESS then ([first], .error (.assertFailed 188))
  else
    let second := Call.vkCreateSemaphore s.mDevice a.renderFinished.1 a.renderFinished.2
    if a.renderFinished.1 ≠ VK_SUCCESS then ([first, second], .error (.assertFailed 189))
    else
      let third := Call.vkCreateFence s.mDevice VK_FENCE_CREATE_SIGNALED_BIT
        a.inFlight.1 a.inFlight.2
      if a.inFlight.1 ≠ VK_SUCCESS then ([first, second, third], .error (.assertFailed 190))
      else
        ([first, second, third],
         .ok { s with mImageAvailableSemaphore := a.imageAvailable.2
                      mRenderFinishedSemaphore := a.renderFinished.2
                      mInFlightFence := a.inFlight.2 })

/-- The first eight steps of `initVulkan` (lines 1008-1015), `createInstance`
to `createRenderPass`. -/
def initVulkanToRenderPass (s : App) (a : StartupAnswers) : List Call × Except Abort App :=
  andThen (andThen (andThen (andThen (andThen (andThen (andThen
    (createInstance s a)
    (fun s => setupDebugMessenger s a))
    (fun s => createSurface s a))
    (fun s => pickPhysicalDeviceStep s a))
    (fun s => createLogicalDevice s a.logicalDevice))
    (fun s => createSwapChain s a.swapChain))
    (fun s => createImageViews s a.imageView))
    (fun s => createRenderPass s a)

/-- `ApplicationFw::initVulkan` (lines 1006-1021). -/
def initVulkan (s : App) (a : StartupAnswers) : List Call × Except Abort App :=
  andThen (andThen (andThen (andThen (andThen
    (initVulkanToRenderPass s a)
    (fun s => createGraphicsPipeline s a))
    (fun s => createFramebuffers s a.framebuffer))
    (fun s => createCommandPool s a))
    (fun s => createCommandBuffer s a))
    (fun s => createSyncObjects s a)

/-- What the platform answers in one pass of the loop of `mainLoop`: the value
of `glfwWindowShouldClose` and, when it is false, the answers of the frame. -/
structure LoopAnswers where
  shouldClose : Bool
  frame : FrameAnswers
  deriving DecidableEq, Repr

/-- How `mainLoop` ends on a finite list of answers: the window closed, a
frame aborted, or the answers ran out with the window still open. -/
inductive LoopResult where
  | closed
  | aborted (e : Abort)
  | running
  deriving DecidableEq, Repr

/-- `ApplicationFw::mainLoop` (lines 1023-1032) on the answers of the platform,
one element per evaluation of the loop condition. -/
def mainLoop (s : App) : List LoopAnswers → List Call × LoopResult
  | [] => ([], .running)
  | answers :: rest =>
    if answers.shouldClose = true then
      ([Call.glfwWindowShouldClose s.window true, Call.vkDeviceWaitIdle s.mDevice], .closed)
    else
      match drawFrame s answers.frame with
      | (log, .error e) =>
        (Call.glfwWindowShouldClose s.window false :: Call.glfwPollEvents :: log, .aborted e)
      | (log, .ok _) =>
        let r := mainLoop s rest
        (Call.glfwWindowShouldClose s.window false :: Call.glfwPollEvents :: (log ++ r.1), r.2)

/-- `ApplicationFw::DestroyDebugUtilsMessengerEXT` (lines 912-919);
`destroyMessengerFound` says that `vkGetInstanceProcAddr` finds
`vkDestroyDebugUtilsMessengerEXT`. -/
def DestroyDebugUtilsMessengerEXT (inst debugMessenger : Handle)
    (destroyMessengerFound : Bool) : List Call :=
  if destroyMessengerFound then [Call.vkDestroyDebugUtilsMessengerEXT inst debugMessenger]
  else []

/-- `ApplicationFw::cleanup` (lines 1034-1065): the calls it makes. -/
def cleanup (s : App) (destroyMessengerFound : Bool) : List Call :=
  [Call.vkDestroySemaphore s.mDevice s.mImageAvailableSemaphore,
   Call.vkDestroySemaphore s.mDevice s.mRenderFinishedSemaphore,
   Call.vkDestroyFence s.mDevice s.mInFlightFence,
   Call.vkDestroyCommandPool s.mDevice s.mCommandPool]
  ++ s.mSwapChainFramebuffers.map (fun framebuffer =>
      Call.vkDestroyFramebuffer s.mDevice framebuffer)
  ++ [Call.vkDestroyPipeline s.mDevice s.mGraphicsPipeline,
      Call.vkDestroyPipelineLayout s.mDevice s.mPipelineLayout,
      Call.vkDestroyRenderPass s.mDevice s.mRenderPass]
  ++ s.mSwapChainImageViews.map (fun imageView => Call.vkDestroyImageView s.mDevice imageView)
  ++ [Call.vkDestroySwapchainKHR s.mDevice s.mSwapChain,
      Call.vkDestroyDevice s.mDevice]
  ++ (if enableValidationLayer then
        DestroyDebugUtilsMessengerEXT s.mInstance s.mDebugMessenger destroyMessengerFound
      else [])
  ++ [Call.vkDestroySurfaceKHR s.mInstance s.mSurface,
      Call.vkDestroyInstance s.mInstance,
      Call.glfwDestroyWindow s.window,
      Call.glfwTerminate]

/-- What the platform answers during a whole run. -/
structure RunAnswers where
  startup : StartupAnswers
  loop : List LoopAnswers
  destroyMessengerFound : Bool

/-- How a run ends: `run` returned, the run aborted, or the answers ran out in
the main loop. -/
inductive RunResult where
  | finished
  | aborted (e : Abort)
  | running
  deriving DecidableEq, Repr

/-- `ApplicationFw::run` (lines 54-60). -/
def run (s : App) (a : RunAnswers) : List Call × RunResult :=
  match andThen (initWindow s a.startup) (fun s => initVulkan s a.startup) with
  | (log, .error e) => (log, .aborted e)
  | (log, .ok s1) =>
    match mainLoop s1 a.loop with
    | (looped, .aborted e) => (log ++ looped, .aborted e)
    | (looped, .running) => (log ++ looped, .running)
    | (looped, .closed) => (log ++ looped ++ cleanup s1 a.destroyMessengerFound, .finished)

/-- The kinds of object the program constructs and destroys. -/
inductive ObjectKind where
  | window
  | inst
  | debugMessenger
  | surface
  | device
  | swapchain
  | imageView
  | renderPass
  | pipelineLayout
  | pipeline
  | framebuffer
  | commandPool
  | semaphore
  | fence
  deriving DecidableEq, Repr

/-- The object a logged call constructs, when it is a successful creation of
one of the kinds of `ObjectKind`.  The shader modules, which
`createGraphicsPipeline` creates and destroys itself, and the command buffer,
which is allocated from the command pool and freed with it, are not counted. -/
def Call.constructs : Call → Option (ObjectKind × Handle)
  | .glfwCreateWindow _ _ window => some (.window, window)
  | .vkCreateInstance _ result inst =>
    if result = VK_SUCCESS then some (.inst, inst) else none
  | .vkCreateDebugUtilsMessengerEXT _ result messenger =>
    if result = VK_SUCCESS then some (.debugMessenger, messenger) else none
  | .glfwCreateWindowSurface _ _ result surface =>
    if result = VK_SUCCESS then some (.surface, surface) else none
  | .vkCreateDevice _ _ result device =>
    if result = VK_SUCCESS then some (.device, device) else none
  | .vkCreateSwapchainKHR _ _ result swapchain =>
    if result = VK_SUCCESS then some (.swapchain, swapchain) else none
  | .vkCreateImageView _ _ result view =>
    if result = VK_SUCCESS then some (.imageView, view) else none
  | .vkCreateRenderPass _ _ result renderPass =>
    if result = VK_SUCCESS then some (.renderPass, renderPass) else none
  | .vkCreatePipelineLayout _ result layout =>
    if result = VK_SUCCESS then some (.pipelineLayout, layout) else none
  | .vkCreateGraphicsPipelines _ _ result pipeline =>
    if result = VK_SUCCESS then some (.pipeline, pipeline) else none
  | .vkCreateFramebuffer _ _ result framebuffer =>
    if result = VK_SUCCESS then some (.framebuffer, framebuffer) else none
  | .vkCreateCommandPool _ _ _ result commandPool =>
    if result = VK_SUCCESS then some (.commandPool, commandPool) else none
  | .vkCreateSemaphore _ result semaphore =>
    if result = VK_SUCCESS then some (.semaphore, semaphore) else none
  | .vkCreateFence _ _ result fence =>
    if result = VK_SUCCESS then some (.fence, fence) else none
  | _ => none

/-- The object a logged call destroys, for the kinds of `ObjectKind`. -/
def Call.destroys : Call → Option (ObjectKind × Handle)
  | .glfwDestroyWindow window => some (.window, window)
  | .vkDestroyInstance inst => some (.inst, inst)
  | .vkDestroyDebugUtilsMessengerEXT _ messenger => some (.debugMessenger, messenger)
  | .vkDestroySurfaceKHR _ surface => some (.surface, surface)
  | .vkDestroyDevice device => some (.device, device)
  | .vkDestroySwapchainKHR _ swapchain => some (.swapchain, swapchain)
  | .vkDestroyImageView _ view => some (.imageView, view)
  | .vkDestroyRenderPass _ renderPass => some (.renderPass, renderPass)
  | .vkDestroyPipelineLayout _ layout => some (.pipelineLayout, layout)
  | .vkDestroyPipeline _ pipeline => some (.pipeline, pipeline)
  | .vkDestroyFramebuffer _ framebuffer => some (.framebuffer, framebuffer)
  | .vkDestroyCommandPool _ commandPool => some (.commandPool, commandPool)
  | .vkDestroySemaphore _ semaphore => some (.semaphore, semaphore)
  | .vkDestroyFence _ fence => some (.fence, fence)
  | _ => none

/-- The objects a log constructs, in order. -/
def constructed (log : List Call) : List (ObjectKind × Handle) :=
  log.filterMap Call.constructs

/-- The objects a log destroys, in order. -/
def destroyed (log : List Call) : List (ObjectKind × Handle) :=
  log.filterMap Call.destroys

/-- A logged call is a destroy call: one of the `vkDestroy...` functions or
`glfwDestroyWindow`. -/
def Call.isDestroy : Call → Bool
  | .vkDestroyShaderModule .. => true
  | c => (c.destroys).isSome

/-- Answers of a start-up in which every call succeeds, on the one adapter
`sampleDevice`, with a swapchain of three images. -/
def sampleStartupAnswers : StartupAnswers :=
  { vulkanSupported := true
    window := 1
    glfwExtensions := ["VK_KHR_surface"]
    instanceLayers := ["VK_LAYER_KHRONOS_validation"]
    instanceResult := VK_SUCCESS
    inst := 2
    createMessengerFound := true
    messengerResult := VK_SUCCESS
    messenger := 19
    surfaceResult := VK_SUCCESS
    surface := 6
    physicalDevices := [sampleDevice]
    logicalDevice := sampleLogicalDeviceAnswers
    swapChain := sampleSwapChainAnswers
    imageView := fun i => (VK_SUCCESS, 30 + i)
    renderPassResult := VK_SUCCESS
    renderPass := 11
    vertexFile := some [3, 2, 35, 7]
    fragmentFile := some [3, 2, 35, 7, 0]
    vertexModule := (VK_SUCCESS, 50)
    fragmentModule := (VK_SUCCESS, 51)
    layoutResult := VK_SUCCESS
    layout := 12
    pipelineResult := VK_SUCCESS
    pipeline := 13
    framebuffer := fun i => (VK_SUCCESS, 40 + i)
    poolResult := VK_SUCCESS
    pool := 14
    bufferResult := VK_SUCCESS
    buffer := 15
    imageAvailable := (VK_SUCCESS, 16)
    renderFinished := (VK_SUCCESS, 17)
    inFlight := (VK_SUCCESS, 18) }

/-- The answers of `sampleStartupAnswers` with the vertex shader file missing. -/
def sampleStartupMissingShader : StartupAnswers :=
  { sampleStartupAnswers with vertexFile := none }

/-- An application object before `run`: the two members with an initialiser
are null (lines 135-136). -/
def sampleNewApp : App :=
  { sampleApp sampleDevice with mPhysicalDevice := none, mDevice := 0 }

/-- Answers of a run that draws one frame and then sees the window closed. -/
def sampleRunAnswers : RunAnswers :=
  { startup := sampleStartupAnswers
    loop := [⟨false, sampleFrameAnswers⟩, ⟨true, sampleFrameAnswers⟩]
    destroyMessengerFound := true }

/-- The application state at the end of the start-up of `sampleNewApp` on
`sampleStartupAnswers`. -/
def sampleStartedApp : App :=
  { sampleFrameApp with
    mDevice := 24
    mGraphicsQueue := 25
    mPresentQueue := 26
    mSwapChain := 20
    mSwapChainImageFormat := 50
    mSwapChainExtent := ⟨800, 600⟩ }

/-- The calls of the passes of the loop of `mainLoop` that run to their end,
one pass per element of `answers`: the test of the loop condition, which
finds the window open, `glfwPollEvents`, and the calls of `drawFrame`. -/
def iterations (s : App) : List LoopAnswers → List Call
  | [] => []
  | answers :: rest =>
    Call.glfwWindowShouldClose s.window false :: Call.glfwPollEvents
      :: ((drawFrame s answers.frame).1 ++ iterations s rest)

/-- A logged call is one that `createGraphicsPipeline` or a later step of
`initVulkan` makes: it creates or destroys a shader module, or creates the
pipeline layout, the pipeline, a framebuffer, the command pool, the command
buffer, a semaphore or the fence. -/
def Call.afterRenderPass : Call → Bool
  | .vkCreateShaderModule .. => true
  | .vkDestroyShaderModule .. => true
  | .vkCreatePipelineLayout .. => true
  | .vkCreateGraphicsPipelines .. => true
  | .vkCreateFramebuffer .. => true
  | .vkCreateCommandPool .. => true
  | .vkAllocateCommandBuffers .. => true
  | .vkCreateSemaphore .. => true
  | .vkCreateFence .. => true
  | _ => false

/-- A logged call is `vkDeviceWaitIdle`. -/
def Call.isWaitIdle : Call → Bool
  | .vkDeviceWaitIdle _ => true
  | _ => false

/-- An adapter with no surface format, as `sampleDeviceNoFormats`, that also
lacks the required extension `VK_KHR_swapchain`. -/
def sampleDeviceNoExtension : PhysicalDevice :=
  { sampleDeviceNoFormats with handle := 12, extensions := ["VK_KHR_maintenance1"] }

/-- The calls expected of one complete frame, in the order in which the
specification lists the steps of a frame: the wait on the in-flight guard;
the reset of the guard; the acquisition of an image; the recording, which is
the reset of the command buffer followed by the eight commands recorded for
the acquired image index; the submission; the present request.  The logs of
`drawFrame` are compared with this list. -/
def expectedFrameCalls (s : App) (a : FrameAnswers) : List Call :=
  [Call.vkWaitForFences s.mDevice [s.mInFlightFence] true UINT64_MAX,
   Call.vkResetFences s.mDevice [s.mInFlightFence],
   Call.vkAcquireNextImageKHR s.mDevice s.mSwapChain UINT64_MAX
     s.mImageAvailableSemaphore 0 a.acquireResult a.imageIndex,
   Call.vkResetCommandBuffer s.mCommandBuffer 0,
   Call.vkBeginCommandBuffer s.mCommandBuffer a.beginResult,
   Call.vkCmdBeginRenderPass s.mCommandBuffer
     { renderPass := s.mRenderPass
       framebuffer := s.mSwapChainFramebuffers.getD a.imageIndex 0
       renderArea := ⟨0, 0, s.mSwapChainExtent⟩
       pClearValues := [[1, 1, 0, 1]] } VK_SUBPASS_CONTENTS_INLINE,
   Call.vkCmdBindPipeline s.mCommandBuffer VK_PIPELINE_BIND_POINT_GRAPHICS
     s.mGraphicsPipeline,
   Call.vkCmdSetViewport s.mCommandBuffer 0
     [⟨0, 0, s.mSwapChainExtent.width, s.mSwapChainExtent.height, 0, 1⟩],
   Call.vkCmdSetScissor s.mCommandBuffer 0 [⟨0, 0, s.mSwapChainExtent⟩],
   Call.vkCmdDraw s.mCommandBuffer 3 1 0 0,
   Call.vkCmdEndRenderPass s.mCommandBuffer,
   Call.vkEndCommandBuffer s.mCommandBuffer a.endResult,
   Call.vkQueueSubmit s.mGraphicsQueue
     [{ pWaitSemaphores := [s.mImageAvailableSemaphore]
        pWaitDstStageMask := [VK_PIPELINE_STAGE_COLOR_ATTACHMENT_OUTPUT_BIT]
        pCommandBuffers := [s.mCommandBuffer]
        pSignalSemaphores := [s.mRenderFinishedSemaphore] }]
     s.mInFlightFence a.submitResult,
   Call.vkQueuePresentKHR s.mPresentQueue
     { pWaitSemaphores := [s.mRenderFinishedSemaphore]
       pSwapchains := [s.mSwapChain]
       pImageIndices := [a.imageIndex] } a.presentResult]

/-- The calls expected of consecutive complete frames, one after the other. -/
def expectedFramesCalls (s : App) : List FrameAnswers → List Call
  | [] => []
  | a :: rest => expectedFrameCalls s a ++ expectedFramesCalls s rest

/-! ## Theorems -/

/-- Clamping with ordered bounds is the usual clamp. -/
theorem stdClamp_eq (v lo hi : Nat) (h : lo ≤ hi) :
    stdClamp v lo hi = max lo (min v hi) := by
  unfold stdClamp
  split_ifs <;> omega

theorem castUInt32_of_nonneg (x : Int) (h0 : 0 ≤ x) (h1 : x ≤ 2147483647) :
    castUInt32 x = x.toNat := by
  unfold castUInt32
  rw [Int.emod_eq_of_lt h0 (by omega)]

/-- The preferred surface format of `chooseSwapSurfaceFormat`. -/
theorem findPreferredFormat_of_mem (formats : List VkSurfaceFormatKHR)
    (h : (⟨VK_FORMAT_B8G8R8A8_SRGB, VK_COLOR_SPACE_SRGB_NONLINEAR_KHR⟩ : VkSurfaceFormatKHR)
      ∈ formats) :
    findPreferredFormat formats
      = some ⟨VK_FORMAT_B8G8R8A8_SRGB, VK_COLOR_SPACE_SRGB_NONLINEAR_KHR⟩ := by
  induction formats with
  | nil => simp at h
  | cons f rest ih =>
    unfold findPreferredFormat
    by_cases hf : f.format = VK_FORMAT_B8G8R8A8_SRGB
        ∧ f.colorSpace = VK_COLOR_SPACE_SRGB_NONLINEAR_KHR
    · rw [if_pos hf]
      cases f
      simp only at hf
      simp [hf.1, hf.2]
    · rw [if_neg hf]
      rcases List.mem_cons.mp h with h1 | h1
      · exact absurd (by rw [← h1]; exact ⟨rfl, rfl⟩) hf
      · exact ih h1

theorem findPreferredFormat_of_not_mem (formats : List VkSurfaceFormatKHR)
    (h : (⟨VK_FORMAT_B8G8R8A8_SRGB, VK_COLOR_SPACE_SRGB_NONLINEAR_KHR⟩ : VkSurfaceFormatKHR)
      ∉ formats) :
    findPreferredFormat formats = none := by
  induction formats with
  | nil => rfl
  | cons f rest ih =>
    unfold findPreferredFormat
    have hne : f ≠ ⟨VK_FORMAT_B8G8R8A8_SRGB, VK_COLOR_SPACE_SRGB_NONLINEAR_KHR⟩ :=
      fun e => h (by rw [e]; exact List.mem_cons_self _ _)
    have hrest : (⟨VK_FORMAT_B8G8R8A8_SRGB, VK_COLOR_SPACE_SRGB_NONLINEAR_KHR⟩
        : VkSurfaceFormatKHR) ∉ rest := fun e => h (List.mem_cons_of_mem _ e)
    have hf : ¬ (f.format = VK_FORMAT_B8G8R8A8_SRGB
        ∧ f.colorSpace = VK_COLOR_SPACE_SRGB_NONLINEAR_KHR) := by
      rintro ⟨h1, h2⟩
      apply hne
      cases f
      simp only at h1 h2
      simp [h1, h2]
    rw [if_neg hf]
    exact ih hrest

/-- On a non-empty list `chooseSwapSurfaceFormat` returns a format. -/
theorem chooseSwapSurfaceFormat_returns (availableFormats : List VkSurfaceFormatKHR)
    (hne : availableFormats ≠ []) :
    ∃ surfaceFormat, chooseSwapSurfaceFormat availableFormats = .ok surfaceFormat := by
  cases availableFormats with
  | nil => exact absurd rfl hne
  | cons first rest =>
    unfold chooseSwapSurfaceFormat
    have hlen : (first :: rest).length > 0 := by simp
    rw [if_neg (not_not.mpr hlen)]
    cases findPreferredFormat (first :: rest) with
    | none => exact ⟨first, rfl⟩
    | some f => exact ⟨f, rfl⟩

/-- C1: with `minImageExtent <= maxImageExtent` on both axes and a framebuffer
size `fbWidth x fbHeight` (a pixel count held in an `int`), `chooseSwapExtent`
returns, when `currentExtent.width` is `UINT32_MAX`, the framebuffer width and
height each clamped into `[minImageExtent, maxImageExtent]` on its own axis (a
size below the minimum gives the minimum, one above the maximum gives the
maximum, one in between is kept), and otherwise returns `currentExtent`
unchanged. -/
theorem chooseSwapExtent_contract (caps : VkSurfaceCapabilitiesKHR)
    (fbWidth fbHeight : Int)
    (hW : caps.minImageExtent.width ≤ caps.maxImageExtent.width)
    (hH : caps.minImageExtent.height ≤ caps.maxImageExtent.height)
    (hw : 0 ≤ fbWidth ∧ fbWidth ≤ 2147483647)
    (hh : 0 ≤ fbHeight ∧ fbHeight ≤ 2147483647) :
    chooseSwapExtent caps fbWidth fbHeight
        = (if caps.currentExtent.width = UINT32_MAX then
            ⟨max caps.minImageExtent.width (min fbWidth.toNat caps.maxImageExtent.width),
             max caps.minImageExtent.height (min fbHeight.toNat caps.maxImageExtent.height)⟩
          else caps.currentExtent)
      ∧ (caps.currentExtent.width = UINT32_MAX →
          (fbWidth < caps.minImageExtent.width →
            (chooseSwapExtent caps fbWidth fbHeight).width = caps.minImageExtent.width)
          ∧ ((caps.maxImageExtent.width : Int) < fbWidth →
            (chooseSwapExtent caps fbWidth fbHeight).width = caps.maxImageExtent.width)
          ∧ (fbHeight < caps.minImageExtent.height →
            (chooseSwapExtent caps fbWidth fbHeight).height = caps.minImageExtent.height)
          ∧ ((caps.maxImageExtent.height : Int) < fbHeight →
            (chooseSwapExtent caps fbWidth fbHeight).height = caps.maxImageExtent.height)
          ∧ caps.minImageExtent.width ≤ (chooseSwapExtent caps fbWidth fbHeight).width
          ∧ (chooseSwapExtent caps fbWidth fbHeight).width ≤ caps.maxImageExtent.width
          ∧ caps.minImageExtent.height ≤ (chooseSwapExtent caps fbWidth fbHeight).height
          ∧ (chooseSwapExtent caps fbWidth fbHeight).height ≤ caps.maxImageExtent.height) := by
  have key : chooseSwapExtent caps fbWidth fbHeight
        = (if caps.currentExtent.width = UINT32_MAX then
            ⟨max caps.minImageExtent.width (min fbWidth.toNat caps.maxImageExtent.width),
             max caps.minImageExtent.height (min fbHeight.toNat caps.maxImageExtent.height)⟩
          else caps.currentExtent) := by
    unfold chooseSwapExtent
    by_cases hc : caps.currentExtent.width = UINT32_MAX
    · simp only [hc, ne_eq, not_true_eq_false, if_false, if_true]
      rw [castUInt32_of_nonneg fbWidth hw.1 hw.2, castUInt32_of_nonneg fbHeight hh.1 hh.2,
        stdClamp_eq _ _ _ hW, stdClamp_eq _ _ _ hH]
    · simp [hc]
  refine ⟨key, fun hc => ?_⟩
  rw [key, if_pos hc]
  simp only
  refine ⟨?_, ?_, ?_, ?_, ?_, ?_, ?_, ?_⟩ <;> intros <;> omega

/-- Witness of C1: a 5000 x 10 framebuffer against the bounds
`[100, 4096] x [100, 2160]` is clamped to 4096 x 100. -/
theorem chooseSwapExtent_contract_witness :
    chooseSwapExtent ⟨2, 0, ⟨UINT32_MAX, UINT32_MAX⟩, ⟨100, 100⟩, ⟨4096, 2160⟩, 1⟩ 5000 10
      = ⟨4096, 100⟩ := by
  have h := (chooseSwapExtent_contract
    ⟨2, 0, ⟨UINT32_MAX, UINT32_MAX⟩, ⟨100, 100⟩, ⟨4096, 2160⟩, 1⟩ 5000 10
    (by decide) (by decide) (by decide) (by decide)).1
  rw [h]
  decide

/-- C2: on a non-empty list of advertised surface formats,
`chooseSwapSurfaceFormat` returns the format (B8G8R8A8_SRGB, SRGB_NONLINEAR)
when the list contains it, and the first element of the list otherwise. -/
theorem chooseSwapSurfaceFormat_contract (availableFormats : List VkSurfaceFormatKHR)
    (hne : availableFormats ≠ []) :
    chooseSwapSurfaceFormat availableFormats
      = .ok (if (⟨VK_FORMAT_B8G8R8A8_SRGB, VK_COLOR_SPACE_SRGB_NONLINEAR_KHR⟩
                : VkSurfaceFormatKHR) ∈ availableFormats
             then ⟨VK_FORMAT_B8G8R8A8_SRGB, VK_COLOR_SPACE_SRGB_NONLINEAR_KHR⟩
             else availableFormats.head hne) := by
  cases availableFormats with
  | nil => exact absurd rfl hne
  | cons first rest =>
    unfold chooseSwapSurfaceFormat
    have hlen : (first :: rest).length > 0 := by simp
    rw [if_neg (not_not.mpr hlen)]
    by_cases hm : (⟨VK_FORMAT_B8G8R8A8_SRGB, VK_COLOR_SPACE_SRGB_NONLINEAR_KHR⟩
        : VkSurfaceFormatKHR) ∈ first :: rest
    · rw [findPreferredFormat_of_mem _ hm, if_pos hm]
    · rw [findPreferredFormat_of_not_mem _ hm, if_neg hm]
      rfl

/-- Witness of C2: the preferred format in second place is returned; without
it the first element is. -/
theorem chooseSwapSurfaceFormat_contract_witness :
    chooseSwapSurfaceFormat [⟨44, 0⟩, ⟨50, 0⟩, ⟨37, 0⟩] = .ok ⟨50, 0⟩
      ∧ chooseSwapSurfaceFormat [⟨44, 0⟩, ⟨37, 0⟩] = .ok ⟨44, 0⟩ :=
  ⟨(chooseSwapSurfaceFormat_contract [⟨44, 0⟩, ⟨50, 0⟩, ⟨37, 0⟩] (by simp)).trans rfl,
   (chooseSwapSurfaceFormat_contract [⟨44, 0⟩, ⟨37, 0⟩] (by simp)).trans rfl⟩

/-- C3: for every list of advertised present modes, the empty one included,
`chooseSwapPresentMode` returns MAILBOX when MAILBOX occurs in the list and
FIFO otherwise. -/
theorem chooseSwapPresentMode_contract (availablePresentModes : List Nat) :
    chooseSwapPresentMode availablePresentModes
      = if VK_PRESENT_MODE_MAILBOX_KHR ∈ availablePresentModes
        then VK_PRESENT_MODE_MAILBOX_KHR else VK_PRESENT_MODE_FIFO_KHR := by
  induction availablePresentModes with
  | nil => rfl
  | cons m rest ih =>
    unfold chooseSwapPresentMode
    by_cases hm : m = VK_PRESENT_MODE_MAILBOX_KHR
    · simp [hm]
    · rw [if_neg hm, ih]
      have : (VK_PRESENT_MODE_MAILBOX_KHR ∈ m :: rest) ↔ VK_PRESENT_MODE_MAILBOX_KHR ∈ rest := by
        simp [List.mem_cons, Ne.symm hm]
      simp only [this]

/-! ### Swapchain creation -/

theorem querySwapChainSupport_ok (device : PhysicalDevice) (hf : device.formats ≠ [])
    (hm : device.presentModes ≠ []) :
    querySwapChainSupport device
      = .ok ⟨device.capabilities, device.formats, device.presentModes⟩ := by
  have h1 : device.formats.length > 0 := List.length_pos.mpr hf
  have h2 : device.presentModes.length > 0 := List.length_pos.mpr hm
  have h3 : device.formats.length ≠ 0 := by omega
  have h4 : device.presentModes.length ≠ 0 := by omega
  simp [querySwapChainSupport, h1, h2, hf, hm]

/-- The one call `createSwapChain` logs once its queries have passed. -/
theorem createSwapChain_log (s : App) (a : SwapChainAnswers) (device : PhysicalDevice)
    (g p : Nat) (hdev : s.mPhysicalDevice = some device) (hf : device.formats ≠ [])
    (hm : device.presentModes ≠ [])
    (hq : findQueueFamilies device = .ok ⟨some g, some p⟩) :
    ∃ surfaceFormat : VkSurfaceFormatKHR,
      (createSwapChain s a).1 = [Call.vkCreateSwapchainKHR s.mDevice
        { surface := s.mSurface
          minImageCount :=
            if device.capabilities.maxImageCount > 0
                ∧ (device.capabilities.minImageCount + 1) % 4294967296
                  > device.capabilities.maxImageCount then
              device.capabilities.maxImageCount
            else (device.capabilities.minImageCount + 1) % 4294967296
          imageFormat := surfaceFormat.format
          imageColorSpace := surfaceFormat.colorSpace
          imageExtent := chooseSwapExtent device.capabilities a.fbWidth a.fbHeight
          imageArrayLayers := 1
          imageUsage := VK_IMAGE_USAGE_COLOR_ATTACHMENT_BIT
          imageSharingMode :=
            if g ≠ p then .VK_SHARING_MODE_CONCURRENT else .VK_SHARING_MODE_EXCLUSIVE
          queueFamilyIndexCount := if g ≠ p then 2 else 0
          pQueueFamilyIndices := if g ≠ p then some [g, p] else none
          preTransform := device.capabilities.currentTransform
          compositeAlpha := VK_COMPOSITE_ALPHA_OPAQUE_BIT_KHR
          presentMode := chooseSwapPresentMode device.presentModes
          clipped := true
          oldSwapchain := 0 } a.result a.swapchain] := by
  obtain ⟨surfaceFormat, hsf⟩ := chooseSwapSurfaceFormat_returns device.formats hf
  refine ⟨surfaceFormat, ?_⟩
  unfold createSwapChain
  simp only [hdev, querySwapChainSupport_ok device hf hm, hsf, hq]
  by_cases hgp : g = p
  · subst hgp
    by_cases hr : a.result = VK_SUCCESS
    · by_cases hi : a.images.length > 0 <;> simp [hr, hi]
    · simp [hr]
  · by_cases hr : a.result = VK_SUCCESS
    · by_cases hi : a.images.length > 0 <;> simp [hr, hi, hgp]
    · simp [hr, hgp]

/-- Counterexample to C4 as stated: for the capability record with
`minImageCount = 4294967295` and `maxImageCount = 0` (unbounded) the sum
`minImageCount + 1` of line 621 wraps in `uint32_t`, and `createSwapChain`
requests 0 images, not `minImageCount + 1`. -/
theorem createSwapChain_imageCount_wraps :
    sampleDeviceMaxCount.capabilities.minImageCount = 4294967295
      ∧ sampleDeviceMaxCount.capabilities.maxImageCount = 0
      ∧ (requestedSwapChain
          (createSwapChain (sampleApp sampleDeviceMaxCount) sampleSwapChainAnswers).1).map
          (fun info => info.minImageCount) = some 0
      ∧ (requestedSwapChain
          (createSwapChain (sampleApp sampleDeviceMaxCount) sampleSwapChainAnswers).1).map
          (fun info => info.minImageCount)
        ≠ some (sampleDeviceMaxCount.capabilities.minImageCount + 1) := by
  refine ⟨rfl, rfl, ?_, ?_⟩ <;> decide

/-- C4 (amended): the image count `createSwapChain` requests is
`min(m, maxImageCount)`, `maxImageCount == 0` being read as unbounded, where
`m` is `minImageCount + 1` computed in `uint32_t`; for every capability record
with `minImageCount < 4294967295` this is `min(minImageCount + 1,
maxImageCount)`, so `minImageCount = 2`, `maxImageCount = 0` gives 3. -/
theorem createSwapChain_imageCount (s : App) (a : SwapChainAnswers)
    (device : PhysicalDevice) (g p : Nat) (hdev : s.mPhysicalDevice = some device)
    (hf : device.formats ≠ []) (hm : device.presentModes ≠ [])
    (hq : findQueueFamilies device = .ok ⟨some g, some p⟩) :
    (requestedSwapChain (createSwapChain s a).1).map (fun info => info.minImageCount)
        = some (if device.capabilities.maxImageCount = 0 then
                  (device.capabilities.minImageCount + 1) % 4294967296
                else min ((device.capabilities.minImageCount + 1) % 4294967296)
                  device.capabilities.maxImageCount)
      ∧ (device.capabilities.minImageCount < 4294967295 →
          (requestedSwapChain (createSwapChain s a).1).map (fun info => info.minImageCount)
            = some (if device.capabilities.maxImageCount = 0 then
                      device.capabilities.minImageCount + 1
                    else min (device.capabilities.minImageCount + 1)
                      device.capabilities.maxImageCount)) := by
  obtain ⟨surfaceFormat, hlog⟩ := createSwapChain_log s a device g p hdev hf hm hq
  have key : (requestedSwapChain (createSwapChain s a).1).map
      (fun info => info.minImageCount)
        = some (if device.capabilities.maxImageCount = 0 then
                  (device.capabilities.minImageCount + 1) % 4294967296
                else min ((device.capabilities.minImageCount + 1) % 4294967296)
                  device.capabilities.maxImageCount) := by
    rw [hlog]
    simp only [requestedSwapChain, Option.map_some', Option.some.injEq]
    split_ifs <;> omega
  refine ⟨key, fun hlt => ?_⟩
  rw [key, Nat.mod_eq_of_lt (by omega)]

/-- Witness of C4: `minImageCount = 2`, `maxImageCount = 0` gives a request
of 3 images. -/
theorem createSwapChain_imageCount_witness :
    (requestedSwapChain (createSwapChain (sampleApp sampleDevice) sampleSwapChainAnswers).1).map
      (fun info => info.minImageCount) = some 3 :=
  ((createSwapChain_imageCount (sampleApp sampleDevice) sampleSwapChainAnswers sampleDevice
    0 1 rfl (by decide) (by decide) rfl).2 (by decide)).trans (by decide)

/-- C5: for found graphics and presentation family indices `g` and `p`,
`createSwapChain` requests, when they differ, the concurrent sharing mode with
a family-index count of 2 and the index list `[g, p]`, and when they are
equal the exclusive sharing mode with a count of 0 and no index list. -/
theorem createSwapChain_sharing (s : App) (a : SwapChainAnswers)
    (device : PhysicalDevice) (g p : Nat) (hdev : s.mPhysicalDevice = some device)
    (hf : device.formats ≠ []) (hm : device.presentModes ≠ [])
    (hq : findQueueFamilies device = .ok ⟨some g, some p⟩) :
    ∃ info, requestedSwapChain (createSwapChain s a).1 = some info
      ∧ (g ≠ p → info.imageSharingMode = .VK_SHARING_MODE_CONCURRENT
          ∧ info.queueFamilyIndexCount = 2 ∧ info.pQueueFamilyIndices = some [g, p])
      ∧ (g = p → info.imageSharingMode = .VK_SHARING_MODE_EXCLUSIVE
          ∧ info.queueFamilyIndexCount = 0 ∧ info.pQueueFamilyIndices = none) := by
  obtain ⟨surfaceFormat, hlog⟩ := createSwapChain_log s a device g p hdev hf hm hq
  rw [hlog]
  refine ⟨_, rfl, fun hne => ?_, fun heq => ?_⟩
  · simp [hne]
  · simp [heq]

/-- Witness of C5: families 0 and 1 give the concurrent mode with `[0, 1]`. -/
theorem createSwapChain_sharing_witness :
    ∃ info, requestedSwapChain
        (createSwapChain (sampleApp sampleDevice) sampleSwapChainAnswers).1 = some info
      ∧ ((0 : Nat) ≠ 1 → info.imageSharingMode = .VK_SHARING_MODE_CONCURRENT
          ∧ info.queueFamilyIndexCount = 2 ∧ info.pQueueFamilyIndices = some [0, 1])
      ∧ ((0 : Nat) = 1 → info.imageSharingMode = .VK_SHARING_MODE_EXCLUSIVE
          ∧ info.queueFamilyIndexCount = 0 ∧ info.pQueueFamilyIndices = none) :=
  createSwapChain_sharing (sampleApp sampleDevice) sampleSwapChainAnswers sampleDevice
    0 1 rfl (by decide) (by decide) rfl

/-! ### Image views and framebuffers -/

theorem vectorResize_length (xs : List Handle) (n : Nat) :
    (vectorResize xs n).length = n := by
  unfold vectorResize
  simp only [List.length_append, List.length_take, List.length_replicate]
  omega

/-- The loop of `createImageViews`, when every creation succeeds, makes one
call per index and stores the returned handle at that index. -/
theorem createImageViewsLoop_ok (s : App) (answer : Nat → VkResult × Handle) :
    ∀ (remaining i : Nat) (views : List Handle),
      (∀ j, i ≤ j → j < i + remaining → (answer j).1 = VK_SUCCESS) →
      i + remaining ≤ views.length →
      ∃ log views1, createImageViewsLoop s answer remaining i views = (log, .ok views1)
        ∧ views1.length = views.length ∧ log.length = remaining
        ∧ (∀ j, j < i → views1.get? j = views.get? j)
        ∧ (∀ k, k < remaining → views1.get? (i + k) = some (answer (i + k)).2
            ∧ log.get? k = some (Call.vkCreateImageView s.mDevice
                (imageViewCreateInfo s (i + k)) VK_SUCCESS (answer (i + k)).2)) := by
  intro remaining
  induction remaining with
  | zero =>
    intro i views _ _
    exact ⟨[], views, rfl, rfl, rfl, fun _ _ => rfl, fun k hk => absurd hk (Nat.not_lt_zero k)⟩
  | succ n ih =>
    intro i views hans hlen
    have hi : (answer i).1 = VK_SUCCESS := hans i (Nat.le_refl i) (by omega)
    obtain ⟨log, views1, hrun, hl, hlog, hkeep, hset⟩ :=
      ih (i + 1) (views.set i (answer i).2)
        (fun j h1 h2 => hans j (by omega) (by omega))
        (by rw [List.length_set]; omega)
    refine ⟨Call.vkCreateImageView s.mDevice (imageViewCreateInfo s i) VK_SUCCESS
      (answer i).2 :: log, views1, ?_, ?_, ?_, ?_, ?_⟩
    · simp only [createImageViewsLoop, hi, ne_eq, not_true_eq_false, if_false, hrun]
    · rw [hl, List.length_set]
    · simp [hlog]
    · intro j hj
      rw [hkeep j (by omega), List.get?_eq_getElem?, List.get?_eq_getElem?,
        List.getElem?_set_ne (by omega)]
    · intro k hk
      cases k with
      | zero =>
        refine ⟨?_, rfl⟩
        rw [Nat.add_zero, hkeep i (by omega), List.get?_eq_getElem?,
          List.getElem?_set_eq_of_lt _ (by omega)]
      | succ k =>
        have h := hset k (by omega)
        have e : i + 1 + k = i + (k + 1) := by omega
        rw [e] at h
        exact ⟨h.1, h.2⟩

/-- The loop of `createFramebuffers`, when every creation succeeds, makes one
call per index and stores the returned handle at that index. -/
theorem createFramebuffersLoop_ok (s : App) (answer : Nat → VkResult × Handle) :
    ∀ (remaining i : Nat) (framebuffers : List Handle),
      (∀ j, i ≤ j → j < i + remaining → (answer j).1 = VK_SUCCESS) →
      i + remaining ≤ framebuffers.length →
      ∃ log framebuffers1,
        createFramebuffersLoop s answer remaining i framebuffers = (log, .ok framebuffers1)
        ∧ framebuffers1.length = framebuffers.length ∧ log.length = remaining
        ∧ (∀ j, j < i → framebuffers1.get? j = framebuffers.get? j)
        ∧ (∀ k, k < remaining → framebuffers1.get? (i + k) = some (answer (i + k)).2
            ∧ log.get? k = some (Call.vkCreateFramebuffer s.mDevice
                (framebufferCreateInfo s (i + k)) VK_SUCCESS (answer (i + k)).2)) := by
  intro remaining
  induction remaining with
  | zero =>
    intro i framebuffers _ _
    exact ⟨[], framebuffers, rfl, rfl, rfl, fun _ _ => rfl,
      fun k hk => absurd hk (Nat.not_lt_zero k)⟩
  | succ n ih =>
    intro i framebuffers hans hlen
    have hi : (answer i).1 = VK_SUCCESS := hans i (Nat.le_refl i) (by omega)
    obtain ⟨log, framebuffers1, hrun, hl, hlog, hkeep, hset⟩ :=
      ih (i + 1) (framebuffers.set i (answer i).2)
        (fun j h1 h2 => hans j (by omega) (by omega))
        (by rw [List.length_set]; omega)
    refine ⟨Call.vkCreateFramebuffer s.mDevice (framebufferCreateInfo s i) VK_SUCCESS
      (answer i).2 :: log, framebuffers1, ?_, ?_, ?_, ?_, ?_⟩
    · simp only [createFramebuffersLoop, hi, ne_eq, not_true_eq_false, if_false, hrun]
    · rw [hl, List.length_set]
    · simp [hlog]
    · intro j hj
      rw [hkeep j (by omega), List.get?_eq_getElem?, List.get?_eq_getElem?,
        List.getElem?_set_ne (by omega)]
    · intro k hk
      cases k with
      | zero =>
        refine ⟨?_, rfl⟩
        rw [Nat.add_zero, hkeep i (by omega), List.get?_eq_getElem?,
          List.getElem?_set_eq_of_lt _ (by omega)]
      | succ k =>
        have h := hset k (by omega)
        have e : i + 1 + k = i + (k + 1) := by omega
        rw [e] at h
        exact ⟨h.1, h.2⟩

/-- With its queries passed, a successful creation and at least one image
returned, `createSwapChain` stores the images the platform returned. -/
theorem createSwapChain_ok (s : App) (a : SwapChainAnswers) (device : PhysicalDevice)
    (g p : Nat) (hdev : s.mPhysicalDevice = some device) (hf : device.formats ≠ [])
    (hm : device.presentModes ≠ [])
    (hq : findQueueFamilies device = .ok ⟨some g, some p⟩)
    (hres : a.result = VK_SUCCESS) (himg : a.images ≠ []) :
    ∃ log s1, createSwapChain s a = (log, .ok s1) ∧ s1.mSwapChainImages = a.images := by
  obtain ⟨surfaceFormat, hsf⟩ := chooseSwapSurfaceFormat_returns device.formats hf
  have hi : a.images.length > 0 := List.length_pos.mpr himg
  unfold createSwapChain
  simp only [hdev, querySwapChainSupport_ok device hf hm, hsf, hq]
  simp only [hres, hi, ne_eq, not_true_eq_false, if_false]
  exact ⟨_, _, rfl, rfl⟩

/-- When every creation succeeds `createImageViews` returns, with one view
per image, view `i` created on image `i`. -/
theorem createImageViews_ok (s : App) (answer : Nat → VkResult × Handle)
    (hans : ∀ i, i < s.mSwapChainImages.length → (answer i).1 = VK_SUCCESS) :
    ∃ log s1, createImageViews s answer = (log, .ok s1)
      ∧ s1.mSwapChainImages = s.mSwapChainImages
      ∧ s1.mSwapChainImageViews.length = s.mSwapChainImages.length
      ∧ ∀ i, i < s.mSwapChainImages.length →
          s1.mSwapChainImageViews.get? i = some (answer i).2
          ∧ log.get? i = some (Call.vkCreateImageView s.mDevice (imageViewCreateInfo s i)
              VK_SUCCESS (answer i).2) := by
  obtain ⟨log, views, h, hvl, _, _, hv⟩ :=
    createImageViewsLoop_ok s answer s.mSwapChainImages.length 0
      (vectorResize s.mSwapChainImageViews s.mSwapChainImages.length)
      (fun j _ hj => hans j (by omega))
      (by rw [vectorResize_length]; omega)
  rw [vectorResize_length] at hvl
  refine ⟨log, { s with mSwapChainImageViews := views }, ?_, rfl, hvl, ?_⟩
  · simp only [createImageViews, h]
  · intro i hi
    have := hv i hi
    rw [Nat.zero_add] at this
    exact this

/-- When every creation succeeds `createFramebuffers` returns, with one
framebuffer per image view, framebuffer `i` created on view `i`. -/
theorem createFramebuffers_ok (s : App) (answer : Nat → VkResult × Handle)
    (hans : ∀ i, i < s.mSwapChainImageViews.length → (answer i).1 = VK_SUCCESS) :
    ∃ log s1, createFramebuffers s answer = (log, .ok s1)
      ∧ s1.mSwapChainImages = s.mSwapChainImages
      ∧ s1.mSwapChainImageViews = s.mSwapChainImageViews
      ∧ s1.mSwapChainFramebuffers.length = s.mSwapChainImageViews.length
      ∧ ∀ i, i < s.mSwapChainImageViews.length →
          s1.mSwapChainFramebuffers.get? i = some (answer i).2
          ∧ log.get? i = some (Call.vkCreateFramebuffer s.mDevice (framebufferCreateInfo s i)
              VK_SUCCESS (answer i).2) := by
  obtain ⟨log, fbs, h, hfl, _, _, hfb⟩ :=
    createFramebuffersLoop_ok s answer s.mSwapChainImageViews.length 0
      (vectorResize s.mSwapChainFramebuffers s.mSwapChainImageViews.length)
      (fun j _ hj => hans j (by omega))
      (by rw [vectorResize_length]; omega)
  rw [vectorResize_length] at hfl
  refine ⟨log, { s with mSwapChainFramebuffers := fbs }, ?_, rfl, rfl, hfl, ?_⟩
  · simp only [createFramebuffers, h]
  · intro i hi
    have := hfb i hi
    rw [Nat.zero_add] at this
    exact this

/-- C6: after `createSwapChain`, `createImageViews` and `createFramebuffers`
have run (whatever runs in between leaving the image and view vectors alone),
the number of framebuffers equals the number of image views equals the number
of images the platform returned, whatever count was requested; framebuffer
`i` was created with image view `i` as its one attachment, and image view `i`
was created on image `i`. -/
theorem framebuffers_match_images (s : App) (a : SwapChainAnswers)
    (viewAnswer fbAnswer : Nat → VkResult × Handle) (between : App → App)
    (device : PhysicalDevice) (g p : Nat)
    (hdev : s.mPhysicalDevice = some device) (hf : device.formats ≠ [])
    (hm : device.presentModes ≠ [])
    (hq : findQueueFamilies device = .ok ⟨some g, some p⟩)
    (hres : a.result = VK_SUCCESS) (himg : a.images ≠ [])
    (hviews : ∀ i, i < a.images.length → (viewAnswer i).1 = VK_SUCCESS)
    (hfbs : ∀ i, i < a.images.length → (fbAnswer i).1 = VK_SUCCESS)
    (hbetween : ∀ t : App, (between t).mSwapChainImages = t.mSwapChainImages
      ∧ (between t).mSwapChainImageViews = t.mSwapChainImageViews) :
    ∃ log1 s1 log2 s2 log3 s3,
      createSwapChain s a = (log1, .ok s1)
      ∧ createImageViews s1 viewAnswer = (log2, .ok s2)
      ∧ createFramebuffers (between s2) fbAnswer = (log3, .ok s3)
      ∧ s3.mSwapChainImages = a.images
      ∧ s3.mSwapChainImageViews.length = a.images.length
      ∧ s3.mSwapChainFramebuffers.length = a.images.length
      ∧ ∀ i, i < a.images.length → ∃ image view framebuffer,
          s3.mSwapChainImages.get? i = some image
          ∧ s3.mSwapChainImageViews.get? i = some view
          ∧ s3.mSwapChainFramebuffers.get? i = some framebuffer
          ∧ log2.get? i = some (Call.vkCreateImageView s1.mDevice
              (imageViewCreateInfo s1 i) VK_SUCCESS view)
          ∧ (imageViewCreateInfo s1 i).image = image
          ∧ log3.get? i = some (Call.vkCreateFramebuffer (between s2).mDevice
              (framebufferCreateInfo (between s2) i) VK_SUCCESS framebuffer)
          ∧ (framebufferCreateInfo (between s2) i).pAttachments = [view] := by
  obtain ⟨log1, s1, h1, himages⟩ := createSwapChain_ok s a device g p hdev hf hm hq hres himg
  obtain ⟨log2, s2, h2, hi2, hvl, hv⟩ := createImageViews_ok s1 viewAnswer
    (fun i hi => hviews i (by rw [himages] at hi; exact hi))
  obtain ⟨hb1, hb2⟩ := hbetween s2
  obtain ⟨log3, s3, h3, hi3, hv3, hfl, hfb⟩ := createFramebuffers_ok (between s2) fbAnswer
    (fun i hi => hfbs i (by rw [hb2, hvl, himages] at hi; exact hi))
  refine ⟨log1, s1, log2, s2, log3, s3, h1, h2, h3, ?_, ?_, ?_, ?_⟩
  · rw [hi3, hb1, hi2, himages]
  · rw [hv3, hb2, hvl, himages]
  · rw [hfl, hb2, hvl, himages]
  · intro i hi
    have hi1 : i < s1.mSwapChainImages.length := by rw [himages]; exact hi
    have hvi := hv i hi1
    have hfi := hfb i (by rw [hb2, hvl]; exact hi1)
    refine ⟨s1.mSwapChainImages.getD i 0, (viewAnswer i).2, (fbAnswer i).2,
      ?_, ?_, hfi.1, hvi.2, rfl, hfi.2, ?_⟩
    · rw [hi3, hb1, hi2, List.get?_eq_getElem?, List.getD_eq_getElem?_getD,
        List.getElem?_eq_getElem hi1]
      rfl
    · rw [hv3, hb2]
      exact hvi.1
    · simp only [framebufferCreateInfo, hb2]
      rw [List.getD_eq_getElem?_getD, ← List.get?_eq_getElem?, hvi.1]
      rfl

/-- Witness of C6: a platform that returns exactly the three images 21, 22
and 23 yields exactly three image views and three framebuffers. -/
theorem framebuffers_match_images_witness :
    ∃ log1 s1 log2 s2 log3 s3,
      createSwapChain (sampleApp sampleDevice) sampleSwapChainAnswers = (log1, .ok s1)
      ∧ createImageViews s1 (fun i => (VK_SUCCESS, 30 + i)) = (log2, .ok s2)
      ∧ createFramebuffers s2 (fun i => (VK_SUCCESS, 40 + i)) = (log3, .ok s3)
      ∧ s3.mSwapChainImages = [21, 22, 23]
      ∧ s3.mSwapChainImageViews.length = 3
      ∧ s3.mSwapChainFramebuffers.length = 3 := by
  obtain ⟨log1, s1, log2, s2, log3, s3, h1, h2, h3, hi, hv, hf, _⟩ :=
    framebuffers_match_images (sampleApp sampleDevice) sampleSwapChainAnswers
      (fun i => (VK_SUCCESS, 30 + i)) (fun i => (VK_SUCCESS, 40 + i)) id sampleDevice 0 1
      rfl (by decide) (by decide) rfl rfl (by decide) (fun _ _ => rfl) (fun _ _ => rfl)
      (fun _ => ⟨rfl, rfl⟩)
  exact ⟨log1, s1, log2, s2, log3, s3, h1, h2, h3, hi, hv, hf⟩

/-! ### Adapter selection -/

/-- The loop of `findQueueFamilies` ends complete exactly when each capability
was found before or is found in what is left. -/
theorem findQueueFamiliesLoop_isComplete (l : List QueueFamily) :
    ∀ (i : Nat) (indices : QueueFamilyIndices),
      (findQueueFamiliesLoop l i indices).isComplete = true
        ↔ (indices.graphicsFamily.isSome = true
            ∨ ∃ q ∈ l, q.queueFlags &&& VK_QUEUE_GRAPHICS_BIT ≠ 0)
          ∧ (indices.presentFamily.isSome = true ∨ ∃ q ∈ l, q.presentSupport = true) := by
  induction l with
  | nil =>
    intro i indices
    simp [findQueueFamiliesLoop, QueueFamilyIndices.isComplete]
  | cons q rest ih =>
    intro i indices
    unfold findQueueFamiliesLoop
    simp only
    split_ifs with hg hp hc hc hp hc hc
    all_goals first
      | (rw [ih]; simp_all [QueueFamilyIndices.isComplete])
      | simp_all [QueueFamilyIndices.isComplete]

/-- The erasing loop of `checkDeviceExtensionSupport` leaves the required names
that are not available. -/
theorem eraseAvailable_eq (available : List String) :
    ∀ required : List String,
      eraseAvailable required available = required.filter (fun r => decide (r ∉ available)) := by
  induction available with
  | nil =>
    intro required
    simp [eraseAvailable]
  | cons e rest ih =>
    intro required
    rw [eraseAvailable, ih, List.filter_filter]
    congr 1
    funext r
    simp only [List.mem_cons, not_or, ne_eq, decide_not, Bool.decide_and]
    rw [Bool.and_comm]

theorem checkDeviceExtensionSupport_eq (device : PhysicalDevice)
    (he : device.extensions ≠ []) :
    checkDeviceExtensionSupport device
      = .ok (decide (∀ r ∈ deviceExtensions, r ∈ device.extensions)) := by
  have hl : device.extensions.length > 0 := List.length_pos.mpr he
  unfold checkDeviceExtensionSupport
  rw [if_neg (not_not.mpr hl), eraseAvailable_eq]
  congr 1
  rw [Bool.eq_iff_iff]
  simp [List.isEmpty_iff, List.filter_eq_nil_iff]

/-- What `isDeviceSuitable` does, assertion by assertion. -/
theorem isDeviceSuitable_eq (device : PhysicalDevice) :
    isDeviceSuitable device
      = if device.queueFamilies = [] then .error (.assertFailed 832)
        else if device.extensions = [] then .error (.assertFailed 754)
        else if ∀ r ∈ deviceExtensions, r ∈ device.extensions then
          if device.formats = [] then .error (.assertFailed 730)
          else if device.presentModes = [] then .error (.assertFailed 740)
          else .ok (decide ((∃ q ∈ device.queueFamilies,
                  q.queueFlags &&& VK_QUEUE_GRAPHICS_BIT ≠ 0)
                ∧ (∃ q ∈ device.queueFamilies, q.presentSupport = true)))
        else .ok false := by
  unfold isDeviceSuitable
  by_cases hq : device.queueFamilies = []
  · simp [findQueueFamilies, hq]
  · have hql : device.queueFamilies.length > 0 := List.length_pos.mpr hq
    rw [if_neg hq]
    simp only [findQueueFamilies, hql, not_true_eq_false, if_false]
    by_cases he : device.extensions = []
    · simp [checkDeviceExtensionSupport, he]
    · rw [if_neg he, checkDeviceExtensionSupport_eq device he]
      by_cases hx : ∀ r ∈ deviceExtensions, r ∈ device.extensions
      · have hd : decide (∀ r ∈ deviceExtensions, r ∈ device.extensions) = true :=
          decide_eq_true hx
        rw [if_pos hx, hd]
        simp only [if_true]
        by_cases hf : device.formats = []
        · simp [querySwapChainSupport, hf]
        · rw [if_neg hf]
          by_cases hm : device.presentModes = []
          · have hfl : device.formats.length > 0 := List.length_pos.mpr hf
            simp [querySwapChainSupport, hm, hfl]
          · rw [if_neg hm, querySwapChainSupport_ok device hf hm]
            simp only
            have hfe : device.formats.isEmpty = false := by
              cases hfc : device.formats with
              | nil => exact absurd hfc hf
              | cons _ _ => rfl
            have hme : device.presentModes.isEmpty = false := by
              cases hmc : device.presentModes with
              | nil => exact absurd hmc hm
              | cons _ _ => rfl
            rw [hfe, hme]
            simp only [Bool.not_false, Bool.and_true]
            congr 1
            rw [Bool.eq_iff_iff, findQueueFamiliesLoop_isComplete]
            simp
      · have hd : decide (∀ r ∈ deviceExtensions, r ∈ device.extensions) = false :=
          decide_eq_false hx
        rw [if_neg hx, hd]
        simp

theorem isDeviceSuitable_true_iff (device : PhysicalDevice) :
    isDeviceSuitable device = .ok true ↔ SuitabilityConditions device := by
  rw [isDeviceSuitable_eq]
  unfold SuitabilityConditions
  split_ifs with h1 h2 h3 h4 h5
  · simp [h1]
  · simp only [reduceCtorEq, false_iff, not_and]
    intro _ _ h
    have := h "VK_KHR_swapchain" (by simp [deviceExtensions])
    rw [h2] at this
    exact absurd this (List.not_mem_nil _)
  · simp [h4]
  · simp [h5]
  · simp only [Except.ok.injEq, decide_eq_true_eq]
    generalize (∃ q ∈ device.queueFamilies, q.queueFlags &&& VK_QUEUE_GRAPHICS_BIT ≠ 0) = A
    generalize (∃ q ∈ device.queueFamilies, q.presentSupport = true) = B
    tauto
  · simp only [Except.ok.injEq, Bool.false_eq_true, false_iff]
    generalize (∃ q ∈ device.queueFamilies, q.queueFlags &&& VK_QUEUE_GRAPHICS_BIT ≠ 0) = A
    generalize (∃ q ∈ device.queueFamilies, q.presentSupport = true) = B
    tauto

theorem isDeviceSuitable_false_iff (device : PhysicalDevice) :
    isDeviceSuitable device = .ok false
      ↔ ¬ SuitabilityConditions device ∧ AssertionsHold device := by
  rw [isDeviceSuitable_eq]
  unfold SuitabilityConditions AssertionsHold
  split_ifs with h1 h2 h3 h4 h5
  · simp [h1]
  · simp [h2]
  · simp only [reduceCtorEq, false_iff]
    generalize (∃ q ∈ device.queueFamilies, q.queueFlags &&& VK_QUEUE_GRAPHICS_BIT ≠ 0) = A
    generalize (∃ q ∈ device.queueFamilies, q.presentSupport = true) = B
    tauto
  · simp only [reduceCtorEq, false_iff]
    generalize (∃ q ∈ device.queueFamilies, q.queueFlags &&& VK_QUEUE_GRAPHICS_BIT ≠ 0) = A
    generalize (∃ q ∈ device.queueFamilies, q.presentSupport = true) = B
    tauto
  · simp only [Except.ok.injEq, decide_eq_false_iff_not]
    generalize (∃ q ∈ device.queueFamilies, q.queueFlags &&& VK_QUEUE_GRAPHICS_BIT ≠ 0) = A
    generalize (∃ q ∈ device.queueFamilies, q.presentSupport = true) = B
    tauto
  · simp only [true_iff]
    generalize (∃ q ∈ device.queueFamilies, q.queueFlags &&& VK_QUEUE_GRAPHICS_BIT ≠ 0) = A
    generalize (∃ q ∈ device.queueFamilies, q.presentSupport = true) = B
    tauto

theorem isDeviceSuitable_error_iff (device : PhysicalDevice) :
    (∃ line, isDeviceSuitable device = .error (.assertFailed line))
      ↔ ¬ AssertionsHold device := by
  rw [isDeviceSuitable_eq]
  unfold AssertionsHold
  split_ifs with h1 h2 h3 h4 h5
  · simp [h1]
  · simp [h2]
  · simp only [Except.error.injEq, Abort.assertFailed.injEq, exists_eq', true_iff]
    generalize (∃ q ∈ device.queueFamilies, q.queueFlags &&& VK_QUEUE_GRAPHICS_BIT ≠ 0) = A
    generalize (∃ q ∈ device.queueFamilies, q.presentSupport = true) = B
    tauto
  · simp only [Except.error.injEq, Abort.assertFailed.injEq, exists_eq', true_iff]
    generalize (∃ q ∈ device.queueFamilies, q.queueFlags &&& VK_QUEUE_GRAPHICS_BIT ≠ 0) = A
    generalize (∃ q ∈ device.queueFamilies, q.presentSupport = true) = B
    tauto
  · simp only [reduceCtorEq, exists_false, false_iff, not_not]
    generalize (∃ q ∈ device.queueFamilies, q.queueFlags &&& VK_QUEUE_GRAPHICS_BIT ≠ 0) = A
    generalize (∃ q ∈ device.queueFamilies, q.presentSupport = true) = B
    tauto
  · simp only [reduceCtorEq, exists_false, false_iff, not_not]
    generalize (∃ q ∈ device.queueFamilies, q.queueFlags &&& VK_QUEUE_GRAPHICS_BIT ≠ 0) = A
    generalize (∃ q ∈ device.queueFamilies, q.presentSupport = true) = B
    tauto

/-- C8, the code at the failing input: the adapter `sampleDeviceNoFormats` has
both queue capabilities and the required extension but no surface format, so
condition (d) fails and `isDeviceSuitable` should return false; the run ends
on the assertion of line 730 instead.  The code itself means to return false
here: the test of line 872 is made for an empty format or present-mode list,
but it can never fail once `querySwapChainSupport` has returned; and on
`sampleDeviceNoExtension`, which has the same empty format list and lacks the
required extension, `isDeviceSuitable` does return false. -/
theorem isDeviceSuitable_aborts_without_formats :
    ¬ SuitabilityConditions sampleDeviceNoFormats
      ∧ isDeviceSuitable sampleDeviceNoFormats = .error (.assertFailed 730)
      ∧ isDeviceSuitable sampleDeviceNoFormats ≠ .ok false
      ∧ (∀ device support, querySwapChainSupport device = .ok support →
          (!support.formats.isEmpty && !support.presentModes.isEmpty) = true)
      ∧ sampleDeviceNoExtension.formats = sampleDeviceNoFormats.formats
      ∧ ¬ SuitabilityConditions sampleDeviceNoExtension
      ∧ isDeviceSuitable sampleDeviceNoExtension = .ok false := by
  have h : isDeviceSuitable sampleDeviceNoFormats = .error (.assertFailed 730) := by
    rw [isDeviceSuitable_eq]
    simp [sampleDeviceNoFormats, sampleDeviceShared, sampleDevice, deviceExtensions]
  refine ⟨?_, h, ?_, ?_, rfl, ?_, ?_⟩
  · simp [SuitabilityConditions, sampleDeviceNoFormats]
  · rw [h]
    simp
  · intro device support hq
    unfold querySwapChainSupport at hq
    by_cases hf : device.formats.length > 0
    · by_cases hm : device.presentModes.length > 0
      · have hf0 : device.formats.length ≠ 0 := by omega
        have hm0 : device.presentModes.length ≠ 0 := by omega
        simp only [hf, hm, hf0, hm0, not_true_eq_false, if_false, ne_eq, not_false_eq_true,
          if_true, Except.ok.injEq] at hq
        subst hq
        have h1 : device.formats ≠ [] := List.length_pos.mp hf
        have h2 : device.presentModes ≠ [] := List.length_pos.mp hm
        simp [List.isEmpty_iff, h1, h2]
      · simp [hf, hm] at hq
    · simp [hf] at hq
  · simp [SuitabilityConditions, sampleDeviceNoExtension, sampleDeviceNoFormats,
      deviceExtensions]
  · rw [isDeviceSuitable_eq]
    simp [sampleDeviceNoExtension, sampleDeviceNoFormats, sampleDeviceShared, sampleDevice,
      deviceExtensions, VK_QUEUE_GRAPHICS_BIT]

/-- What `isDeviceSuitable` does on every adapter: it returns true if and
only if conditions (a)-(d) hold; it returns false exactly when one of them
fails and the adapter passes the assertions met on the way (a queue family
and a device extension reported and, when the required extensions are all
present, a surface format and a present mode); it ends on a failed assertion
(lines 832, 754, 730, 740) exactly when the adapter does not pass them. -/
theorem isDeviceSuitable_contract (device : PhysicalDevice) :
    (isDeviceSuitable device = .ok true ↔ SuitabilityConditions device)
      ∧ (isDeviceSuitable device = .ok false
          ↔ ¬ SuitabilityConditions device ∧ AssertionsHold device)
      ∧ ((∃ line, isDeviceSuitable device = .error (.assertFailed line))
          ↔ ¬ AssertionsHold device) :=
  ⟨isDeviceSuitable_true_iff device, isDeviceSuitable_false_iff device,
    isDeviceSuitable_error_iff device⟩

/-- The loop of `pickPhysicalDevice` ends with an adapter exactly when that
adapter is the first on which `isDeviceSuitable` returns true, all before it
having returned false. -/
theorem pickPhysicalDeviceLoop_some (devices : List PhysicalDevice) (d : PhysicalDevice) :
    pickPhysicalDeviceLoop devices none = .ok (some d)
      ↔ ∃ pre post, devices = pre ++ d :: post ∧ isDeviceSuitable d = .ok true
          ∧ ∀ e ∈ pre, isDeviceSuitable e = .ok false := by
  induction devices with
  | nil => simp [pickPhysicalDeviceLoop]
  | cons x rest ih =>
    unfold pickPhysicalDeviceLoop
    constructor
    · intro h
      cases hx : isDeviceSuitable x with
      | error e => rw [hx] at h; simp at h
      | ok b =>
        cases b with
        | true =>
          rw [hx] at h
          simp only [Except.ok.injEq, Option.some.injEq] at h
          subst h
          exact ⟨[], rest, rfl, hx, fun e he => absurd he (List.not_mem_nil e)⟩
        | false =>
          rw [hx] at h
          obtain ⟨pre, post, hl, hd, hpre⟩ := ih.mp h
          refine ⟨x :: pre, post, by rw [hl]; rfl, hd, ?_⟩
          intro e he
          rcases List.mem_cons.mp he with h1 | h1
          · rw [h1]; exact hx
          · exact hpre e h1
    · rintro ⟨pre, post, hl, hd, hpre⟩
      cases pre with
      | nil =>
        simp only [List.nil_append, List.cons.injEq] at hl
        rw [hl.1, hd]
      | cons y pre1 =>
        simp only [List.cons_append, List.cons.injEq] at hl
        have hy : isDeviceSuitable x = .ok false := by
          rw [hl.1]; exact hpre y (List.mem_cons_self _ _)
        rw [hy]
        exact ih.mpr ⟨pre1, post, hl.2, hd, fun e he => hpre e (List.mem_cons_of_mem _ he)⟩

/-- An abort of `isDeviceSuitable` is a failed assertion. -/
theorem isDeviceSuitable_error (device : PhysicalDevice) (e : Abort)
    (h : isDeviceSuitable device = .error e) : ∃ line, e = .assertFailed line := by
  rw [isDeviceSuitable_eq] at h
  split_ifs at h <;> simp at h <;> exact ⟨_, h.symm⟩

theorem pickPhysicalDeviceLoop_error (devices : List PhysicalDevice) (e : Abort)
    (h : pickPhysicalDeviceLoop devices none = .error e) : ∃ line, e = .assertFailed line := by
  induction devices with
  | nil => simp [pickPhysicalDeviceLoop] at h
  | cons x rest ih =>
    unfold pickPhysicalDeviceLoop at h
    cases hx : isDeviceSuitable x with
    | error e1 =>
      rw [hx] at h
      simp only [Except.error.injEq] at h
      rw [← h]
      exact isDeviceSuitable_error x e1 hx
    | ok b =>
      cases b with
      | true => rw [hx] at h; simp at h
      | false => rw [hx] at h; exact ih h

/-- `pickPhysicalDevice` returns an adapter or ends on a failed assertion. -/
theorem pickPhysicalDevice_cases (devices : List PhysicalDevice) :
    (∃ d, pickPhysicalDevice none devices = .ok d
        ∧ pickPhysicalDeviceLoop devices none = .ok (some d))
      ∨ ((∃ line, pickPhysicalDevice none devices = .error (.assertFailed line))
        ∧ ∀ d, pickPhysicalDeviceLoop devices none ≠ .ok (some d)) := by
  unfold pickPhysicalDevice
  by_cases hl : devices.length > 0
  · rw [if_neg (not_not.mpr hl)]
    cases h : pickPhysicalDeviceLoop devices none with
    | error e =>
      obtain ⟨line, he⟩ := pickPhysicalDeviceLoop_error devices e h
      right
      exact ⟨⟨line, by rw [he]⟩, fun d hd => by simp at hd⟩
    | ok m =>
      cases m with
      | none =>
        right
        exact ⟨⟨896, rfl⟩, fun d hd => by simp at hd⟩
      | some d =>
        left
        exact ⟨d, rfl, rfl⟩
  · rw [if_pos hl]
    right
    refine ⟨⟨882, rfl⟩, fun d hd => ?_⟩
    have : devices = [] := List.length_eq_zero.mp (by omega)
    rw [this] at hd
    simp [pickPhysicalDeviceLoop] at hd

/-- C7, the code at the failing input: in the list `[sampleDeviceNoFormats,
sampleDevice]` the second adapter satisfies conditions (a)-(d) and the first
does not, so `pickPhysicalDevice` should skip the first and select the
second; it fails on the assertion of line 730, met while the first adapter is
examined, although a suitable adapter is listed.  The loop of lines 887-894
does skip an unsuitable adapter that gets past the assertions: ahead of the
same `sampleDevice`, the adapter `sampleDeviceNoExtension`, which has no
surface format either and lacks the required extension, is skipped and
`sampleDevice` is selected. -/
theorem pickPhysicalDevice_aborts_before_suitable :
    ¬ SuitabilityConditions sampleDeviceNoFormats
      ∧ SuitabilityConditions sampleDevice
      ∧ pickPhysicalDevice none [sampleDeviceNoFormats, sampleDevice]
          = .error (.assertFailed 730)
      ∧ ¬ SuitabilityConditions sampleDeviceNoExtension
      ∧ pickPhysicalDevice none [sampleDeviceNoExtension, sampleDevice]
          = .ok sampleDevice := by
  have h : isDeviceSuitable sampleDeviceNoFormats = .error (.assertFailed 730) := by
    rw [isDeviceSuitable_eq]
    simp [sampleDeviceNoFormats, sampleDeviceShared, sampleDevice, deviceExtensions]
  have h1 : isDeviceSuitable sampleDeviceNoExtension = .ok false := by
    rw [isDeviceSuitable_eq]
    simp [sampleDeviceNoExtension, sampleDeviceNoFormats, sampleDeviceShared, sampleDevice,
      deviceExtensions, VK_QUEUE_GRAPHICS_BIT]
  have h2 : isDeviceSuitable sampleDevice = .ok true := by
    rw [isDeviceSuitable_eq]
    simp [sampleDevice, deviceExtensions, VK_QUEUE_GRAPHICS_BIT]
  refine ⟨?_, ?_, ?_, ?_, ?_⟩
  · simp [SuitabilityConditions, sampleDeviceNoFormats]
  · simp [SuitabilityConditions, sampleDevice, deviceExtensions, VK_QUEUE_GRAPHICS_BIT]
  · simp [pickPhysicalDevice, pickPhysicalDeviceLoop, h]
  · simp [SuitabilityConditions, sampleDeviceNoExtension, sampleDeviceNoFormats,
      deviceExtensions]
  · simp [pickPhysicalDevice, pickPhysicalDeviceLoop, h1, h2]

/-- What `pickPhysicalDevice` does on every list: it selects an adapter
exactly when it is the first in enumeration order that satisfies conditions
(a)-(d) and every adapter before it, none of which satisfies them, passes the
assertions met while it is examined; in every other case it fails on an
assertion, in particular whenever no adapter in the list satisfies the
conditions. -/
theorem pickPhysicalDevice_contract (devices : List PhysicalDevice) :
    (∀ d, pickPhysicalDevice none devices = .ok d
        ↔ ∃ pre post, devices = pre ++ d :: post ∧ SuitabilityConditions d
            ∧ ∀ e ∈ pre, ¬ SuitabilityConditions e ∧ AssertionsHold e)
      ∧ ((∀ d, pickPhysicalDevice none devices ≠ .ok d) →
          ∃ line, pickPhysicalDevice none devices = .error (.assertFailed line))
      ∧ ((∀ e ∈ devices, ¬ SuitabilityConditions e) →
          ∃ line, pickPhysicalDevice none devices = .error (.assertFailed line)) := by
  have hiff : ∀ d, pickPhysicalDeviceLoop devices none = .ok (some d)
      ↔ ∃ pre post, devices = pre ++ d :: post ∧ SuitabilityConditions d
          ∧ ∀ e ∈ pre, ¬ SuitabilityConditions e ∧ AssertionsHold e := by
    intro d
    rw [pickPhysicalDeviceLoop_some]
    simp only [isDeviceSuitable_true_iff, isDeviceSuitable_false_iff]
  have hA : ∀ d, pickPhysicalDevice none devices = .ok d
      ↔ pickPhysicalDeviceLoop devices none = .ok (some d) := by
    intro d
    rcases pickPhysicalDevice_cases devices with ⟨d1, h1, h2⟩ | ⟨⟨line, h1⟩, h2⟩
    · rw [h1, h2]
      simp
    · rw [h1]
      simp only [reduceCtorEq, false_iff]
      exact h2 d
  have hB : (∀ d, pickPhysicalDevice none devices ≠ .ok d) →
      ∃ line, pickPhysicalDevice none devices = .error (.assertFailed line) := by
    intro hno
    rcases pickPhysicalDevice_cases devices with ⟨d1, h1, _⟩ | ⟨h1, _⟩
    · exact absurd h1 (hno d1)
    · exact h1
  refine ⟨fun d => (hA d).trans (hiff d), hB, fun hnone => hB ?_⟩
  intro d hd
  obtain ⟨pre, post, hl, hs, _⟩ := (hiff d).mp ((hA d).mp hd)
  exact hnone d (by rw [hl]; simp) hs

/-! ### Logical device -/

theorem stdSetOfList_pair (g p : Nat) :
    stdSetOfList [g, p]
      = if g = p then [g] else if g < p then [g, p] else [p, g] := by
  simp only [stdSetOfList, List.foldl, stdSetInsert]
  by_cases h1 : p < g
  · have h2 : ¬ g = p := by omega
    have h3 : ¬ g < p := by omega
    simp [h1, h2, h3]
  · by_cases h2 : p = g
    · simp [h2]
    · have h3 : g < p := by omega
      have h4 : ¬ g = p := by omega
      simp [h1, h2, h3, h4]

/-- C9: for found graphics and presentation family indices `g` and `p`,
`createLogicalDevice` requests one queue-create entry per distinct family
index, each with queue count 1: the one entry for `g` when `g = p`, and two
entries, for the two different indices, when `g` and `p` differ; once the
device is created it retrieves queue 0 of family `g` as the graphics queue and
queue 0 of family `p` as the presentation queue. -/
theorem createLogicalDevice_queues (s : App) (a : LogicalDeviceAnswers)
    (device : PhysicalDevice) (g p : Nat) (hdev : s.mPhysicalDevice = some device)
    (hq : findQueueFamilies device = .ok ⟨some g, some p⟩) :
    ∃ info, requestedDevice (createLogicalDevice s a).1 = some info
      ∧ (∀ c ∈ info.pQueueCreateInfos, c.queueCount = 1)
      ∧ (info.pQueueCreateInfos.map (fun c => c.queueFamilyIndex)).Nodup
      ∧ (∀ f, f ∈ info.pQueueCreateInfos.map (fun c => c.queueFamilyIndex) ↔ f = g ∨ f = p)
      ∧ (g = p → info.pQueueCreateInfos = [⟨g, 1, [1]⟩])
      ∧ (g ≠ p → info.pQueueCreateInfos = [⟨min g p, 1, [1]⟩, ⟨max g p, 1, [1]⟩]
          ∧ min g p ≠ max g p)
      ∧ (a.result = VK_SUCCESS →
          (createLogicalDevice s a).1
              = [Call.vkCreateDevice device.handle info VK_SUCCESS a.device,
                 Call.vkGetDeviceQueue a.device g 0 a.graphicsQueue,
                 Call.vkGetDeviceQueue a.device p 0 a.presentQueue]
            ∧ (createLogicalDevice s a).2
              = .ok { s with mDevice := a.device, mGraphicsQueue := a.graphicsQueue,
                             mPresentQueue := a.presentQueue }) := by
  have hlog : (createLogicalDevice s a)
      = if a.result ≠ VK_SUCCESS then
          ([Call.vkCreateDevice device.handle
              ⟨(stdSetOfList [g, p]).map (fun queueFamily => ⟨queueFamily, 1, [1]⟩),
                deviceExtensions, validationLayers⟩ a.result a.device],
            .error (.assertFailed 817))
        else
          ([Call.vkCreateDevice device.handle
              ⟨(stdSetOfList [g, p]).map (fun queueFamily => ⟨queueFamily, 1, [1]⟩),
                deviceExtensions, validationLayers⟩ a.result a.device,
            Call.vkGetDeviceQueue a.device g 0 a.graphicsQueue,
            Call.vkGetDeviceQueue a.device p 0 a.presentQueue],
            .ok { s with mDevice := a.device, mGraphicsQueue := a.graphicsQueue,
                         mPresentQueue := a.presentQueue }) := by
    unfold createLogicalDevice
    simp only [hdev, hq, enableValidationLayer, if_true]
  refine ⟨⟨(stdSetOfList [g, p]).map (fun queueFamily => ⟨queueFamily, 1, [1]⟩),
    deviceExtensions, validationLayers⟩, ?_, ?_, ?_, ?_, ?_, ?_, ?_⟩
  · rw [hlog]
    split_ifs <;> rfl
  · intro c hc
    simp only [List.mem_map] at hc
    obtain ⟨f, _, hf⟩ := hc
    rw [← hf]
  · rw [stdSetOfList_pair]
    split_ifs with h1 h2
    · simp
    · simp [h1]
    · simp only [List.map_cons, List.map_nil, List.nodup_cons, List.mem_singleton,
        List.not_mem_nil, not_false_eq_true, List.nodup_nil, and_true]
      omega
  · intro f
    rw [stdSetOfList_pair]
    split_ifs with h1 h2
    · simp [h1]
    · simp
    · simp only [List.map_cons, List.map_nil, List.mem_cons, List.mem_singleton,
        List.not_mem_nil, or_false]
      tauto
  · intro h
    simp only [stdSetOfList_pair, h, if_true, List.map_cons, List.map_nil]
  · intro h
    rw [stdSetOfList_pair, if_neg h]
    refine ⟨?_, by omega⟩
    split_ifs with h2
    · rw [Nat.min_eq_left (by omega), Nat.max_eq_right (by omega)]
      rfl
    · rw [Nat.min_eq_right (by omega), Nat.max_eq_left (by omega)]
      rfl
  · intro hr
    rw [hlog, hr]
    simp

/-- Witness of C9: families 0 and 1 give two entries; the queues retrieved are
queue 0 of family 0 and queue 0 of family 1. -/
theorem createLogicalDevice_queues_witness :
    ∃ info, requestedDevice
        (createLogicalDevice (sampleApp sampleDevice) sampleLogicalDeviceAnswers).1 = some info
      ∧ info.pQueueCreateInfos = [⟨0, 1, [1]⟩, ⟨1, 1, [1]⟩]
      ∧ (createLogicalDevice (sampleApp sampleDevice) sampleLogicalDeviceAnswers).1
          = [Call.vkCreateDevice 7 info 0 24,
             Call.vkGetDeviceQueue 24 0 0 25,
             Call.vkGetDeviceQueue 24 1 0 26] := by
  obtain ⟨info, h1, _, _, _, _, h6, h7⟩ :=
    createLogicalDevice_queues (sampleApp sampleDevice) sampleLogicalDeviceAnswers
      sampleDevice 0 1 rfl rfl
  exact ⟨info, h1, (h6 (by decide)).1, (h7 rfl).1⟩

/-! ### The frame -/

/-- One step of the check leaves a check of the rest. -/
theorem guardMonitor_tail (W : Call) (F : Handle) (b : Bool) (c : Call) (rest : List Call)
    (h : guardMonitor W F b (c :: rest) = true) :
    ∃ b1, guardMonitor W F b1 rest = true := by
  unfold guardMonitor at h
  by_cases hc : c = W
  · rw [if_pos hc] at h
    exact ⟨false, h⟩
  · rw [if_neg hc] at h
    cases c <;> simp only [Bool.and_eq_true] at h
    all_goals first
      | exact ⟨b, h⟩
      | exact ⟨true, h.2⟩
      | exact ⟨b, h.2⟩

/-- While a submission is pending the check passes only logs in which a wait
comes before the next `vkBeginCommandBuffer`. -/
theorem guardMonitor_pending (W : Call) (F : Handle)
    (hW : ∀ cb r, W ≠ Call.vkBeginCommandBuffer cb r) :
    ∀ (t : List Call), guardMonitor W F true t = true →
      ∀ mid cb r post, t = mid ++ Call.vkBeginCommandBuffer cb r :: post → W ∈ mid := by
  intro t
  induction t with
  | nil =>
    intro _ mid cb r post h
    simp at h
  | cons c rest ih =>
    intro hmon mid cb r post hdec
    cases mid with
    | nil =>
      simp only [List.nil_append, List.cons.injEq] at hdec
      unfold guardMonitor at hmon
      rw [hdec.1, if_neg (fun e => hW cb r e.symm)] at hmon
      simp at hmon
    | cons m mid1 =>
      simp only [List.cons_append, List.cons.injEq] at hdec
      by_cases hc : c = W
      · rw [← hdec.1, hc]
        exact List.mem_cons_self _ _
      · have hrest : guardMonitor W F true rest = true := by
          unfold guardMonitor at hmon
          rw [if_neg hc] at hmon
          cases c <;> simp only [Bool.and_eq_true] at hmon
          all_goals first
            | exact hmon
            | exact hmon.2
        exact List.mem_cons_of_mem _ (ih hrest mid1 cb r post hdec.2)

/-- The check passes only logs in which every submission uses the fence `F`
and is followed by a wait before the next `vkBeginCommandBuffer`. -/
theorem guardMonitor_sound (W : Call) (F : Handle)
    (hW : ∀ cb r, W ≠ Call.vkBeginCommandBuffer cb r)
    (hW2 : ∀ q i f r, W ≠ Call.vkQueueSubmit q i f r) :
    ∀ (t : List Call) (b : Bool), guardMonitor W F b t = true →
      ∀ pre q infos f res mid cb r post,
        t = pre ++ Call.vkQueueSubmit q infos f res
              :: (mid ++ Call.vkBeginCommandBuffer cb r :: post) →
        f = F ∧ W ∈ mid := by
  intro t
  induction t with
  | nil =>
    intro _ _ pre q infos f res mid cb r post h
    simp at h
  | cons c rest ih =>
    intro b hmon pre q infos f res mid cb r post hdec
    cases pre with
    | nil =>
      simp only [List.nil_append, List.cons.injEq] at hdec
      unfold guardMonitor at hmon
      rw [hdec.1, if_neg (fun e => hW2 q infos f res e.symm)] at hmon
      simp only [Bool.and_eq_true, decide_eq_true_eq] at hmon
      refine ⟨hmon.1, ?_⟩
      exact guardMonitor_pending W F hW rest hmon.2 mid cb r post hdec.2
    | cons x pre1 =>
      simp only [List.cons_append, List.cons.injEq] at hdec
      obtain ⟨b1, hb1⟩ := guardMonitor_tail W F b c rest hmon
      exact ih b1 hb1 pre1 q infos f res mid cb r post hdec.2

/-- A frame that succeeds logs its fourteen calls and returns. -/
theorem drawFrame_ok (s : App) (a : FrameAnswers) (h : a.succeeds s) :
    (drawFrame s a).2 = .ok ()
      ∧ (drawFrame s a).1.filterMap Call.frameStep
          = [.waitGuard, .resetGuard, .acquireImage, .record, .record, .record, .record,
             .record, .record, .record, .record, .record, .submit, .present]
      ∧ (∀ b rest, guardMonitor
            (Call.vkWaitForFences s.mDevice [s.mInFlightFence] true UINT64_MAX)
            s.mInFlightFence b ((drawFrame s a).1 ++ rest)
          = guardMonitor (Call.vkWaitForFences s.mDevice [s.mInFlightFence] true UINT64_MAX)
              s.mInFlightFence true rest) := by
  obtain ⟨h1, h2, h3, h4⟩ := h
  obtain ⟨fb, hfb⟩ : ∃ fb, s.mSwapChainFramebuffers.get? a.imageIndex = some fb :=
    ⟨_, List.get?_eq_get h3⟩
  refine ⟨?_, ?_, ?_⟩
  · simp only [drawFrame, recordCommandBuffer, h1, h2, h4, hfb, ne_eq, not_true_eq_false,
      if_false]
  · simp only [drawFrame, recordCommandBuffer, h1, h2, h4, hfb, ne_eq, not_true_eq_false,
      if_false]
    simp [Call.frameStep]
  · intro b rest
    simp only [drawFrame, recordCommandBuffer, h1, h2, h4, hfb, ne_eq, not_true_eq_false,
      if_false]
    simp [guardMonitor]

/-- A frame that does not succeed aborts, in the step `acquireImage` or in
the step `record`. -/
theorem drawFrame_error (s : App) (a : FrameAnswers) (h : ¬ a.succeeds s) :
    (∃ e, (drawFrame s a).2 = .error e)
      ∧ (frameSteps (drawFrame s a).1 = [.waitGuard, .resetGuard, .acquireImage]
          ∨ frameSteps (drawFrame s a).1
              = [.waitGuard, .resetGuard, .acquireImage, .record])
      ∧ (∀ b, guardMonitor
            (Call.vkWaitForFences s.mDevice [s.mInFlightFence] true UINT64_MAX)
            s.mInFlightFence b (drawFrame s a).1 = true) := by
  unfold FrameAnswers.succeeds at h
  by_cases h1 : a.acquireResult = VK_SUCCESS
  · by_cases h2 : a.beginResult = VK_SUCCESS
    · cases hfb : s.mSwapChainFramebuffers.get? a.imageIndex with
      | none =>
        refine ⟨⟨.outOfBounds, ?_⟩, Or.inr ?_, fun b => ?_⟩
        all_goals simp only [drawFrame, recordCommandBuffer, h1, h2, hfb, ne_eq,
          not_true_eq_false, if_false]
        · simp [frameSteps, Call.frameStep, collapseRuns]
        · simp [guardMonitor]
      | some fb =>
        have h3 : a.imageIndex < s.mSwapChainFramebuffers.length := by
          by_contra hlt
          rw [List.get?_eq_none.mpr (by omega)] at hfb
          exact Option.noConfusion hfb
        have h4 : ¬ a.endResult = VK_SUCCESS := fun h4 => h ⟨h1, h2, h3, h4⟩
        refine ⟨⟨.assertFailed 293, ?_⟩, Or.inr ?_, fun b => ?_⟩
        all_goals simp only [drawFrame, recordCommandBuffer, h1, h2, h4, hfb, ne_eq,
            not_true_eq_false, not_false_eq_true, if_false, if_true]
        · simp [frameSteps, Call.frameStep, collapseRuns]
        · simp [guardMonitor]
    · refine ⟨⟨.assertFailed 255, ?_⟩, Or.inr ?_, fun b => ?_⟩
      all_goals simp only [drawFrame, recordCommandBuffer, h1, h2, ne_eq, not_true_eq_false,
          not_false_eq_true, if_false, if_true]
      · simp [frameSteps, Call.frameStep, collapseRuns]
      · simp [guardMonitor]
  · refine ⟨⟨.assertFailed 201, ?_⟩, Or.inl ?_, fun b => ?_⟩
    all_goals simp only [drawFrame, h1, ne_eq, not_false_eq_true, if_true]
    · simp [frameSteps, Call.frameStep, collapseRuns]
    · simp [guardMonitor]

/-- Every frame starts with the wait on the in-flight fence. -/
theorem drawFrame_head (s : App) (a : FrameAnswers) :
    ∃ t, (drawFrame s a).1
      = Call.vkWaitForFences s.mDevice [s.mInFlightFence] true UINT64_MAX :: t := by
  unfold drawFrame
  simp only
  split_ifs
  · exact ⟨_, rfl⟩
  · split <;> exact ⟨_, rfl⟩

theorem drawFrames_cons_ok (s : App) (a : FrameAnswers) (rest : List FrameAnswers)
    (h : (drawFrame s a).2 = .ok ()) :
    drawFrames s (a :: rest)
      = ((drawFrame s a).1 ++ (drawFrames s rest).1, (drawFrames s rest).2) := by
  rcases hd : drawFrame s a with ⟨log, r⟩
  rw [hd] at h
  simp only at h
  subst h
  simp only [drawFrames, hd]

theorem drawFrames_cons_error (s : App) (a : FrameAnswers) (rest : List FrameAnswers)
    (e : Abort) (h : (drawFrame s a).2 = .error e) :
    drawFrames s (a :: rest) = ((drawFrame s a).1, .error e) := by
  rcases hd : drawFrame s a with ⟨log, r⟩
  rw [hd] at h
  simp only at h
  subst h
  simp only [drawFrames, hd]

/-- The steps of a run of frames, before runs are collapsed, do not start
with a step that could merge with the last step of the frame before. -/
theorem drawFrames_head (s : App) (answers : List FrameAnswers) :
    (drawFrames s answers).1.filterMap Call.frameStep = []
      ∨ ∃ t, (drawFrames s answers).1.filterMap Call.frameStep = .waitGuard :: t := by
  cases answers with
  | nil => exact Or.inl rfl
  | cons a rest =>
    right
    obtain ⟨t, ht⟩ := drawFrame_head s a
    by_cases hs : a.succeeds s
    · rw [drawFrames_cons_ok s a rest (drawFrame_ok s a hs).1]
      simp only [ht, List.cons_append, List.filterMap_cons, Call.frameStep]
      exact ⟨_, rfl⟩
    · obtain ⟨⟨e, he⟩, _, _⟩ := drawFrame_error s a hs
      rw [drawFrames_cons_error s a rest e he]
      simp only [ht, List.filterMap_cons, Call.frameStep]
      exact ⟨_, rfl⟩

/-- The steps of a successful frame followed by further frames. -/
theorem collapseRuns_frame (X : List FrameStep)
    (hX : X = [] ∨ ∃ t, X = .waitGuard :: t) :
    collapseRuns ([.waitGuard, .resetGuard, .acquireImage, .record, .record, .record,
        .record, .record, .record, .record, .record, .record, .submit, .present] ++ X)
      = framePattern ++ collapseRuns X := by
  rcases hX with h | ⟨t, h⟩
  · subst h
    simp [collapseRuns, framePattern]
  · subst h
    simp [collapseRuns, framePattern]

/-- The check of the in-flight fence passes every log of `drawFrames`. -/
theorem drawFrames_guardMonitor (s : App) (answers : List FrameAnswers) :
    ∀ b, guardMonitor (Call.vkWaitForFences s.mDevice [s.mInFlightFence] true UINT64_MAX)
      s.mInFlightFence b (drawFrames s answers).1 = true := by
  induction answers with
  | nil =>
    intro b
    rfl
  | cons a rest ih =>
    intro b
    by_cases hs : a.succeeds s
    · obtain ⟨hok, _, hmon⟩ := drawFrame_ok s a hs
      rw [drawFrames_cons_ok s a rest hok]
      simp only
      rw [hmon b, ih true]
    · obtain ⟨⟨e, he⟩, _, hmon⟩ := drawFrame_error s a hs
      rw [drawFrames_cons_error s a rest e he]
      exact hmon b

/-- The steps of any run of frames are an initial part of the pattern,
repeated once per frame. -/
theorem drawFrames_steps_initial (s : App) (answers : List FrameAnswers) :
    ∃ rest, frameSteps (drawFrames s answers).1 ++ rest = repeatPattern answers.length := by
  induction answers with
  | nil => exact ⟨[], rfl⟩
  | cons a rest ih =>
    by_cases hs : a.succeeds s
    · obtain ⟨hok, hsteps, _⟩ := drawFrame_ok s a hs
      obtain ⟨more, hmore⟩ := ih
      refine ⟨more, ?_⟩
      rw [drawFrames_cons_ok s a rest hok]
      simp only [frameSteps, List.filterMap_append, hsteps]
      rw [collapseRuns_frame _ (drawFrames_head s rest), List.append_assoc]
      simp only [frameSteps] at hmore
      rw [hmore]
      rfl
    · obtain ⟨⟨e, he⟩, hsteps, _⟩ := drawFrame_error s a hs
      rw [drawFrames_cons_error s a rest e he]
      simp only [List.length_cons, repeatPattern, framePattern]
      rcases hsteps with h | h
      · exact ⟨[.record, .submit, .present] ++ repeatPattern rest.length, by rw [h]; rfl⟩
      · exact ⟨[.submit, .present] ++ repeatPattern rest.length, by rw [h]; rfl⟩

/-- A frame that succeeds logs exactly the calls expected of a complete
frame and returns. -/
theorem drawFrame_succeeds_log (s : App) (a : FrameAnswers) (h : a.succeeds s) :
    drawFrame s a = (expectedFrameCalls s a, .ok ()) := by
  obtain ⟨h1, h2, h3, h4⟩ := h
  obtain ⟨fb, hfb⟩ : ∃ fb, s.mSwapChainFramebuffers.get? a.imageIndex = some fb :=
    ⟨_, List.get?_eq_get h3⟩
  have hd : s.mSwapChainFramebuffers.getD a.imageIndex 0 = fb := by
    rw [List.getD_eq_getElem?_getD, ← List.get?_eq_getElem?, hfb]
    rfl
  simp only [drawFrame, recordCommandBuffer, expectedFrameCalls, h1, h2, h4, hfb, hd, ne_eq,
    not_true_eq_false, if_false]
  rfl

/-- A frame that does not succeed aborts, and what it logs is an initial
part of the calls expected of a complete frame: the first three calls when
the acquisition fails, the first five when `vkBeginCommandBuffer` fails or the
image index is outside the framebuffer vector, the first twelve when
`vkEndCommandBuffer` fails.  No submission and no present request is logged. -/
theorem drawFrame_fails_log (s : App) (a : FrameAnswers) (h : ¬ a.succeeds s) :
    ∃ e n, drawFrame s a = ((expectedFrameCalls s a).take n, .error e)
      ∧ (n = 3 ∨ n = 5 ∨ n = 12) := by
  unfold FrameAnswers.succeeds at h
  by_cases h1 : a.acquireResult = VK_SUCCESS
  · by_cases h2 : a.beginResult = VK_SUCCESS
    · cases hfb : s.mSwapChainFramebuffers.get? a.imageIndex with
      | none =>
        refine ⟨.outOfBounds, 5, ?_, Or.inr (Or.inl rfl)⟩
        simp only [drawFrame, recordCommandBuffer, expectedFrameCalls, h1, h2, hfb, ne_eq,
          not_true_eq_false, if_false]
        rfl
      | some fb =>
        have h3 : a.imageIndex < s.mSwapChainFramebuffers.length := by
          by_contra hlt
          rw [List.get?_eq_none.mpr (by omega)] at hfb
          exact Option.noConfusion hfb
        have h4 : ¬ a.endResult = VK_SUCCESS := fun h4 => h ⟨h1, h2, h3, h4⟩
        have hd : s.mSwapChainFramebuffers.getD a.imageIndex 0 = fb := by
          rw [List.getD_eq_getElem?_getD, ← List.get?_eq_getElem?, hfb]
          rfl
        refine ⟨.assertFailed 293, 12, ?_, Or.inr (Or.inr rfl)⟩
        simp only [drawFrame, recordCommandBuffer, expectedFrameCalls, h1, h2, h4, hfb, hd,
          ne_eq, not_true_eq_false, not_false_eq_true, if_false, if_true]
        rfl
    · refine ⟨.assertFailed 255, 5, ?_, Or.inr (Or.inl rfl)⟩
      simp only [drawFrame, recordCommandBuffer, expectedFrameCalls, h1, h2, ne_eq,
        not_true_eq_false, not_false_eq_true, if_false, if_true]
      rfl
  · refine ⟨.assertFailed 201, 3, ?_, Or.inl rfl⟩
    simp only [drawFrame, expectedFrameCalls, h1, ne_eq, not_false_eq_true, if_true]
    rfl

/-- The log of a run of frames: the calls of a complete frame for every frame
up to the first that does not succeed, followed by the initial part that
frame logs. -/
theorem drawFrames_shape (s : App) (answers : List FrameAnswers) :
    ∃ completed rest, answers = completed ++ rest ∧ (∀ a ∈ completed, a.succeeds s)
      ∧ ((rest = [] ∧ drawFrames s answers = (expectedFramesCalls s completed, .ok ()))
        ∨ ∃ failing later e n, rest = failing :: later ∧ ¬ failing.succeeds s
            ∧ (n = 3 ∨ n = 5 ∨ n = 12)
            ∧ drawFrames s answers
                = (expectedFramesCalls s completed ++ (expectedFrameCalls s failing).take n,
                   .error e)) := by
  induction answers with
  | nil =>
    exact ⟨[], [], rfl, fun a ha => absurd ha (List.not_mem_nil a), Or.inl ⟨rfl, rfl⟩⟩
  | cons a rest ih =>
    by_cases hs : a.succeeds s
    · have hlog := drawFrame_succeeds_log s a hs
      have hok : (drawFrame s a).2 = .ok () := by rw [hlog]
      obtain ⟨completed, rest1, hsplit, hall, hcases⟩ := ih
      have hall1 : ∀ x ∈ a :: completed, x.succeeds s := by
        intro x hx
        rcases List.mem_cons.mp hx with rfl | hx
        · exact hs
        · exact hall x hx
      refine ⟨a :: completed, rest1, by rw [hsplit]; rfl, hall1, ?_⟩
      rw [drawFrames_cons_ok s a rest hok, hlog]
      rcases hcases with ⟨hr, hrun⟩ | ⟨failing, later, e, n, hr, hf, hn, hrun⟩
      · refine Or.inl ⟨hr, ?_⟩
        rw [hrun]
        rfl
      · refine Or.inr ⟨failing, later, e, n, hr, hf, hn, ?_⟩
        rw [hrun]
        simp only [expectedFramesCalls, List.append_assoc]
    · obtain ⟨e, n, hlog, hn⟩ := drawFrame_fails_log s a hs
      have herr : (drawFrame s a).2 = .error e := by rw [hlog]
      refine ⟨[], a :: rest, rfl, fun x hx => absurd hx (List.not_mem_nil x),
        Or.inr ⟨a, rest, e, n, rfl, hs, hn, ?_⟩⟩
      rw [drawFrames_cons_error s a rest e herr, hlog]
      rfl

/-- C10: in the log of any number of consecutive `drawFrame` calls, every
frame that completes logs exactly the calls of `expectedFrameCalls`: the wait
on the in-flight guard, the reset of the guard, the acquisition, the
recording (the reset of the command buffer, then `vkBeginCommandBuffer`, the
render pass on the framebuffer of the acquired index with its bind, viewport,
scissor and draw commands, and `vkEndCommandBuffer`), the submission and the
present request, in that order and with nothing else; a frame that does not
complete aborts after the first three, five or twelve of them, before any
submission, and ends the run.  So the steps of the run are wait-on-guard,
reset-guard, acquire-image, record, submit, present, frame after frame; and
between a `vkQueueSubmit` and every later `vkBeginCommandBuffer` a
`vkWaitForFences` on the fence handed to that submission has been made, so
that the recording of a frame starts only after the wait on the guard of the
frame before has returned. -/
theorem drawFrames_order (s : App) (answers : List FrameAnswers) :
    ((∀ a ∈ answers, a.succeeds s) →
        (drawFrames s answers).2 = .ok ()
        ∧ (drawFrames s answers).1 = expectedFramesCalls s answers
        ∧ frameSteps (drawFrames s answers).1 = repeatPattern answers.length)
      ∧ (∃ rest, frameSteps (drawFrames s answers).1 ++ rest = repeatPattern answers.length)
      ∧ (∀ pre queue submits fence result mid commandBuffer beginResult post,
          (drawFrames s answers).1
            = pre ++ Call.vkQueueSubmit queue submits fence result
                :: (mid ++ Call.vkBeginCommandBuffer commandBuffer beginResult :: post) →
          fence = s.mInFlightFence
            ∧ Call.vkWaitForFences s.mDevice [fence] true UINT64_MAX ∈ mid)
      ∧ (∀ a : FrameAnswers, a.succeeds s → drawFrame s a = (expectedFrameCalls s a, .ok ()))
      ∧ (∀ a : FrameAnswers, ¬ a.succeeds s →
          ∃ e n, drawFrame s a = ((expectedFrameCalls s a).take n, .error e)
            ∧ (n = 3 ∨ n = 5 ∨ n = 12))
      ∧ (∃ completed rest, answers = completed ++ rest ∧ (∀ a ∈ completed, a.succeeds s)
          ∧ ((rest = [] ∧ drawFrames s answers = (expectedFramesCalls s completed, .ok ()))
            ∨ ∃ failing later e n, rest = failing :: later ∧ ¬ failing.succeeds s
                ∧ (n = 3 ∨ n = 5 ∨ n = 12)
                ∧ drawFrames s answers
                    = (expectedFramesCalls s completed
                        ++ (expectedFrameCalls s failing).take n, .error e)))
      ∧ (∀ a : FrameAnswers, (expectedFrameCalls s a).filterMap Call.frameStep
          = [.waitGuard, .resetGuard, .acquireImage, .record, .record, .record, .record,
             .record, .record, .record, .record, .record, .submit, .present]) := by
  refine ⟨?_, drawFrames_steps_initial s answers, ?_, drawFrame_succeeds_log s,
    drawFrame_fails_log s, drawFrames_shape s answers, fun a => rfl⟩
  · induction answers with
    | nil =>
      intro _
      exact ⟨rfl, rfl, rfl⟩
    | cons a rest ih =>
      intro hall
      have hs := hall a (List.mem_cons_self _ _)
      obtain ⟨hok, hsteps, _⟩ := drawFrame_ok s a hs
      obtain ⟨ih1, ih2, ih3⟩ := ih (fun x hx => hall x (List.mem_cons_of_mem _ hx))
      rw [drawFrames_cons_ok s a rest hok]
      refine ⟨ih1, ?_, ?_⟩
      · simp only [expectedFramesCalls, ih2, drawFrame_succeeds_log s a hs]
      · simp only [frameSteps, List.filterMap_append, hsteps]
        rw [collapseRuns_frame _ (drawFrames_head s rest)]
        simp only [frameSteps] at ih3
        rw [ih3]
        rfl
  · intro pre queue submits fence result mid commandBuffer beginResult post hdec
    have h := guardMonitor_sound
      (Call.vkWaitForFences s.mDevice [s.mInFlightFence] true UINT64_MAX) s.mInFlightFence
      (fun _ _ e => Call.noConfusion e) (fun _ _ _ _ e => Call.noConfusion e)
      (drawFrames s answers).1 false (drawFrames_guardMonitor s answers false)
      pre queue submits fence result mid commandBuffer beginResult post hdec
    refine ⟨h.1, ?_⟩
    rw [h.1]
    exact h.2

/-- Witness of C10: two frames answered with success, on image 1 of three
framebuffers, log the fourteen calls of a complete frame twice over, and
their steps are the six steps twice over. -/
theorem drawFrames_order_witness :
    (drawFrames sampleFrameApp [sampleFrameAnswers, sampleFrameAnswers]).2 = .ok ()
      ∧ (drawFrames sampleFrameApp [sampleFrameAnswers, sampleFrameAnswers]).1
        = [Call.vkWaitForFences 3 [18] true UINT64_MAX,
           Call.vkResetFences 3 [18],
           Call.vkAcquireNextImageKHR 3 10 UINT64_MAX 16 0 0 1,
           Call.vkResetCommandBuffer 15 0,
           Call.vkBeginCommandBuffer 15 0,
           Call.vkCmdBeginRenderPass 15 ⟨11, 41, ⟨0, 0, ⟨0, 0⟩⟩, [[1, 1, 0, 1]]⟩ 0,
           Call.vkCmdBindPipeline 15 0 13,
           Call.vkCmdSetViewport 15 0 [⟨0, 0, 0, 0, 0, 1⟩],
           Call.vkCmdSetScissor 15 0 [⟨0, 0, ⟨0, 0⟩⟩],
           Call.vkCmdDraw 15 3 1 0 0,
           Call.vkCmdEndRenderPass 15,
           Call.vkEndCommandBuffer 15 0,
           Call.vkQueueSubmit 4 [⟨[16], [1024], [15], [17]⟩] 18 0,
           Call.vkQueuePresentKHR 5 ⟨[17], [10], [1]⟩ 0,
           Call.vkWaitForFences 3 [18] true UINT64_MAX,
           Call.vkResetFences 3 [18],
           Call.vkAcquireNextImageKHR 3 10 UINT64_MAX 16 0 0 1,
           Call.vkResetCommandBuffer 15 0,
           Call.vkBeginCommandBuffer 15 0,
           Call.vkCmdBeginRenderPass 15 ⟨11, 41, ⟨0, 0, ⟨0, 0⟩⟩, [[1, 1, 0, 1]]⟩ 0,
           Call.vkCmdBindPipeline 15 0 13,
           Call.vkCmdSetViewport 15 0 [⟨0, 0, 0, 0, 0, 1⟩],
           Call.vkCmdSetScissor 15 0 [⟨0, 0, ⟨0, 0⟩⟩],
           Call.vkCmdDraw 15 3 1 0 0,
           Call.vkCmdEndRenderPass 15,
           Call.vkEndCommandBuffer 15 0,
           Call.vkQueueSubmit 4 [⟨[16], [1024], [15], [17]⟩] 18 0,
           Call.vkQueuePresentKHR 5 ⟨[17], [10], [1]⟩ 0]
      ∧ frameSteps (drawFrames sampleFrameApp [sampleFrameAnswers, sampleFrameAnswers]).1
        = [.waitGuard, .resetGuard, .acquireImage, .record, .submit, .present,
           .waitGuard, .resetGuard, .acquireImage, .record, .submit, .present] :=
  (drawFrames_order sampleFrameApp [sampleFrameAnswers, sampleFrameAnswers]).1
    (by decide)

/-! ### Submission, presentation and recording -/

/-- C11: in a frame with acquired image index `i`, every queue submission in
the log goes to the graphics queue with the in-flight fence as its completion
guard, waits on exactly the image-available semaphore at exactly the
color-attachment-output stage and signals exactly the render-finished
semaphore; every present request waits on exactly the render-finished
semaphore and targets exactly index `i` of the swapchain; the render pass was
begun on the framebuffer of that same index `i`; and a frame that succeeds
makes exactly one submission followed by exactly one present request. -/
theorem drawFrame_submit_present (s : App) (a : FrameAnswers) :
    (∀ queue submits fence result,
        Call.vkQueueSubmit queue submits fence result ∈ (drawFrame s a).1 →
        queue = s.mGraphicsQueue ∧ fence = s.mInFlightFence ∧ result = a.submitResult
          ∧ submits = [{ pWaitSemaphores := [s.mImageAvailableSemaphore]
                         pWaitDstStageMask := [VK_PIPELINE_STAGE_COLOR_ATTACHMENT_OUTPUT_BIT]
                         pCommandBuffers := [s.mCommandBuffer]
                         pSignalSemaphores := [s.mRenderFinishedSemaphore] }])
      ∧ (∀ queue info result,
          Call.vkQueuePresentKHR queue info result ∈ (drawFrame s a).1 →
          queue = s.mPresentQueue ∧ result = a.presentResult
            ∧ info = { pWaitSemaphores := [s.mRenderFinishedSemaphore]
                       pSwapchains := [s.mSwapChain]
                       pImageIndices := [a.imageIndex] })
      ∧ (∀ commandBuffer info contents,
          Call.vkCmdBeginRenderPass commandBuffer info contents ∈ (drawFrame s a).1 →
          s.mSwapChainFramebuffers.get? a.imageIndex = some info.framebuffer)
      ∧ (∀ device swapchain timeout semaphore fence result index,
          Call.vkAcquireNextImageKHR device swapchain timeout semaphore fence result index
            ∈ (drawFrame s a).1 →
          index = a.imageIndex ∧ semaphore = s.mImageAvailableSemaphore)
      ∧ (a.succeeds s →
          ∃ before,
            (drawFrame s a).1
              = before ++
                [Call.vkQueueSubmit s.mGraphicsQueue
                   [{ pWaitSemaphores := [s.mImageAvailableSemaphore]
                      pWaitDstStageMask := [VK_PIPELINE_STAGE_COLOR_ATTACHMENT_OUTPUT_BIT]
                      pCommandBuffers := [s.mCommandBuffer]
                      pSignalSemaphores := [s.mRenderFinishedSemaphore] }]
                   s.mInFlightFence a.submitResult,
                 Call.vkQueuePresentKHR s.mPresentQueue
                   { pWaitSemaphores := [s.mRenderFinishedSemaphore]
                     pSwapchains := [s.mSwapChain]
                     pImageIndices := [a.imageIndex] } a.presentResult]
            ∧ (∀ c ∈ before, c.frameStep ≠ some .submit ∧ c.frameStep ≠ some .present)) := by
  by_cases h1 : a.acquireResult = VK_SUCCESS
  · by_cases h2 : a.beginResult = VK_SUCCESS
    · cases hfb : s.mSwapChainFramebuffers.get? a.imageIndex with
      | none =>
        have hs : ¬ a.succeeds s := by
          rintro ⟨_, _, h3, _⟩
          rw [List.get?_eq_get h3] at hfb
          exact Option.noConfusion hfb
        refine ⟨?_, ?_, ?_, ?_, fun h => absurd h hs⟩
        all_goals simp only [drawFrame, recordCommandBuffer, h1, h2, hfb, ne_eq,
          not_true_eq_false, if_false]
        all_goals simp
        all_goals (intros; exact ⟨by assumption, by assumption⟩)
      | some fb =>
        by_cases h4 : a.endResult = VK_SUCCESS
        · refine ⟨?_, ?_, ?_, ?_, fun _ => ?_⟩
          · simp only [drawFrame, recordCommandBuffer, h1, h2, h4, hfb, ne_eq,
              not_true_eq_false, if_false]
            intro queue submits fence result hmem
            simp at hmem
            obtain ⟨e1, e2, e3, e4⟩ := hmem
            exact ⟨e1, e3, e4, e2⟩
          · simp only [drawFrame, recordCommandBuffer, h1, h2, h4, hfb, ne_eq,
              not_true_eq_false, if_false]
            intro queue info result hmem
            simp at hmem
            obtain ⟨e1, e2, e3⟩ := hmem
            exact ⟨e1, e3, e2⟩
          · simp only [drawFrame, recordCommandBuffer, h1, h2, h4, hfb, ne_eq,
              not_true_eq_false, if_false]
            intro commandBuffer info contents hmem
            simp at hmem
            rw [hmem.2.1]
          · simp only [drawFrame, recordCommandBuffer, h1, h2, h4, hfb, ne_eq,
              not_true_eq_false, if_false]
            intro device swapchain timeout semaphore fence result index hmem
            simp at hmem
            exact ⟨hmem.2.2.2.2.2.2, hmem.2.2.2.1⟩
          · simp only [drawFrame, recordCommandBuffer, h1, h2, h4, hfb, ne_eq,
              not_true_eq_false, if_false]
            refine ⟨_, rfl, ?_⟩
            intro c hc
            simp at hc
            rcases hc with h | h | h | h | h | h | h | h | h | h | h | h <;>
              (rw [h]; simp [Call.frameStep])
        · have hs : ¬ a.succeeds s := fun h => h4 h.2.2.2
          refine ⟨?_, ?_, ?_, ?_, fun h => absurd h hs⟩
          all_goals simp only [drawFrame, recordCommandBuffer, h1, h2, h4, hfb, ne_eq,
              not_true_eq_false, not_false_eq_true, if_false, if_true]
          · simp
          · simp
          · intro commandBuffer info contents hmem
            simp at hmem
            rw [hmem.2.1]
          · intro device swapchain timeout semaphore fence result index hmem
            simp at hmem
            exact ⟨hmem.2.2.2.2.2.2, hmem.2.2.2.1⟩
    · have hs : ¬ a.succeeds s := fun h => h2 h.2.1
      refine ⟨?_, ?_, ?_, ?_, fun h => absurd h hs⟩
      all_goals simp [drawFrame, recordCommandBuffer, h1, h2]
      all_goals (intros; exact ⟨by assumption, by assumption⟩)
  · have hs : ¬ a.succeeds s := fun h => h1 h.1
    refine ⟨?_, ?_, ?_, ?_, fun h => absurd h hs⟩
    all_goals simp [drawFrame, h1]
    all_goals (intros; exact ⟨by assumption, by assumption⟩)

/-- Witness of C11: the frame on image 1 submits and presents once. -/
theorem drawFrame_submit_present_witness :
    ∃ before,
      (drawFrame sampleFrameApp sampleFrameAnswers).1
        = before ++
          [Call.vkQueueSubmit 4 [⟨[16], [1024], [15], [17]⟩] 18 0,
           Call.vkQueuePresentKHR 5 ⟨[17], [10], [1]⟩ 0]
      ∧ (∀ c ∈ before, c.frameStep ≠ some .submit ∧ c.frameStep ≠ some .present) :=
  (drawFrame_submit_present sampleFrameApp sampleFrameAnswers).2.2.2.2 (by decide)

/-- C12: for an image index inside the framebuffer vector, and once
`vkBeginCommandBuffer` has succeeded, the calls `recordCommandBuffer` makes
are exactly: begin buffer, begin render pass (framebuffer of that index, one
clear value, render area the current extent at offset 0), bind the graphics
pipeline, set one viewport from the current extent, set one scissor from the
current extent, draw 3 vertices and 1 instance, end render pass, end buffer;
nothing else, in that order; the function returns when `vkEndCommandBuffer`
succeeds. -/
theorem recordCommandBuffer_sequence (s : App) (commandBuffer : Handle) (imageIndex : Nat)
    (beginResult endResult : VkResult) (framebuffer : Handle)
    (hb : beginResult = VK_SUCCESS)
    (hfb : s.mSwapChainFramebuffers.get? imageIndex = some framebuffer) :
    (recordCommandBuffer s commandBuffer imageIndex beginResult endResult).1
        = [Call.vkBeginCommandBuffer commandBuffer VK_SUCCESS,
           Call.vkCmdBeginRenderPass commandBuffer
             { renderPass := s.mRenderPass
               framebuffer := framebuffer
               renderArea := ⟨0, 0, s.mSwapChainExtent⟩
               pClearValues := [[1, 1, 0, 1]] } VK_SUBPASS_CONTENTS_INLINE,
           Call.vkCmdBindPipeline commandBuffer VK_PIPELINE_BIND_POINT_GRAPHICS
             s.mGraphicsPipeline,
           Call.vkCmdSetViewport commandBuffer 0
             [⟨0, 0, s.mSwapChainExtent.width, s.mSwapChainExtent.height, 0, 1⟩],
           Call.vkCmdSetScissor commandBuffer 0 [⟨0, 0, s.mSwapChainExtent⟩],
           Call.vkCmdDraw commandBuffer 3 1 0 0,
           Call.vkCmdEndRenderPass commandBuffer,
           Call.vkEndCommandBuffer commandBuffer endResult]
      ∧ (endResult = VK_SUCCESS →
          (recordCommandBuffer s commandBuffer imageIndex beginResult endResult).2 = .ok ()) := by
  subst hb
  refine ⟨?_, fun he => ?_⟩
  · by_cases he : endResult = VK_SUCCESS
    · simp only [recordCommandBuffer, hfb, he, ne_eq, not_true_eq_false, if_false]
    · simp only [recordCommandBuffer, hfb, he, ne_eq, not_true_eq_false, not_false_eq_true,
        if_false, if_true]
  · simp only [recordCommandBuffer, hfb, he, ne_eq, not_true_eq_false, if_false]

/-- Witness of C12: the recording for image index 1 of three framebuffers. -/
theorem recordCommandBuffer_sequence_witness :
    (recordCommandBuffer sampleFrameApp 15 1 VK_SUCCESS VK_SUCCESS).1
        = [Call.vkBeginCommandBuffer 15 0,
           Call.vkCmdBeginRenderPass 15 ⟨11, 41, ⟨0, 0, ⟨0, 0⟩⟩, [[1, 1, 0, 1]]⟩ 0,
           Call.vkCmdBindPipeline 15 0 13,
           Call.vkCmdSetViewport 15 0 [⟨0, 0, 0, 0, 0, 1⟩],
           Call.vkCmdSetScissor 15 0 [⟨0, 0, ⟨0, 0⟩⟩],
           Call.vkCmdDraw 15 3 1 0 0,
           Call.vkCmdEndRenderPass 15,
           Call.vkEndCommandBuffer 15 0]
      ∧ (VK_SUCCESS = VK_SUCCESS →
          (recordCommandBuffer sampleFrameApp 15 1 VK_SUCCESS VK_SUCCESS).2 = .ok ()) :=
  recordCommandBuffer_sequence sampleFrameApp 15 1 VK_SUCCESS VK_SUCCESS 41 rfl rfl

/-- C13, the code at the failing input: an acquisition that does not return
`VK_SUCCESS` ends every frame on the assertion of line 201 after the three
calls wait, reset, acquire; but in the frame `sampleSubmitFailure`, where
`vkQueueSubmit` returns `VK_ERROR_DEVICE_LOST`, `drawFrame` goes on to issue
the present request and returns normally. -/
theorem drawFrame_submit_failure_presents :
    (∀ (s : App) (a : FrameAnswers), a.acquireResult ≠ VK_SUCCESS →
        drawFrame s a
          = ([Call.vkWaitForFences s.mDevice [s.mInFlightFence] true UINT64_MAX,
              Call.vkResetFences s.mDevice [s.mInFlightFence],
              Call.vkAcquireNextImageKHR s.mDevice s.mSwapChain UINT64_MAX
                s.mImageAvailableSemaphore 0 a.acquireResult a.imageIndex],
             .error (.assertFailed 201)))
      ∧ sampleSubmitFailure.submitResult ≠ VK_SUCCESS
      ∧ (drawFrame sampleFrameApp sampleSubmitFailure).2 = .ok ()
      ∧ (drawFrame sampleFrameApp sampleSubmitFailure).1.drop 12
          = [Call.vkQueueSubmit 4 [⟨[16], [1024], [15], [17]⟩] 18 VK_ERROR_DEVICE_LOST,
             Call.vkQueuePresentKHR 5 ⟨[17], [10], [1]⟩ 0] := by
  refine ⟨fun s a h => ?_, by decide, rfl, rfl⟩
  simp only [drawFrame, h, ne_eq, not_false_eq_true, if_true]

/-! ### Bounds of the image count and of the extent -/

/-- Counterexample to C18 as stated: with `minImageCount = 4294967295` and
`maxImageCount = 0` the request is 0, below `minImageCount`; and with
`minImageCount = 5`, `maxImageCount = 3` the request is 3, below
`minImageCount`. -/
theorem createSwapChain_imageCount_below_min :
    ((requestedSwapChain
        (createSwapChain (sampleApp sampleDeviceMaxCount) sampleSwapChainAnswers).1).map
        (fun info => info.minImageCount) = some 0
      ∧ ¬ sampleDeviceMaxCount.capabilities.minImageCount ≤ 0)
    ∧ ((requestedSwapChain
        (createSwapChain (sampleApp sampleDeviceNarrow) sampleSwapChainAnswers).1).map
        (fun info => info.minImageCount) = some 3
      ∧ ¬ sampleDeviceNarrow.capabilities.minImageCount ≤ 3) := by
  refine ⟨⟨?_, ?_⟩, ⟨?_, ?_⟩⟩ <;> decide

/-- C18 (amended): the image count `createSwapChain` requests is never above
`maxImageCount` when `maxImageCount > 0`; and it is never below
`minImageCount` when `minImageCount < 4294967295` (the sum of line 621 does
not wrap) and `maxImageCount` is 0 or at least `minImageCount`. -/
theorem createSwapChain_imageCount_bounds (s : App) (a : SwapChainAnswers)
    (device : PhysicalDevice) (g p : Nat) (hdev : s.mPhysicalDevice = some device)
    (hf : device.formats ≠ []) (hm : device.presentModes ≠ [])
    (hq : findQueueFamilies device = .ok ⟨some g, some p⟩) :
    ∃ imageCount,
      (requestedSwapChain (createSwapChain s a).1).map (fun info => info.minImageCount)
        = some imageCount
      ∧ (device.capabilities.maxImageCount > 0 →
          imageCount ≤ device.capabilities.maxImageCount)
      ∧ (device.capabilities.minImageCount < 4294967295 →
          (device.capabilities.maxImageCount = 0
            ∨ device.capabilities.minImageCount ≤ device.capabilities.maxImageCount) →
          device.capabilities.minImageCount ≤ imageCount) := by
  obtain ⟨surfaceFormat, hlog⟩ := createSwapChain_log s a device g p hdev hf hm hq
  rw [hlog]
  refine ⟨_, rfl, ?_, ?_⟩
  · intro hpos
    simp only
    split_ifs <;> omega
  · intro hlt hmax
    simp only
    rw [Nat.mod_eq_of_lt (by omega)]
    split_ifs <;> omega

/-- Witness of C18: `minImageCount = 2`, `maxImageCount = 0` gives a request
of at least 2. -/
theorem createSwapChain_imageCount_bounds_witness :
    ∃ imageCount,
      (requestedSwapChain
        (createSwapChain (sampleApp sampleDevice) sampleSwapChainAnswers).1).map
        (fun info => info.minImageCount) = some imageCount
      ∧ 2 ≤ imageCount := by
  obtain ⟨n, h1, _, h3⟩ :=
    createSwapChain_imageCount_bounds (sampleApp sampleDevice) sampleSwapChainAnswers
      sampleDevice 0 1 rfl (by decide) (by decide) rfl
  exact ⟨n, h1, h3 (by decide) (Or.inl rfl)⟩

/-- Counterexample to C19 as stated: the current extent 800 x 600 of
`sampleCapabilitiesSmall` is not the sentinel, and the extent returned is
800 x 600, outside `[1000, 2000]` on both axes. -/
theorem chooseSwapExtent_unclamped :
    sampleCapabilitiesSmall.currentExtent.width ≠ UINT32_MAX
      ∧ chooseSwapExtent sampleCapabilitiesSmall 1500 1500 = ⟨800, 600⟩
      ∧ ¬ sampleCapabilitiesSmall.minImageExtent.width
          ≤ (chooseSwapExtent sampleCapabilitiesSmall 1500 1500).width
      ∧ ¬ sampleCapabilitiesSmall.minImageExtent.height
          ≤ (chooseSwapExtent sampleCapabilitiesSmall 1500 1500).height := by
  refine ⟨?_, ?_, ?_, ?_⟩ <;> decide

/-- C19 (amended): when the surface reports the sentinel current extent (and
`minImageExtent <= maxImageExtent` on both axes) the extent chosen by
`chooseSwapExtent` lies within `[minImageExtent, maxImageExtent]` on both
axes; when `currentExtent` is not the sentinel the extent chosen is
`currentExtent` unchanged, which lies within the bounds exactly when
`currentExtent` does. -/
theorem chooseSwapExtent_bounds (caps : VkSurfaceCapabilitiesKHR) (fbWidth fbHeight : Int) :
    (caps.currentExtent.width = UINT32_MAX →
        caps.minImageExtent.width ≤ caps.maxImageExtent.width →
        caps.minImageExtent.height ≤ caps.maxImageExtent.height →
        caps.minImageExtent.width ≤ (chooseSwapExtent caps fbWidth fbHeight).width
          ∧ (chooseSwapExtent caps fbWidth fbHeight).width ≤ caps.maxImageExtent.width
          ∧ caps.minImageExtent.height ≤ (chooseSwapExtent caps fbWidth fbHeight).height
          ∧ (chooseSwapExtent caps fbWidth fbHeight).height ≤ caps.maxImageExtent.height)
      ∧ (caps.currentExtent.width ≠ UINT32_MAX →
          chooseSwapExtent caps fbWidth fbHeight = caps.currentExtent
          ∧ ((caps.minImageExtent.width ≤ (chooseSwapExtent caps fbWidth fbHeight).width
                ∧ (chooseSwapExtent caps fbWidth fbHeight).width ≤ caps.maxImageExtent.width
                ∧ caps.minImageExtent.height ≤ (chooseSwapExtent caps fbWidth fbHeight).height
                ∧ (chooseSwapExtent caps fbWidth fbHeight).height ≤ caps.maxImageExtent.height)
              ↔ (caps.minImageExtent.width ≤ caps.currentExtent.width
                ∧ caps.currentExtent.width ≤ caps.maxImageExtent.width
                ∧ caps.minImageExtent.height ≤ caps.currentExtent.height
                ∧ caps.currentExtent.height ≤ caps.maxImageExtent.height))) := by
  constructor
  · intro hc hW hH
    simp only [chooseSwapExtent, hc, ne_eq, not_true_eq_false, if_false]
    rw [stdClamp_eq _ _ _ hW, stdClamp_eq _ _ _ hH]
    omega
  · intro hc
    have h : chooseSwapExtent caps fbWidth fbHeight = caps.currentExtent := by
      simp only [chooseSwapExtent, hc, ne_eq, not_false_eq_true, if_true]
    rw [h]
    exact ⟨rfl, Iff.rfl⟩

/-! ### The scan of the queue families -/

theorem findQueueFamiliesLoop_cons (q : QueueFamily) (rest : List QueueFamily) (i : Nat)
    (indices : QueueFamilyIndices) :
    findQueueFamiliesLoop (q :: rest) i indices
      = if (familyStep q i indices).isComplete then familyStep q i indices
        else findQueueFamiliesLoop rest (i + 1) (familyStep q i indices) := by
  have h : familyStep q i indices
      = (if q.presentSupport = true then
          { (if q.queueFlags &&& VK_QUEUE_GRAPHICS_BIT ≠ 0 then
              { indices with graphicsFamily := some i } else indices)
            with presentFamily := some i }
        else (if q.queueFlags &&& VK_QUEUE_GRAPHICS_BIT ≠ 0 then
              { indices with graphicsFamily := some i } else indices)) := by
    unfold familyStep
    split_ifs <;> rfl
  rw [findQueueFamiliesLoop, h]

theorem scanFamilies_nil (i : Nat) (indices : QueueFamilyIndices) :
    scanFamilies [] i indices = indices := rfl

theorem scanFamilies_cons (q : QueueFamily) (rest : List QueueFamily) (i : Nat)
    (indices : QueueFamilyIndices) :
    scanFamilies (q :: rest) i indices
      = scanFamilies rest (i + 1) (familyStep q i indices) := rfl

/-- The loop of `findQueueFamilies` is a scan of an initial part of the list:
the whole list, or the shortest part after which both indices are set. -/
theorem findQueueFamiliesLoop_eq_scan (l : List QueueFamily) :
    ∀ (i : Nat) (indices : QueueFamilyIndices),
      ∃ n, n ≤ l.length ∧ (l ≠ [] → 0 < n)
        ∧ findQueueFamiliesLoop l i indices = scanFamilies (l.take n) i indices
        ∧ (n < l.length → (scanFamilies (l.take n) i indices).isComplete = true)
        ∧ (∀ m, 0 < m → m < n → (scanFamilies (l.take m) i indices).isComplete = false) := by
  induction l with
  | nil =>
    intro i indices
    exact ⟨0, Nat.le_refl 0, fun h => absurd rfl h, rfl, fun h => absurd h (Nat.lt_irrefl 0),
      fun m h1 h2 => absurd h2 (Nat.not_lt_zero m)⟩
  | cons q rest ih =>
    intro i indices
    rw [findQueueFamiliesLoop_cons]
    by_cases hc : (familyStep q i indices).isComplete = true
    · refine ⟨1, by simp, fun _ => Nat.one_pos, ?_, fun _ => ?_, fun m h1 h2 => ?_⟩
      · rw [if_pos hc]
        rfl
      · exact hc
      · omega
    · obtain ⟨n, hn, _, hrun, hstop, hmin⟩ := ih (i + 1) (familyStep q i indices)
      refine ⟨n + 1, by simp; omega, fun _ => Nat.succ_pos n, ?_, fun hlt => ?_,
        fun m h1 h2 => ?_⟩
      · rw [if_neg hc, hrun]
        rfl
      · rw [List.take_succ_cons, scanFamilies_cons]
        exact hstop (by simpa using hlt)
      · cases m with
        | zero => omega
        | succ m1 =>
          rw [List.take_succ_cons, scanFamilies_cons]
          cases m1 with
          | zero =>
            rw [List.take_zero, scanFamilies_nil]
            exact Bool.eq_false_iff.mpr hc
          | succ m2 => exact hmin (m2 + 1) (Nat.succ_pos m2) (by omega)

/-- What `lastCapable` returns: the index of the last family with the
property, or what was found before when no family has it. -/
theorem lastCapable_eq_some (p : QueueFamily → Prop) [DecidablePred p]
    (l : List QueueFamily) :
    ∀ (i : Nat) (found : Option Nat) (g : Nat),
      lastCapable p l i found = some g
        ↔ (∃ j q, l.get? j = some q ∧ p q ∧ g = i + j
              ∧ ∀ j1 q1, j < j1 → l.get? j1 = some q1 → ¬ p q1)
          ∨ (found = some g ∧ ∀ q ∈ l, ¬ p q) := by
  induction l with
  | nil =>
    intro i found g
    simp [lastCapable]
  | cons x rest ih =>
    intro i found g
    rw [lastCapable, ih]
    constructor
    · rintro (⟨j, q, hj, hp, hg, hlast⟩ | ⟨hf, hnone⟩)
      · left
        refine ⟨j + 1, q, hj, hp, by omega, ?_⟩
        intro j1 q1 hlt hj1
        cases j1 with
        | zero => omega
        | succ j2 => exact hlast j2 q1 (by omega) hj1
      · by_cases hx : p x
        · left
          rw [if_pos hx] at hf
          refine ⟨0, x, rfl, hx, by simpa using hf.symm, ?_⟩
          intro j1 q1 hlt hj1
          cases j1 with
          | zero => omega
          | succ j2 => exact hnone q1 (List.get?_mem hj1)
        · right
          rw [if_neg hx] at hf
          refine ⟨hf, ?_⟩
          intro q hq
          rcases List.mem_cons.mp hq with h | h
          · rw [h]; exact hx
          · exact hnone q h
    · rintro (⟨j, q, hj, hp, hg, hlast⟩ | ⟨hf, hnone⟩)
      · cases j with
        | zero =>
          right
          simp only [List.get?_cons_zero, Option.some.injEq] at hj
          subst hj
          refine ⟨by rw [if_pos hp, hg]; rfl, ?_⟩
          intro q hq
          obtain ⟨n, hn⟩ := List.get?_of_mem hq
          exact hlast (n + 1) q (Nat.succ_pos n) hn
        | succ j0 =>
          left
          refine ⟨j0, q, hj, hp, by omega, ?_⟩
          intro j1 q1 hlt hj1
          exact hlast (j1 + 1) q1 (by omega) hj1
      · right
        have hx : ¬ p x := hnone x (List.mem_cons_self _ _)
        rw [if_neg hx]
        exact ⟨hf, fun q hq => hnone q (List.mem_cons_of_mem _ hq)⟩

theorem lastCapable_isSome (p : QueueFamily → Prop) [DecidablePred p]
    (l : List QueueFamily) :
    ∀ (i : Nat) (found : Option Nat),
      (lastCapable p l i found).isSome = true ↔ found.isSome = true ∨ ∃ q ∈ l, p q := by
  induction l with
  | nil =>
    intro i found
    simp [lastCapable]
  | cons x rest ih =>
    intro i found
    rw [lastCapable, ih]
    by_cases hx : p x
    · simp [hx]
    · simp [hx]

theorem get?_take_eq_some (l : List QueueFamily) (n j : Nat) (q : QueueFamily) :
    (l.take n).get? j = some q ↔ j < n ∧ l.get? j = some q := by
  by_cases h : j < n
  · rw [List.get?_eq_getElem?, List.getElem?_take_of_lt h, ← List.get?_eq_getElem?]
    exact ⟨fun e => ⟨h, e⟩, fun e => e.2⟩
  · rw [List.get?_eq_getElem?, List.getElem?_take_eq_none (by omega)]
    exact ⟨fun e => Option.noConfusion e, fun e => absurd e.1 h⟩

/-- The families of an initial part of the list that have a property. -/
theorem exists_mem_take (p : QueueFamily → Prop) (l : List QueueFamily) (k : Nat) :
    (∃ q ∈ l.take (k + 1), p q) ↔ ∃ i, i ≤ k ∧ ∃ q, l.get? i = some q ∧ p q := by
  constructor
  · rintro ⟨q, hq, hp⟩
    obtain ⟨j, hj⟩ := List.get?_of_mem hq
    obtain ⟨h1, h2⟩ := (get?_take_eq_some l (k + 1) j q).mp hj
    exact ⟨j, by omega, q, h2, hp⟩
  · rintro ⟨i, hi, q, hq, hp⟩
    exact ⟨q, List.get?_mem ((get?_take_eq_some l (k + 1) i q).mpr ⟨by omega, hq⟩), hp⟩

theorem scanFamilies_isComplete (l : List QueueFamily) (k : Nat) :
    (scanFamilies (l.take (k + 1)) 0 ⟨none, none⟩).isComplete = true ↔ bothWithin l k := by
  unfold scanFamilies QueueFamilyIndices.isComplete bothWithin graphicsAt presentAt
  simp only [Bool.and_eq_true, lastCapable_isSome, Option.isSome_none, Bool.false_eq_true,
    false_or]
  rw [exists_mem_take (fun q => q.queueFlags &&& VK_QUEUE_GRAPHICS_BIT ≠ 0) l k,
    exists_mem_take (fun q => q.presentSupport = true) l k]

theorem bothWithin_mono (l : List QueueFamily) (k k1 : Nat) (h : k ≤ k1)
    (hb : bothWithin l k) : bothWithin l k1 := by
  obtain ⟨⟨i, hi, hg⟩, ⟨j, hj, hp⟩⟩ := hb
  exact ⟨⟨i, by omega, hg⟩, ⟨j, by omega, hp⟩⟩

/-- The member a scan of the first `K + 1` families leaves: the largest
index up to `K` with the property. -/
theorem lastCapable_take (p : QueueFamily → Prop) [DecidablePred p]
    (l : List QueueFamily) (K g : Nat) :
    lastCapable p (l.take (K + 1)) 0 none = some g
      ↔ g ≤ K ∧ (∃ q, l.get? g = some q ∧ p q)
          ∧ ∀ j, g < j → j ≤ K → ¬ ∃ q, l.get? j = some q ∧ p q := by
  rw [lastCapable_eq_some]
  constructor
  · rintro (⟨j, q, hj, hp, hg, hlast⟩ | ⟨hf, _⟩)
    · obtain ⟨h1, h2⟩ := (get?_take_eq_some l (K + 1) j q).mp hj
      have hgj : g = j := by omega
      subst hgj
      refine ⟨by omega, ⟨q, h2, hp⟩, ?_⟩
      rintro j1 hlt hle ⟨q1, hq1, hp1⟩
      exact hlast j1 q1 hlt ((get?_take_eq_some l (K + 1) j1 q1).mpr ⟨by omega, hq1⟩) hp1
    · exact Option.noConfusion hf
  · rintro ⟨hle, ⟨q, hq, hp⟩, hlast⟩
    left
    refine ⟨g, q, (get?_take_eq_some l (K + 1) g q).mpr ⟨by omega, hq⟩, hp, by omega, ?_⟩
    intro j1 q1 hlt hj1 hp1
    obtain ⟨h1, h2⟩ := (get?_take_eq_some l (K + 1) j1 q1).mp hj1
    exact hlast j1 hlt (by omega) ⟨q1, h2, hp1⟩

/-- C20: on a non-empty list of queue families `findQueueFamilies` returns
indices; with `K` the index at which its scan stops, `K` is the smallest index
such that the families `0..K` contain both a graphics-capable and a
presentation-capable family, or the last index of the list when there is no
such index; the graphics index returned is the largest index up to `K` of a
family with the graphics bit (none when there is no such family), the
presentation index the largest index up to `K` of a family that can present
(so each is in bounds and names a capable family, not necessarily the first);
and `isComplete` holds exactly when both capabilities exist somewhere in the
list. -/
theorem findQueueFamilies_scan (device : PhysicalDevice)
    (hne : device.queueFamilies ≠ []) :
    ∃ indices K,
      findQueueFamilies device = .ok indices
      ∧ K < device.queueFamilies.length
      ∧ ((bothWithin device.queueFamilies K
            ∧ ∀ k, k < K → ¬ bothWithin device.queueFamilies k)
          ∨ (K + 1 = device.queueFamilies.length
            ∧ ∀ k, k < device.queueFamilies.length → ¬ bothWithin device.queueFamilies k))
      ∧ (∀ g, indices.graphicsFamily = some g
          ↔ g ≤ K ∧ graphicsAt device.queueFamilies g
              ∧ ∀ j, g < j → j ≤ K → ¬ graphicsAt device.queueFamilies j)
      ∧ (∀ p, indices.presentFamily = some p
          ↔ p ≤ K ∧ presentAt device.queueFamilies p
              ∧ ∀ j, p < j → j ≤ K → ¬ presentAt device.queueFamilies j)
      ∧ (indices.isComplete = true
          ↔ (∃ q ∈ device.queueFamilies, q.queueFlags &&& VK_QUEUE_GRAPHICS_BIT ≠ 0)
            ∧ (∃ q ∈ device.queueFamilies, q.presentSupport = true)) := by
  have hlen : device.queueFamilies.length > 0 := List.length_pos.mpr hne
  obtain ⟨n, hn, hpos, hrun, hstop, hmin⟩ :=
    findQueueFamiliesLoop_eq_scan device.queueFamilies 0 ⟨none, none⟩
  have hn0 : 0 < n := hpos hne
  obtain ⟨K, hK⟩ : ∃ K, n = K + 1 := ⟨n - 1, by omega⟩
  subst hK
  refine ⟨scanFamilies (device.queueFamilies.take (K + 1)) 0 ⟨none, none⟩, K, ?_, by omega,
    ?_, ?_, ?_, ?_⟩
  · simp only [findQueueFamilies, hlen, not_true_eq_false, if_false, hrun]
  · have hbelow : ∀ k, k < K → ¬ bothWithin device.queueFamilies k := by
      intro k hk hb
      have := hmin (k + 1) (Nat.succ_pos k) (by omega)
      rw [(scanFamilies_isComplete device.queueFamilies k).mpr hb] at this
      exact Bool.noConfusion this
    by_cases hc : bothWithin device.queueFamilies K
    · exact Or.inl ⟨hc, hbelow⟩
    · right
      have hall : K + 1 = device.queueFamilies.length := by
        by_contra hlt
        exact hc ((scanFamilies_isComplete device.queueFamilies K).mp (hstop (by omega)))
      refine ⟨hall, fun k hk hb => ?_⟩
      exact hc (bothWithin_mono device.queueFamilies k K (by omega) hb)
  · intro g
    exact lastCapable_take _ device.queueFamilies K g
  · intro p
    exact lastCapable_take _ device.queueFamilies K p
  · rw [← hrun, findQueueFamiliesLoop_isComplete]
    simp

/-- Witness of C20: of the families graphics, graphics, presentation, both,
the scan stops at index 2 and returns the graphics index 1 (the last of the
two seen, not the first) and the presentation index 2. -/
theorem findQueueFamilies_scan_witness :
    findQueueFamilies sampleDeviceFour = .ok ⟨some 1, some 2⟩
      ∧ ∃ indices K,
        findQueueFamilies sampleDeviceFour = .ok indices
        ∧ K < sampleDeviceFour.queueFamilies.length
        ∧ ((bothWithin sampleDeviceFour.queueFamilies K
              ∧ ∀ k, k < K → ¬ bothWithin sampleDeviceFour.queueFamilies k)
            ∨ (K + 1 = sampleDeviceFour.queueFamilies.length
              ∧ ∀ k, k < sampleDeviceFour.queueFamilies.length →
                  ¬ bothWithin sampleDeviceFour.queueFamilies k))
        ∧ (∀ g, indices.graphicsFamily = some g
            ↔ g ≤ K ∧ graphicsAt sampleDeviceFour.queueFamilies g
                ∧ ∀ j, g < j → j ≤ K → ¬ graphicsAt sampleDeviceFour.queueFamilies j)
        ∧ (∀ p, indices.presentFamily = some p
            ↔ p ≤ K ∧ presentAt sampleDeviceFour.queueFamilies p
                ∧ ∀ j, p < j → j ≤ K → ¬ presentAt sampleDeviceFour.queueFamilies j)
        ∧ (indices.isComplete = true
            ↔ (∃ q ∈ sampleDeviceFour.queueFamilies,
                  q.queueFlags &&& VK_QUEUE_GRAPHICS_BIT ≠ 0)
              ∧ (∃ q ∈ sampleDeviceFour.queueFamilies, q.presentSupport = true)) :=
  ⟨rfl, findQueueFamilies_scan sampleDeviceFour (by decide)⟩

/-! ### Start-up -/

theorem andThen_error (first : List Call × Except Abort App)
    (next : App → List Call × Except Abort App) (e : Abort) (h : first.2 = .error e) :
    andThen first next = (first.1, .error e) := by
  rcases first with ⟨log, r⟩
  simp only at h
  subst h
  rfl

theorem andThen_ok (first : List Call × Except Abort App)
    (next : App → List Call × Except Abort App) (s : App) (h : first.2 = .ok s) :
    andThen first next = (first.1 ++ (next s).1, (next s).2) := by
  rcases first with ⟨log, r⟩
  simp only at h
  subst h
  rfl

/-- A sequence of two steps that returns: both steps returned. -/
theorem andThen_eq_ok (first : List Call × Except Abort App)
    (next : App → List Call × Except Abort App) (log : List Call) (s2 : App)
    (h : andThen first next = (log, .ok s2)) :
    ∃ log1 s1 log2, first = (log1, .ok s1) ∧ next s1 = (log2, .ok s2)
      ∧ log = log1 ++ log2 := by
  rcases first with ⟨log1, r⟩
  cases r with
  | error e => simp [andThen] at h
  | ok s1 =>
    simp only [andThen, Prod.mk.injEq] at h
    exact ⟨log1, s1, (next s1).1, rfl, Prod.ext rfl h.2, h.1.symm⟩

/-- C14: when the vertex or the fragment shader binary is an empty byte
sequence, `createGraphicsPipeline` aborts without having made any call: no
shader module, pipeline layout or pipeline is created.  An empty vertex
binary fails the assertion of line 418; an empty fragment binary, the vertex
binary being non-empty, fails the assertion of line 420. -/
theorem createGraphicsPipeline_empty_shader (s : App) (a : StartupAnswers)
    (h : a.vertexFile = some [] ∨ a.fragmentFile = some []) :
    (createGraphicsPipeline s a).1 = []
      ∧ (∃ e, (createGraphicsPipeline s a).2 = .error e)
      ∧ (a.vertexFile = some [] →
          createGraphicsPipeline s a = ([], .error (.assertFailed 418)))
      ∧ (∀ code, a.vertexFile = some code → code ≠ [] → a.fragmentFile = some [] →
          createGraphicsPipeline s a = ([], .error (.assertFailed 420))) := by
  have hv : a.vertexFile = some [] →
      createGraphicsPipeline s a = ([], .error (.assertFailed 418)) := by
    intro hv
    simp [createGraphicsPipeline, readFile, hv]
  have hf : ∀ code, a.vertexFile = some code → code ≠ [] → a.fragmentFile = some [] →
      createGraphicsPipeline s a = ([], .error (.assertFailed 420)) := by
    intro code hc hne hfr
    have hlen : code.length > 0 := List.length_pos.mpr hne
    have hlen2 : ¬ code.length = 0 := by omega
    simp [createGraphicsPipeline, readFile, hc, hfr, hne]
  have hmain : createGraphicsPipeline s a = ([], .error (.assertFailed 418))
      ∨ createGraphicsPipeline s a = ([], .error (.assertFailed 420))
      ∨ createGraphicsPipeline s a = ([], .error .vectorLengthError) := by
    rcases h with h | h
    · exact Or.inl (hv h)
    · cases hvf : a.vertexFile with
      | none =>
        right; right
        simp [createGraphicsPipeline, readFile, hvf]
      | some code =>
        by_cases hne : code = []
        · left
          rw [hne] at hvf
          exact hv hvf
        · right; left
          exact hf code hvf hne h
  refine ⟨?_, ?_, hv, hf⟩
  · rcases hmain with h1 | h1 | h1 <;> rw [h1]
  · rcases hmain with h1 | h1 | h1 <;> rw [h1] <;> exact ⟨_, rfl⟩

/-- Witness of C14: an empty vertex shader binary. -/
theorem createGraphicsPipeline_empty_shader_witness :
    createGraphicsPipeline sampleFrameApp { sampleStartupAnswers with vertexFile := some [] }
      = ([], .error (.assertFailed 418)) :=
  (createGraphicsPipeline_empty_shader sampleFrameApp
    { sampleStartupAnswers with vertexFile := some [] } (Or.inl rfl)).2.2.1 rfl

/-! ### What each start-up step constructs -/

theorem initWindow_supported (s : App) (a : StartupAnswers) (h : a.vulkanSupported = true) :
    initWindow s a
      = ([Call.glfwInit, Call.glfwCreateWindow WIDTH HEIGHT a.window],
         .ok { s with window := a.window }) := by
  simp [initWindow, h]

theorem createInstance_inv (s : App) (a : StartupAnswers) (log : List Call) (s1 : App)
    (h : createInstance s a = (log, .ok s1)) :
    s1 = { s with mInstance := a.inst } ∧ constructed log = [(.inst, a.inst)]
      ∧ ∀ c ∈ log, c.isDestroy = false := by
  unfold createInstance at h
  by_cases h1 : a.glfwExtensions.length > 0
  · cases hv : checkValidationSupport a.instanceLayers with
    | error e => simp [h1, hv] at h
    | ok b =>
      cases b with
      | false => simp [h1, hv] at h
      | true =>
        by_cases hr : a.instanceResult = VK_SUCCESS
        · simp only [h1, hv, hr, not_true_eq_false, if_false, ne_eq, Prod.mk.injEq,
            Except.ok.injEq] at h
          obtain ⟨rfl, rfl⟩ := h
          simp [constructed, Call.constructs, Call.isDestroy, Call.destroys]
        · simp [h1, hv, hr] at h
  · simp [h1] at h

theorem setupDebugMessenger_inv (s : App) (a : StartupAnswers) (log : List Call) (s1 : App)
    (h : setupDebugMessenger s a = (log, .ok s1)) :
    s1 = { s with mDebugMessenger := a.messenger }
      ∧ constructed log = [(.debugMessenger, a.messenger)]
      ∧ ∀ c ∈ log, c.isDestroy = false := by
  unfold setupDebugMessenger CreateDebugUtilsMessengerEXT at h
  simp only [enableValidationLayer, not_true_eq_false, if_false] at h
  by_cases hf : a.createMessengerFound = true
  · by_cases hr : a.messengerResult = VK_SUCCESS
    · simp only [hf, hr, if_true, ne_eq, not_true_eq_false, if_false, Prod.mk.injEq,
        Except.ok.injEq] at h
      obtain ⟨rfl, rfl⟩ := h
      simp [constructed, Call.constructs, Call.isDestroy, Call.destroys]
    · simp [hf, hr] at h
  · simp [hf, VK_ERROR_EXTENSION_NOT_PRESENT, VK_SUCCESS] at h

theorem createSurface_inv (s : App) (a : StartupAnswers) (log : List Call) (s1 : App)
    (h : createSurface s a = (log, .ok s1)) :
    s1 = { s with mSurface := a.surface } ∧ constructed log = [(.surface, a.surface)]
      ∧ ∀ c ∈ log, c.isDestroy = false := by
  unfold createSurface at h
  by_cases hr : a.surfaceResult = VK_SUCCESS
  · simp only [hr, ne_eq, not_true_eq_false, if_false, Prod.mk.injEq, Except.ok.injEq] at h
    obtain ⟨rfl, rfl⟩ := h
    simp [constructed, Call.constructs, Call.isDestroy, Call.destroys]
  · simp [hr] at h

theorem pickPhysicalDeviceStep_inv (s : App) (a : StartupAnswers) (log : List Call)
    (s1 : App) (h : pickPhysicalDeviceStep s a = (log, .ok s1)) :
    (∃ device, s1 = { s with mPhysicalDevice := some device }) ∧ log = [] := by
  unfold pickPhysicalDeviceStep at h
  cases hp : pickPhysicalDevice s.mPhysicalDevice a.physicalDevices with
  | error e => simp [hp] at h
  | ok d =>
    simp only [hp, Prod.mk.injEq, Except.ok.injEq] at h
    exact ⟨⟨d, h.2.symm⟩, h.1.symm⟩

theorem createLogicalDevice_inv (s : App) (a : LogicalDeviceAnswers) (log : List Call)
    (s1 : App) (h : createLogicalDevice s a = (log, .ok s1)) :
    s1 = { s with mDevice := a.device, mGraphicsQueue := a.graphicsQueue,
                  mPresentQueue := a.presentQueue }
      ∧ constructed log = [(.device, a.device)]
      ∧ ∀ c ∈ log, c.isDestroy = false := by
  unfold createLogicalDevice at h
  cases hp : s.mPhysicalDevice with
  | none => simp [hp] at h
  | some pd =>
    cases hq : findQueueFamilies pd with
    | error e => simp [hp, hq] at h
    | ok indices =>
      rcases indices with ⟨g, p⟩
      cases g with
      | none => simp [hp, hq] at h
      | some g =>
        cases p with
        | none => simp [hp, hq] at h
        | some p =>
          by_cases hr : a.result = VK_SUCCESS
          · simp only [hp, hq, hr, ne_eq, not_true_eq_false, if_false, Prod.mk.injEq,
              Except.ok.injEq] at h
            obtain ⟨rfl, rfl⟩ := h
            simp [constructed, Call.constructs, Call.isDestroy, Call.destroys]
          · simp [hp, hq, hr] at h

theorem createSwapChain_inv (s : App) (a : SwapChainAnswers) (log : List Call)
    (s1 : App) (h : createSwapChain s a = (log, .ok s1)) :
    (∃ format extent,
        s1 = { s with mSwapChain := a.swapchain, mSwapChainImages := a.images,
                      mSwapChainImageFormat := format, mSwapChainExtent := extent })
      ∧ constructed log = [(.swapchain, a.swapchain)]
      ∧ ∀ c ∈ log, c.isDestroy = false := by
  unfold createSwapChain at h
  cases hp : s.mPhysicalDevice with
  | none => simp [hp] at h
  | some pd =>
    cases hs : querySwapChainSupport pd with
    | error e => simp [hp, hs] at h
    | ok support =>
      cases hf : chooseSwapSurfaceFormat support.formats with
      | error e => simp [hp, hs, hf] at h
      | ok surfaceFormat =>
        cases hq : findQueueFamilies pd with
        | error e => simp [hp, hs, hf, hq] at h
        | ok indices =>
          rcases indices with ⟨g, p⟩
          cases g with
          | none => simp [hp, hs, hf, hq] at h
          | some g =>
            cases p with
            | none => simp [hp, hs, hf, hq] at h
            | some p =>
              by_cases hr : a.result = VK_SUCCESS
              · by_cases hi : a.images.length > 0
                · simp only [hp, hs, hf, hq, hr, hi, ne_eq, not_true_eq_false, if_false,
                    Prod.mk.injEq, Except.ok.injEq] at h
                  obtain ⟨rfl, rfl⟩ := h
                  refine ⟨⟨_, _, rfl⟩, ?_, ?_⟩
                  · simp [constructed, Call.constructs]
                  · simp [Call.isDestroy, Call.destroys]
                · simp [hp, hs, hf, hq, hr, hi] at h
              · simp [hp, hs, hf, hq, hr] at h

theorem createRenderPass_inv (s : App) (a : StartupAnswers) (log : List Call) (s1 : App)
    (h : createRenderPass s a = (log, .ok s1)) :
    s1 = { s with mRenderPass := a.renderPass }
      ∧ constructed log = [(.renderPass, a.renderPass)]
      ∧ ∀ c ∈ log, c.isDestroy = false := by
  unfold createRenderPass at h
  by_cases hr : a.renderPassResult = VK_SUCCESS
  · simp only [hr, ne_eq, not_true_eq_false, if_false, Prod.mk.injEq, Except.ok.injEq] at h
    obtain ⟨rfl, rfl⟩ := h
    simp [constructed, Call.constructs, Call.isDestroy, Call.destroys]
  · simp [hr] at h

theorem createCommandPool_inv (s : App) (a : StartupAnswers) (log : List Call) (s1 : App)
    (h : createCommandPool s a = (log, .ok s1)) :
    s1 = { s with mCommandPool := a.pool } ∧ constructed log = [(.commandPool, a.pool)]
      ∧ ∀ c ∈ log, c.isDestroy = false := by
  unfold createCommandPool at h
  cases hp : s.mPhysicalDevice with
  | none => simp [hp] at h
  | some pd =>
    cases hq : findQueueFamilies pd with
    | error e => simp [hp, hq] at h
    | ok indices =>
      rcases indices with ⟨g, p⟩
      cases g with
      | none => simp [hp, hq] at h
      | some g =>
        by_cases hr : a.poolResult = VK_SUCCESS
        · simp only [hp, hq, hr, ne_eq, not_true_eq_false, if_false, Prod.mk.injEq,
            Except.ok.injEq] at h
          obtain ⟨rfl, rfl⟩ := h
          simp [constructed, Call.constructs, Call.isDestroy, Call.destroys]
        · simp [hp, hq, hr] at h

theorem createCommandBuffer_inv (s : App) (a : StartupAnswers) (log : List Call) (s1 : App)
    (h : createCommandBuffer s a = (log, .ok s1)) :
    s1 = { s with mCommandBuffer := a.buffer } ∧ constructed log = []
      ∧ ∀ c ∈ log, c.isDestroy = false := by
  unfold createCommandBuffer at h
  by_cases hr : a.bufferResult = VK_SUCCESS
  · simp only [hr, ne_eq, not_true_eq_false, if_false, Prod.mk.injEq, Except.ok.injEq] at h
    obtain ⟨rfl, rfl⟩ := h
    simp [constructed, Call.constructs, Call.isDestroy, Call.destroys]
  · simp [hr] at h

theorem createSyncObjects_inv (s : App) (a : StartupAnswers) (log : List Call) (s1 : App)
    (h : createSyncObjects s a = (log, .ok s1)) :
    s1 = { s with mImageAvailableSemaphore := a.imageAvailable.2
                  mRenderFinishedSemaphore := a.renderFinished.2
                  mInFlightFence := a.inFlight.2 }
      ∧ constructed log = [(.semaphore, a.imageAvailable.2),
          (.semaphore, a.renderFinished.2), (.fence, a.inFlight.2)]
      ∧ ∀ c ∈ log, c.isDestroy = false := by
  unfold createSyncObjects at h
  by_cases h1 : a.imageAvailable.1 = VK_SUCCESS
  · by_cases h2 : a.renderFinished.1 = VK_SUCCESS
    · by_cases h3 : a.inFlight.1 = VK_SUCCESS
      · simp only [h1, h2, h3, ne_eq, not_true_eq_false, if_false, Prod.mk.injEq,
          Except.ok.injEq] at h
        obtain ⟨rfl, rfl⟩ := h
        simp [constructed, Call.constructs, Call.isDestroy, Call.destroys]
      · simp [h1, h2, h3] at h
    · simp [h1, h2] at h
  · simp [h1] at h

theorem createGraphicsPipeline_inv (s : App) (a : StartupAnswers) (log : List Call)
    (s1 : App) (h : createGraphicsPipeline s a = (log, .ok s1)) :
    s1 = { s with mPipelineLayout := a.layout, mGraphicsPipeline := a.pipeline }
      ∧ constructed log = [(.pipelineLayout, a.layout), (.pipeline, a.pipeline)]
      ∧ (∀ c ∈ log, c.isDestroy = true → ∃ d m, c = Call.vkDestroyShaderModule d m)
      ∧ destroyed log = [] := by
  unfold createGraphicsPipeline createShaderModule at h
  cases hv : readFile a.vertexFile with
  | error e => simp [hv] at h
  | ok vcode =>
    by_cases h1 : vcode.length > 0
    · cases hf : readFile a.fragmentFile with
      | error e => simp [hv, h1, hf] at h
      | ok fcode =>
        by_cases h2 : fcode.length > 0
        · by_cases h3 : a.vertexModule.1 = VK_SUCCESS
          · by_cases h4 : a.fragmentModule.1 = VK_SUCCESS
            · by_cases h5 : a.layoutResult = VK_SUCCESS
              · by_cases h6 : a.pipelineResult = VK_SUCCESS
                · simp only [hv, h1, hf, h2, h3, h4, h5, h6, ne_eq, not_true_eq_false,
                    if_false, Prod.mk.injEq, Except.ok.injEq] at h
                  obtain ⟨hlog, hs1⟩ := h
                  subst hlog
                  subst hs1
                  refine ⟨rfl, ?_, ?_, ?_⟩
                  · simp [constructed, Call.constructs]
                  · intro c hc hd
                    simp only [List.mem_append, List.mem_cons, List.mem_singleton,
                      List.not_mem_nil, or_false, or_assoc] at hc
                    rcases hc with rfl | rfl | rfl | rfl | rfl | rfl
                    all_goals first
                      | exact ⟨_, _, rfl⟩
                      | simp [Call.isDestroy, Call.destroys] at hd
                  · simp [destroyed, Call.destroys]
                · simp [hv, h1, hf, h2, h3, h4, h5, h6] at h
              · simp [hv, h1, hf, h2, h3, h4, h5] at h
            · simp [hv, h1, hf, h2, h3, h4] at h
          · simp [hv, h1, hf, h2, h3] at h
        · simp [hv, h1, hf, h2] at h
    · simp [hv, h1] at h

/-! ### Start-up makes no destroy call but the two of `createGraphicsPipeline` -/

theorem initWindow_noDestroy (s : App) (a : StartupAnswers) :
    ∀ c ∈ (initWindow s a).1, c.isDestroy = false := by
  unfold initWindow
  split <;> simp [Call.isDestroy, Call.destroys]

theorem createInstance_noDestroy (s : App) (a : StartupAnswers) :
    ∀ c ∈ (createInstance s a).1, c.isDestroy = false := by
  unfold createInstance
  repeat' split
  all_goals simp [Call.isDestroy, Call.destroys]

theorem setupDebugMessenger_noDestroy (s : App) (a : StartupAnswers) :
    ∀ c ∈ (setupDebugMessenger s a).1, c.isDestroy = false := by
  unfold setupDebugMessenger CreateDebugUtilsMessengerEXT
  by_cases hf : a.createMessengerFound = true
  · by_cases hr : a.messengerResult = VK_SUCCESS <;>
      simp [hf, hr, enableValidationLayer, Call.isDestroy, Call.destroys]
  · simp [hf, enableValidationLayer, VK_ERROR_EXTENSION_NOT_PRESENT, VK_SUCCESS]

theorem createSurface_noDestroy (s : App) (a : StartupAnswers) :
    ∀ c ∈ (createSurface s a).1, c.isDestroy = false := by
  unfold createSurface
  repeat' split
  all_goals simp [Call.isDestroy, Call.destroys]

theorem pickPhysicalDeviceStep_noDestroy (s : App) (a : StartupAnswers) :
    ∀ c ∈ (pickPhysicalDeviceStep s a).1, c.isDestroy = false := by
  unfold pickPhysicalDeviceStep
  repeat' split
  all_goals simp

theorem createLogicalDevice_noDestroy (s : App) (a : LogicalDeviceAnswers) :
    ∀ c ∈ (createLogicalDevice s a).1, c.isDestroy = false := by
  unfold createLogicalDevice
  cases hp : s.mPhysicalDevice with
  | none => simp [hp]
  | some pd =>
    cases hq : findQueueFamilies pd with
    | error e => simp [hp, hq]
    | ok indices =>
      rcases indices with ⟨g, p⟩
      cases g with
      | none => simp [hp, hq]
      | some g =>
        cases p with
        | none => simp [hp, hq]
        | some p =>
          by_cases hr : a.result = VK_SUCCESS <;>
            simp [hp, hq, hr, Call.isDestroy, Call.destroys]

theorem createSwapChain_noDestroy (s : App) (a : SwapChainAnswers) :
    ∀ c ∈ (createSwapChain s a).1, c.isDestroy = false := by
  unfold createSwapChain
  repeat' split
  all_goals first
    | (simp [Call.isDestroy, Call.destroys]; done)
    | (simp only []; split <;> simp [Call.isDestroy, Call.destroys])

theorem createRenderPass_noDestroy (s : App) (a : StartupAnswers) :
    ∀ c ∈ (createRenderPass s a).1, c.isDestroy = false := by
  unfold createRenderPass
  repeat' split
  all_goals simp [Call.isDestroy, Call.destroys]

theorem createCommandPool_noDestroy (s : App) (a : StartupAnswers) :
    ∀ c ∈ (createCommandPool s a).1, c.isDestroy = false := by
  unfold createCommandPool
  repeat' split
  all_goals simp [Call.isDestroy, Call.destroys]

theorem createCommandBuffer_noDestroy (s : App) (a : StartupAnswers) :
    ∀ c ∈ (createCommandBuffer s a).1, c.isDestroy = false := by
  unfold createCommandBuffer
  repeat' split
  all_goals simp [Call.isDestroy, Call.destroys]

theorem createSyncObjects_noDestroy (s : App) (a : StartupAnswers) :
    ∀ c ∈ (createSyncObjects s a).1, c.isDestroy = false := by
  unfold createSyncObjects
  repeat' split
  all_goals simp [Call.isDestroy, Call.destroys]

theorem createImageViewsLoop_noDestroy (s : App) (answer : Nat → VkResult × Handle) :
    ∀ (remaining i : Nat) (views : List Handle),
      ∀ c ∈ (createImageViewsLoop s answer remaining i views).1, c.isDestroy = false := by
  intro remaining
  induction remaining with
  | zero =>
    intro i views c hc
    simp [createImageViewsLoop] at hc
  | succ n ih =>
    intro i views c hc
    unfold createImageViewsLoop at hc
    by_cases hr : (answer i).1 = VK_SUCCESS
    · simp only [hr, ne_eq, not_true_eq_false, if_false, List.mem_cons] at hc
      rcases hc with rfl | hc
      · simp [Call.isDestroy, Call.destroys]
      · exact ih _ _ c hc
    · simp only [hr, ne_eq, not_false_eq_true, if_true, List.mem_singleton] at hc
      rw [hc]
      simp [Call.isDestroy, Call.destroys]

theorem createImageViews_noDestroy (s : App) (answer : Nat → VkResult × Handle) :
    ∀ c ∈ (createImageViews s answer).1, c.isDestroy = false := by
  intro c hc
  unfold createImageViews at hc
  simp only at hc
  split at hc <;> rename_i heq <;>
    exact createImageViewsLoop_noDestroy s answer _ _ _ c (by rw [heq]; exact hc)

theorem createFramebuffersLoop_noDestroy (s : App) (answer : Nat → VkResult × Handle) :
    ∀ (remaining i : Nat) (framebuffers : List Handle),
      ∀ c ∈ (createFramebuffersLoop s answer remaining i framebuffers).1,
        c.isDestroy = false := by
  intro remaining
  induction remaining with
  | zero =>
    intro i framebuffers c hc
    simp [createFramebuffersLoop] at hc
  | succ n ih =>
    intro i framebuffers c hc
    unfold createFramebuffersLoop at hc
    by_cases hr : (answer i).1 = VK_SUCCESS
    · simp only [hr, ne_eq, not_true_eq_false, if_false, List.mem_cons] at hc
      rcases hc with rfl | hc
      · simp [Call.isDestroy, Call.destroys]
      · exact ih _ _ c hc
    · simp only [hr, ne_eq, not_false_eq_true, if_true, List.mem_singleton] at hc
      rw [hc]
      simp [Call.isDestroy, Call.destroys]

theorem createFramebuffers_noDestroy (s : App) (answer : Nat → VkResult × Handle) :
    ∀ c ∈ (createFramebuffers s answer).1, c.isDestroy = false := by
  intro c hc
  unfold createFramebuffers at hc
  simp only at hc
  split at hc <;> rename_i heq <;>
    exact createFramebuffersLoop_noDestroy s answer _ _ _ c (by rw [heq]; exact hc)

theorem createGraphicsPipeline_onlyShaderModules (s : App) (a : StartupAnswers) :
    ∀ c ∈ (createGraphicsPipeline s a).1, c.isDestroy = true →
      ∃ d m, c = Call.vkDestroyShaderModule d m := by
  unfold createGraphicsPipeline createShaderModule
  cases hv : readFile a.vertexFile with
  | error e => simp [hv]
  | ok vcode =>
    by_cases h1 : vcode.length > 0
    · cases hf : readFile a.fragmentFile with
      | error e => simp [hv, hf, h1]
      | ok fcode =>
        by_cases h2 : fcode.length > 0
        · by_cases h3 : a.vertexModule.1 = VK_SUCCESS
          · by_cases h4 : a.fragmentModule.1 = VK_SUCCESS
            · by_cases h5 : a.layoutResult = VK_SUCCESS
              · by_cases h6 : a.pipelineResult = VK_SUCCESS <;>
                  simp [hv, hf, h1, h2, h3, h4, h5, h6, Call.isDestroy, Call.destroys]
              · simp [hv, hf, h1, h2, h3, h4, h5, Call.isDestroy, Call.destroys]
            · simp [hv, hf, h1, h2, h3, h4, Call.isDestroy, Call.destroys]
          · simp [hv, hf, h1, h2, h3, Call.isDestroy, Call.destroys]
        · simp [hv, hf, h1, h2]
    · simp [hv, h1]

/-! ### What the loops of `createImageViews` and `createFramebuffers` construct -/

theorem eq_map_range (l : List Handle) (f : Nat → Handle) (n : Nat) (hl : l.length = n)
    (h : ∀ k, k < n → l.get? k = some (f k)) : l = (List.range n).map f := by
  apply List.ext_getElem?
  intro k
  by_cases hk : k < n
  · rw [← List.get?_eq_getElem?, h k hk, List.getElem?_map, List.getElem?_range hk]
    rfl
  · rw [List.getElem?_eq_none (by omega), List.getElem?_eq_none (by simp; omega)]

theorem createImageViewsLoop_inv (s : App) (answer : Nat → VkResult × Handle) :
    ∀ (remaining i : Nat) (views : List Handle) (log : List Call) (views1 : List Handle),
      createImageViewsLoop s answer remaining i views = (log, .ok views1) →
      (∀ j, i ≤ j → j < i + remaining → (answer j).1 = VK_SUCCESS)
        ∧ constructed log
            = (List.range' i remaining).map (fun j => (ObjectKind.imageView, (answer j).2)) := by
  intro remaining
  induction remaining with
  | zero =>
    intro i views log views1 h
    simp only [createImageViewsLoop, Prod.mk.injEq] at h
    obtain ⟨rfl, _⟩ := h
    exact ⟨fun j h1 h2 => absurd h2 (by omega), rfl⟩
  | succ n ih =>
    intro i views log views1 h
    unfold createImageViewsLoop at h
    by_cases hr : (answer i).1 = VK_SUCCESS
    · simp only [hr, ne_eq, not_true_eq_false, if_false, Prod.mk.injEq] at h
      obtain ⟨rfl, h2⟩ := h
      obtain ⟨hans, hcon⟩ := ih (i + 1) _ _ views1 (Prod.ext rfl h2)
      refine ⟨?_, ?_⟩
      · intro j h1 h3
        by_cases hj : j = i
        · rw [hj]; exact hr
        · exact hans j (by omega) (by omega)
      · simp only [constructed, List.filterMap_cons, Call.constructs, if_true,
          List.range'_succ, List.map_cons] at hcon ⊢
        rw [hcon]
    · simp [hr] at h

theorem createImageViews_inv (s : App) (answer : Nat → VkResult × Handle) (log : List Call)
    (s1 : App) (h : createImageViews s answer = (log, .ok s1)) :
    s1 = { s with mSwapChainImageViews :=
            (List.range s.mSwapChainImages.length).map (fun i => (answer i).2) }
      ∧ constructed log = (List.range s.mSwapChainImages.length).map
          (fun i => (ObjectKind.imageView, (answer i).2)) := by
  unfold createImageViews at h
  simp only at h
  cases hl : createImageViewsLoop s answer s.mSwapChainImages.length 0
      (vectorResize s.mSwapChainImageViews s.mSwapChainImages.length) with
  | mk log1 r =>
    cases r with
    | error e => simp [hl] at h
    | ok views1 =>
      simp only [hl, Prod.mk.injEq, Except.ok.injEq] at h
      obtain ⟨rfl, rfl⟩ := h
      obtain ⟨hans, hcon⟩ := createImageViewsLoop_inv s answer _ _ _ _ _ hl
      obtain ⟨log2, views2, h2, hvl, _, _, hv⟩ :=
        createImageViewsLoop_ok s answer s.mSwapChainImages.length 0
          (vectorResize s.mSwapChainImageViews s.mSwapChainImages.length)
          (fun j h1 h3 => hans j h1 h3)
          (by rw [vectorResize_length]; omega)
      rw [hl] at h2
      simp only [Prod.mk.injEq, Except.ok.injEq] at h2
      obtain ⟨rfl, rfl⟩ := h2
      rw [vectorResize_length] at hvl
      have hviews : views1 = (List.range s.mSwapChainImages.length).map
          (fun i => (answer i).2) :=
        eq_map_range views1 _ _ hvl (fun k hk => by
          have := (hv k hk).1
          rw [Nat.zero_add] at this
          exact this)
      refine ⟨by rw [hviews], ?_⟩
      rw [hcon, List.range_eq_range']

theorem createFramebuffersLoop_inv (s : App) (answer : Nat → VkResult × Handle) :
    ∀ (remaining i : Nat) (framebuffers : List Handle) (log : List Call)
      (framebuffers1 : List Handle),
      createFramebuffersLoop s answer remaining i framebuffers = (log, .ok framebuffers1) →
      (∀ j, i ≤ j → j < i + remaining → (answer j).1 = VK_SUCCESS)
        ∧ constructed log
            = (List.range' i remaining).map (fun j => (ObjectKind.framebuffer, (answer j).2)) := by
  intro remaining
  induction remaining with
  | zero =>
    intro i framebuffers log framebuffers1 h
    simp only [createFramebuffersLoop, Prod.mk.injEq] at h
    obtain ⟨rfl, _⟩ := h
    exact ⟨fun j h1 h2 => absurd h2 (by omega), rfl⟩
  | succ n ih =>
    intro i framebuffers log framebuffers1 h
    unfold createFramebuffersLoop at h
    by_cases hr : (answer i).1 = VK_SUCCESS
    · simp only [hr, ne_eq, not_true_eq_false, if_false, Prod.mk.injEq] at h
      obtain ⟨rfl, h2⟩ := h
      obtain ⟨hans, hcon⟩ := ih (i + 1) _ _ framebuffers1 (Prod.ext rfl h2)
      refine ⟨?_, ?_⟩
      · intro j h1 h3
        by_cases hj : j = i
        · rw [hj]; exact hr
        · exact hans j (by omega) (by omega)
      · simp only [constructed, List.filterMap_cons, Call.constructs, if_true,
          List.range'_succ, List.map_cons] at hcon ⊢
        rw [hcon]
    · simp [hr] at h

theorem createFramebuffers_inv (s : App) (answer : Nat → VkResult × Handle) (log : List Call)
    (s1 : App) (h : createFramebuffers s answer = (log, .ok s1)) :
    s1 = { s with mSwapChainFramebuffers :=
            (List.range s.mSwapChainImageViews.length).map (fun i => (answer i).2) }
      ∧ constructed log = (List.range s.mSwapChainImageViews.length).map
          (fun i => (ObjectKind.framebuffer, (answer i).2)) := by
  unfold createFramebuffers at h
  simp only at h
  cases hl : createFramebuffersLoop s answer s.mSwapChainImageViews.length 0
      (vectorResize s.mSwapChainFramebuffers s.mSwapChainImageViews.length) with
  | mk log1 r =>
    cases r with
    | error e => simp [hl] at h
    | ok fbs1 =>
      simp only [hl, Prod.mk.injEq, Except.ok.injEq] at h
      obtain ⟨rfl, rfl⟩ := h
      obtain ⟨hans, hcon⟩ := createFramebuffersLoop_inv s answer _ _ _ _ _ hl
      obtain ⟨log2, fbs2, h2, hvl, _, _, hv⟩ :=
        createFramebuffersLoop_ok s answer s.mSwapChainImageViews.length 0
          (vectorResize s.mSwapChainFramebuffers s.mSwapChainImageViews.length)
          (fun j h1 h3 => hans j h1 h3)
          (by rw [vectorResize_length]; omega)
      rw [hl] at h2
      simp only [Prod.mk.injEq, Except.ok.injEq] at h2
      obtain ⟨rfl, rfl⟩ := h2
      rw [vectorResize_length] at hvl
      have hfbs : fbs1 = (List.range s.mSwapChainImageViews.length).map
          (fun i => (answer i).2) :=
        eq_map_range fbs1 _ _ hvl (fun k hk => by
          have := (hv k hk).1
          rw [Nat.zero_add] at this
          exact this)
      refine ⟨by rw [hfbs], ?_⟩
      rw [hcon, List.range_eq_range']

/-! ### What start-up constructs and what `cleanup` destroys -/

theorem constructed_append (l1 l2 : List Call) :
    constructed (l1 ++ l2) = constructed l1 ++ constructed l2 := by
  simp [constructed, List.filterMap_append]

theorem destroyed_append (l1 l2 : List Call) :
    destroyed (l1 ++ l2) = destroyed l1 ++ destroyed l2 := by
  simp [destroyed, List.filterMap_append]

/-- The first eight steps of `initVulkan`, when they return: the members they
set and the objects they construct, in terms of the answers. -/
theorem initVulkanToRenderPass_inv (s : App) (a : StartupAnswers) (log : List Call)
    (s1 : App) (h : initVulkanToRenderPass s a = (log, .ok s1)) :
    s1.window = s.window ∧ s1.mInstance = a.inst ∧ s1.mDebugMessenger = a.messenger
      ∧ s1.mSurface = a.surface ∧ s1.mDevice = a.logicalDevice.device
      ∧ s1.mSwapChain = a.swapChain.swapchain
      ∧ s1.mSwapChainImageViews
          = (List.range a.swapChain.images.length).map (fun i => (a.imageView i).2)
      ∧ s1.mRenderPass = a.renderPass
      ∧ constructed log
          = [(.inst, a.inst), (.debugMessenger, a.messenger), (.surface, a.surface),
             (.device, a.logicalDevice.device), (.swapchain, a.swapChain.swapchain)]
            ++ (List.range a.swapChain.images.length).map
                (fun i => (ObjectKind.imageView, (a.imageView i).2))
            ++ [(.renderPass, a.renderPass)] := by
  unfold initVulkanToRenderPass at h
  obtain ⟨m7, s7, l8, a7, h8, rfl⟩ := andThen_eq_ok _ _ _ _ h
  obtain ⟨m6, s6, l7, a6, h7, rfl⟩ := andThen_eq_ok _ _ _ _ a7
  obtain ⟨m5, s5, l6, a5, h6, rfl⟩ := andThen_eq_ok _ _ _ _ a6
  obtain ⟨m4, s4, l5, a4, h5, rfl⟩ := andThen_eq_ok _ _ _ _ a5
  obtain ⟨m3, s3, l4, a3, h4, rfl⟩ := andThen_eq_ok _ _ _ _ a4
  obtain ⟨m2, s2, l3, a2, h3, rfl⟩ := andThen_eq_ok _ _ _ _ a3
  obtain ⟨l1, s0, l2, h1, h2, rfl⟩ := andThen_eq_ok _ _ _ _ a2
  clear h a7 a6 a5 a4 a3 a2
  obtain ⟨rfl, c1, _⟩ := createInstance_inv _ _ _ _ h1
  obtain ⟨rfl, c2, _⟩ := setupDebugMessenger_inv _ _ _ _ h2
  obtain ⟨rfl, c3, _⟩ := createSurface_inv _ _ _ _ h3
  obtain ⟨⟨device, rfl⟩, rfl⟩ := pickPhysicalDeviceStep_inv _ _ _ _ h4
  obtain ⟨rfl, c5, _⟩ := createLogicalDevice_inv _ _ _ _ h5
  obtain ⟨⟨format, extent, rfl⟩, c6, _⟩ := createSwapChain_inv _ _ _ _ h6
  obtain ⟨rfl, c7⟩ := createImageViews_inv _ _ _ _ h7
  obtain ⟨rfl, c8, _⟩ := createRenderPass_inv _ _ _ _ h8
  refine ⟨rfl, rfl, rfl, rfl, rfl, rfl, rfl, rfl, ?_⟩
  simp only [constructed_append, c1, c2, c3, c5, c6, c7, c8]
  simp [constructed]

/-- The whole of `initVulkan`, when it returns: the members it sets and the
objects it constructs, in terms of the answers. -/
theorem initVulkan_inv (s : App) (a : StartupAnswers) (log : List Call)
    (s1 : App) (h : initVulkan s a = (log, .ok s1)) :
    s1.window = s.window ∧ s1.mInstance = a.inst ∧ s1.mDebugMessenger = a.messenger
      ∧ s1.mSurface = a.surface ∧ s1.mDevice = a.logicalDevice.device
      ∧ s1.mSwapChain = a.swapChain.swapchain
      ∧ s1.mSwapChainImageViews
          = (List.range a.swapChain.images.length).map (fun i => (a.imageView i).2)
      ∧ s1.mRenderPass = a.renderPass
      ∧ s1.mPipelineLayout = a.layout ∧ s1.mGraphicsPipeline = a.pipeline
      ∧ s1.mSwapChainFramebuffers
          = (List.range a.swapChain.images.length).map (fun i => (a.framebuffer i).2)
      ∧ s1.mCommandPool = a.pool
      ∧ s1.mImageAvailableSemaphore = a.imageAvailable.2
      ∧ s1.mRenderFinishedSemaphore = a.renderFinished.2
      ∧ s1.mInFlightFence = a.inFlight.2
      ∧ constructed log
          = [(.inst, a.inst), (.debugMessenger, a.messenger), (.surface, a.surface),
             (.device, a.logicalDevice.device), (.swapchain, a.swapChain.swapchain)]
            ++ (List.range a.swapChain.images.length).map
                (fun i => (ObjectKind.imageView, (a.imageView i).2))
            ++ [(.renderPass, a.renderPass), (.pipelineLayout, a.layout),
                (.pipeline, a.pipeline)]
            ++ (List.range a.swapChain.images.length).map
                (fun i => (ObjectKind.framebuffer, (a.framebuffer i).2))
            ++ [(.commandPool, a.pool), (.semaphore, a.imageAvailable.2),
                (.semaphore, a.renderFinished.2), (.fence, a.inFlight.2)] := by
  unfold initVulkan at h
  obtain ⟨m12, s12, l13, a12, h13, rfl⟩ := andThen_eq_ok _ _ _ _ h
  obtain ⟨m11, s11, l12, a11, h12, rfl⟩ := andThen_eq_ok _ _ _ _ a12
  obtain ⟨m10, s10, l11, a10, h11, rfl⟩ := andThen_eq_ok _ _ _ _ a11
  obtain ⟨m9, s9, l10, a9, h10, rfl⟩ := andThen_eq_ok _ _ _ _ a10
  obtain ⟨l8, s8, l9, h8, h9, rfl⟩ := andThen_eq_ok _ _ _ _ a9
  clear h a12 a11 a10 a9
  obtain ⟨e1, e2, e3, e4, e5, e6, e7, e8, c8⟩ := initVulkanToRenderPass_inv _ _ _ _ h8
  obtain ⟨rfl, c9, _, _⟩ := createGraphicsPipeline_inv _ _ _ _ h9
  obtain ⟨rfl, c10⟩ := createFramebuffers_inv _ _ _ _ h10
  obtain ⟨rfl, c11, _⟩ := createCommandPool_inv _ _ _ _ h11
  obtain ⟨rfl, c12, _⟩ := createCommandBuffer_inv _ _ _ _ h12
  obtain ⟨rfl, c13, _⟩ := createSyncObjects_inv _ _ _ _ h13
  simp only [e7, List.length_map, List.length_range] at c10
  refine ⟨e1, e2, e3, e4, e5, e6, e7, e8, rfl, rfl, ?_, rfl, rfl, rfl, rfl, ?_⟩
  · simp only [e7, List.length_map, List.length_range]
  · simp only [constructed_append, c8, c9, c10, c11, c12, c13]
    simp

theorem destroyed_cleanup (s : App) (found : Bool) :
    destroyed (cleanup s found)
      = [(.semaphore, s.mImageAvailableSemaphore), (.semaphore, s.mRenderFinishedSemaphore),
         (.fence, s.mInFlightFence), (.commandPool, s.mCommandPool)]
        ++ s.mSwapChainFramebuffers.map (fun h => (ObjectKind.framebuffer, h))
        ++ [(.pipeline, s.mGraphicsPipeline), (.pipelineLayout, s.mPipelineLayout),
            (.renderPass, s.mRenderPass)]
        ++ s.mSwapChainImageViews.map (fun h => (ObjectKind.imageView, h))
        ++ [(.swapchain, s.mSwapChain), (.device, s.mDevice)]
        ++ (if found = true then [(ObjectKind.debugMessenger, s.mDebugMessenger)] else [])
        ++ [(.surface, s.mSurface), (.inst, s.mInstance), (.window, s.window)] := by
  have hf : ∀ (d : Handle) (l : List Handle),
      List.filterMap Call.destroys (l.map (fun h => Call.vkDestroyFramebuffer d h))
        = l.map (fun h => (ObjectKind.framebuffer, h)) := by
    intro d l
    induction l with
    | nil => rfl
    | cons x xs ih => simp [List.filterMap_cons, Call.destroys, ih]
  have hv : ∀ (d : Handle) (l : List Handle),
      List.filterMap Call.destroys (l.map (fun h => Call.vkDestroyImageView d h))
        = l.map (fun h => (ObjectKind.imageView, h)) := by
    intro d l
    induction l with
    | nil => rfl
    | cons x xs ih => simp [List.filterMap_cons, Call.destroys, ih]
  cases found <;>
    simp [cleanup, destroyed, List.filterMap_append, hf, hv, Call.destroys,
      enableValidationLayer, DestroyDebugUtilsMessengerEXT]

/-- C16, the claim as stated fails: on a start-up in which every call succeeds
`cleanup` does not destroy in the reverse of the order of construction.  The
two semaphores and the fence, the three framebuffers and the three image views
are destroyed in the order in which they were constructed, and the debug
messenger, constructed before the surface, is destroyed before it. -/
theorem cleanup_not_reverse_of_construction :
    andThen (initWindow sampleNewApp sampleStartupAnswers)
        (fun s => initVulkan s sampleStartupAnswers)
      = ((andThen (initWindow sampleNewApp sampleStartupAnswers)
          (fun s => initVulkan s sampleStartupAnswers)).1, .ok sampleStartedApp)
    ∧ constructed (andThen (initWindow sampleNewApp sampleStartupAnswers)
          (fun s => initVulkan s sampleStartupAnswers)).1
        = [(.window, 1), (.inst, 2), (.debugMessenger, 19), (.surface, 6), (.device, 24),
           (.swapchain, 20), (.imageView, 30), (.imageView, 31), (.imageView, 32),
           (.renderPass, 11), (.pipelineLayout, 12), (.pipeline, 13),
           (.framebuffer, 40), (.framebuffer, 41), (.framebuffer, 42),
           (.commandPool, 14), (.semaphore, 16), (.semaphore, 17), (.fence, 18)]
    ∧ destroyed (cleanup sampleStartedApp true)
        = [(.semaphore, 16), (.semaphore, 17), (.fence, 18), (.commandPool, 14),
           (.framebuffer, 40), (.framebuffer, 41), (.framebuffer, 42),
           (.pipeline, 13), (.pipelineLayout, 12), (.renderPass, 11),
           (.imageView, 30), (.imageView, 31), (.imageView, 32),
           (.swapchain, 20), (.device, 24), (.debugMessenger, 19), (.surface, 6),
           (.inst, 2), (.window, 1)]
    ∧ destroyed (cleanup sampleStartedApp true)
        ≠ (constructed (andThen (initWindow sampleNewApp sampleStartupAnswers)
            (fun s => initVulkan s sampleStartupAnswers)).1).reverse := by
  refine ⟨rfl, by decide, by decide, by decide⟩

/-- C16, amended: when GLFW reports Vulkan support and start-up returns,
`initWindow` and `initVulkan` have constructed, in this order, the window, the
instance, the debug messenger, the surface, the logical device, the swapchain,
the image views, the render pass, the pipeline layout, the pipeline, the
framebuffers, the command pool, the image-available semaphore, the
render-finished semaphore and the fence.  `cleanup` destroys the two
semaphores and the fence in that same order, then the command pool, the
framebuffers in index order, the pipeline, the pipeline layout, the render
pass, the image views in index order, the swapchain, the device, the debug
messenger (when its destroy function is found), the surface, the instance and
the window.  When the destroy function is found, the objects destroyed are
the objects constructed, each as often as it was constructed. -/
theorem cleanup_destroys_constructed (s : App) (a : StartupAnswers) (s1 : App)
    (hsup : a.vulkanSupported = true)
    (h : (andThen (initWindow s a) (fun s => initVulkan s a)).2 = .ok s1) :
    constructed (andThen (initWindow s a) (fun s => initVulkan s a)).1
        = [(.window, a.window), (.inst, a.inst), (.debugMessenger, a.messenger),
           (.surface, a.surface), (.device, a.logicalDevice.device),
           (.swapchain, a.swapChain.swapchain)]
          ++ (List.range a.swapChain.images.length).map
              (fun i => (ObjectKind.imageView, (a.imageView i).2))
          ++ [(.renderPass, a.renderPass), (.pipelineLayout, a.layout),
              (.pipeline, a.pipeline)]
          ++ (List.range a.swapChain.images.length).map
              (fun i => (ObjectKind.framebuffer, (a.framebuffer i).2))
          ++ [(.commandPool, a.pool), (.semaphore, a.imageAvailable.2),
              (.semaphore, a.renderFinished.2), (.fence, a.inFlight.2)]
      ∧ (∀ found : Bool, destroyed (cleanup s1 found)
        = [(.semaphore, a.imageAvailable.2), (.semaphore, a.renderFinished.2),
           (.fence, a.inFlight.2), (.commandPool, a.pool)]
          ++ (List.range a.swapChain.images.length).map
              (fun i => (ObjectKind.framebuffer, (a.framebuffer i).2))
          ++ [(.pipeline, a.pipeline), (.pipelineLayout, a.layout),
              (.renderPass, a.renderPass)]
          ++ (List.range a.swapChain.images.length).map
              (fun i => (ObjectKind.imageView, (a.imageView i).2))
          ++ [(.swapchain, a.swapChain.swapchain), (.device, a.logicalDevice.device)]
          ++ (if found = true then [(ObjectKind.debugMessenger, a.messenger)] else [])
          ++ [(.surface, a.surface), (.inst, a.inst), (.window, a.window)])
      ∧ (destroyed (cleanup s1 true)).Perm
          (constructed (andThen (initWindow s a) (fun s => initVulkan s a)).1) := by
  have hw := initWindow_supported s a hsup
  have hstart : andThen (initWindow s a) (fun s => initVulkan s a)
      = ((andThen (initWindow s a) (fun s => initVulkan s a)).1, .ok s1) :=
    Prod.ext rfl h
  obtain ⟨l0, s0, l1, h0, h1, hlog⟩ := andThen_eq_ok _ _ _ _ hstart
  rw [hw] at h0
  simp only [Prod.mk.injEq, Except.ok.injEq] at h0
  obtain ⟨hl0, hs0⟩ := h0
  subst hl0
  subst hs0
  obtain ⟨e1, e2, e3, e4, e5, e6, e7, e8, e9, e10, e11, e12, e13, e14, e15, c⟩ :=
    initVulkan_inv _ _ _ _ h1
  simp only at e1
  have hcon : constructed (andThen (initWindow s a) (fun s => initVulkan s a)).1
      = [(.window, a.window), (.inst, a.inst), (.debugMessenger, a.messenger),
           (.surface, a.surface), (.device, a.logicalDevice.device),
           (.swapchain, a.swapChain.swapchain)]
          ++ (List.range a.swapChain.images.length).map
              (fun i => (ObjectKind.imageView, (a.imageView i).2))
          ++ [(.renderPass, a.renderPass), (.pipelineLayout, a.layout),
              (.pipeline, a.pipeline)]
          ++ (List.range a.swapChain.images.length).map
              (fun i => (ObjectKind.framebuffer, (a.framebuffer i).2))
          ++ [(.commandPool, a.pool), (.semaphore, a.imageAvailable.2),
              (.semaphore, a.renderFinished.2), (.fence, a.inFlight.2)] := by
    rw [hlog, constructed_append, c]
    simp [constructed, Call.constructs]
  have hdes : ∀ found : Bool, destroyed (cleanup s1 found)
        = [(.semaphore, a.imageAvailable.2), (.semaphore, a.renderFinished.2),
           (.fence, a.inFlight.2), (.commandPool, a.pool)]
          ++ (List.range a.swapChain.images.length).map
              (fun i => (ObjectKind.framebuffer, (a.framebuffer i).2))
          ++ [(.pipeline, a.pipeline), (.pipelineLayout, a.layout),
              (.renderPass, a.renderPass)]
          ++ (List.range a.swapChain.images.length).map
              (fun i => (ObjectKind.imageView, (a.imageView i).2))
          ++ [(.swapchain, a.swapChain.swapchain), (.device, a.logicalDevice.device)]
          ++ (if found = true then [(ObjectKind.debugMessenger, a.messenger)] else [])
          ++ [(.surface, a.surface), (.inst, a.inst), (.window, a.window)] := by
    intro found
    rw [destroyed_cleanup, e1, e2, e3, e4, e5, e6, e7, e8, e9, e10, e11, e12, e13, e14, e15,
      List.map_map, List.map_map]
    rfl
  refine ⟨hcon, hdes, ?_⟩
  rw [hcon, hdes true, List.perm_iff_count]
  intro x
  simp only [if_true, List.count_append, List.count_cons, List.count_nil]
  omega

/-- Witness of C16 on the sample start-up. -/
theorem cleanup_destroys_constructed_witness :
    (destroyed (cleanup sampleStartedApp true)).Perm
      (constructed (andThen (initWindow sampleNewApp sampleStartupAnswers)
        (fun s => initVulkan s sampleStartupAnswers)).1) :=
  (cleanup_destroys_constructed sampleNewApp sampleStartupAnswers sampleStartedApp
    rfl rfl).2.2

/-! ### A missing shader file -/

theorem andThen_forall (p : Call → Prop) (first : List Call × Except Abort App)
    (next : App → List Call × Except Abort App) (h1 : ∀ c ∈ first.1, p c)
    (h2 : ∀ s, ∀ c ∈ (next s).1, p c) : ∀ c ∈ (andThen first next).1, p c := by
  rcases first with ⟨log, r⟩
  cases r with
  | error e => exact h1
  | ok s =>
    intro c hc
    simp only [andThen, List.mem_append] at hc
    rcases hc with hc | hc
    · exact h1 c hc
    · exact h2 s c hc

theorem createInstance_early (s : App) (a : StartupAnswers) :
    ∀ c ∈ (createInstance s a).1, c.afterRenderPass = false := by
  unfold createInstance
  repeat' split
  all_goals simp [Call.afterRenderPass]

theorem setupDebugMessenger_early (s : App) (a : StartupAnswers) :
    ∀ c ∈ (setupDebugMessenger s a).1, c.afterRenderPass = false := by
  unfold setupDebugMessenger CreateDebugUtilsMessengerEXT
  by_cases hf : a.createMessengerFound = true
  · by_cases hr : a.messengerResult = VK_SUCCESS <;>
      simp [hf, hr, enableValidationLayer, Call.afterRenderPass]
  · simp [hf, enableValidationLayer, VK_ERROR_EXTENSION_NOT_PRESENT, VK_SUCCESS]

theorem createSurface_early (s : App) (a : StartupAnswers) :
    ∀ c ∈ (createSurface s a).1, c.afterRenderPass = false := by
  unfold createSurface
  repeat' split
  all_goals simp [Call.afterRenderPass]

theorem createLogicalDevice_early (s : App) (a : LogicalDeviceAnswers) :
    ∀ c ∈ (createLogicalDevice s a).1, c.afterRenderPass = false := by
  unfold createLogicalDevice
  cases hp : s.mPhysicalDevice with
  | none => simp [hp]
  | some pd =>
    cases hq : findQueueFamilies pd with
    | error e => simp [hp, hq]
    | ok indices =>
      rcases indices with ⟨g, p⟩
      cases g with
      | none => simp [hp, hq]
      | some g =>
        cases p with
        | none => simp [hp, hq]
        | some p =>
          by_cases hr : a.result = VK_SUCCESS <;>
            simp [hp, hq, hr, Call.afterRenderPass]

theorem createSwapChain_early (s : App) (a : SwapChainAnswers) :
    ∀ c ∈ (createSwapChain s a).1, c.afterRenderPass = false := by
  unfold createSwapChain
  repeat' split
  all_goals first
    | (simp [Call.afterRenderPass]; done)
    | (simp only []; split <;> simp [Call.afterRenderPass])

theorem createImageViewsLoop_early (s : App) (answer : Nat → VkResult × Handle) :
    ∀ (remaining i : Nat) (views : List Handle),
      ∀ c ∈ (createImageViewsLoop s answer remaining i views).1,
        c.afterRenderPass = false := by
  intro remaining
  induction remaining with
  | zero =>
    intro i views c hc
    simp [createImageViewsLoop] at hc
  | succ n ih =>
    intro i views c hc
    unfold createImageViewsLoop at hc
    by_cases hr : (answer i).1 = VK_SUCCESS
    · simp only [hr, ne_eq, not_true_eq_false, if_false, List.mem_cons] at hc
      rcases hc with rfl | hc
      · simp [Call.afterRenderPass]
      · exact ih _ _ c hc
    · simp only [hr, ne_eq, not_false_eq_true, if_true, List.mem_singleton] at hc
      rw [hc]
      simp [Call.afterRenderPass]

theorem createImageViews_early (s : App) (answer : Nat → VkResult × Handle) :
    ∀ c ∈ (createImageViews s answer).1, c.afterRenderPass = false := by
  intro c hc
  unfold createImageViews at hc
  simp only at hc
  split at hc <;> rename_i heq <;>
    exact createImageViewsLoop_early s answer _ _ _ c (by rw [heq]; exact hc)

theorem createRenderPass_early (s : App) (a : StartupAnswers) :
    ∀ c ∈ (createRenderPass s a).1, c.afterRenderPass = false := by
  unfold createRenderPass
  repeat' split
  all_goals simp [Call.afterRenderPass]

/-- The first eight steps of `initVulkan` make none of the calls of the
later steps. -/
theorem initVulkanToRenderPass_early (s : App) (a : StartupAnswers) :
    ∀ c ∈ (initVulkanToRenderPass s a).1, c.afterRenderPass = false := by
  unfold initVulkanToRenderPass
  refine andThen_forall _ _ _ (andThen_forall _ _ _ (andThen_forall _ _ _
    (andThen_forall _ _ _ (andThen_forall _ _ _ (andThen_forall _ _ _
    (andThen_forall _ _ _ (createInstance_early s a) ?_) ?_) ?_) ?_) ?_) ?_) ?_
  · intro s1; exact setupDebugMessenger_early s1 a
  · intro s1; exact createSurface_early s1 a
  · intro s1 c hc
    have : (pickPhysicalDeviceStep s1 a).1 = [] := by
      unfold pickPhysicalDeviceStep
      split <;> rfl
    rw [this] at hc
    exact absurd hc (List.not_mem_nil c)
  · intro s1; exact createLogicalDevice_early s1 a.logicalDevice
  · intro s1; exact createSwapChain_early s1 a.swapChain
  · intro s1; exact createImageViews_early s1 a.imageView
  · intro s1; exact createRenderPass_early s1 a

/-- With a shader file that cannot be opened `createGraphicsPipeline` aborts
without a call. -/
theorem createGraphicsPipeline_missing (s : App) (a : StartupAnswers)
    (h : a.vertexFile = none ∨ a.fragmentFile = none) :
    (∃ e, createGraphicsPipeline s a = ([], .error e))
      ∧ (a.vertexFile = none → createGraphicsPipeline s a = ([], .error .vectorLengthError))
      ∧ (∀ code, a.vertexFile = some code → code ≠ [] → a.fragmentFile = none →
          createGraphicsPipeline s a = ([], .error .vectorLengthError)) := by
  have hv : a.vertexFile = none →
      createGraphicsPipeline s a = ([], .error .vectorLengthError) := by
    intro hv
    simp [createGraphicsPipeline, readFile, hv]
  have hf : ∀ code, a.vertexFile = some code → code ≠ [] → a.fragmentFile = none →
      createGraphicsPipeline s a = ([], .error .vectorLengthError) := by
    intro code hc hne hfr
    simp [createGraphicsPipeline, readFile, hc, hfr, hne]
  refine ⟨?_, hv, hf⟩
  rcases h with h | h
  · exact ⟨_, hv h⟩
  · cases hvf : a.vertexFile with
    | none => exact ⟨_, hv hvf⟩
    | some code =>
      by_cases hne : code = []
      · refine ⟨.assertFailed 418, ?_⟩
        simp [createGraphicsPipeline, readFile, hvf, hne]
      · exact ⟨_, hf code hvf hne h⟩

/-- When `createGraphicsPipeline` aborts without a call on every state,
`initVulkan` aborts with the calls of its first eight steps. -/
theorem initVulkan_pipeline_aborts (s : App) (a : StartupAnswers)
    (h : ∀ s1, ∃ e, createGraphicsPipeline s1 a = ([], .error e)) :
    (∃ e, (initVulkan s a).2 = .error e)
      ∧ (initVulkan s a).1 = (initVulkanToRenderPass s a).1
      ∧ ∀ s1, (initVulkanToRenderPass s a).2 = .ok s1 →
          (initVulkan s a).2 = (createGraphicsPipeline s1 a).2 := by
  unfold initVulkan
  rcases hr : initVulkanToRenderPass s a with ⟨log, r⟩
  cases r with
  | error e =>
    refine ⟨⟨e, rfl⟩, rfl, ?_⟩
    intro s1 h1
    simp at h1
  | ok s0 =>
    obtain ⟨e, he⟩ := h s0
    refine ⟨⟨e, ?_⟩, ?_, ?_⟩
    · simp [andThen, he]
    · simp [andThen, he]
    · intro s1 h1
      simp only [Except.ok.injEq] at h1
      subst h1
      simp [andThen, he]

/-- C15, the claim as stated fails: with the vertex shader file missing and
every other answer a success, start-up aborts only after it has created the
instance, the debug messenger, the surface, the logical device, the
swapchain, three image views and the render pass. -/
theorem initVulkan_missing_shader_after_objects :
    (initVulkan sampleNewApp sampleStartupMissingShader).2 = .error .vectorLengthError
      ∧ constructed (initVulkan sampleNewApp sampleStartupMissingShader).1
          = [(.inst, 2), (.debugMessenger, 19), (.surface, 6), (.device, 24),
             (.swapchain, 20), (.imageView, 30), (.imageView, 31), (.imageView, 32),
             (.renderPass, 11)]
      ∧ (run sampleNewApp
            { sampleRunAnswers with startup := sampleStartupMissingShader }).2
          = .aborted .vectorLengthError := by
  refine ⟨rfl, by decide, by decide⟩

/-- C15, amended: a shader file that cannot be opened is fatal to start-up,
and the failure arises in `createGraphicsPipeline`, the ninth step of
`initVulkan`.  The run aborts; the calls made by `initVulkan` are those of
its first eight steps, none of which creates a shader module, the pipeline
layout, the pipeline, a framebuffer, the command pool, the command buffer, a
semaphore or the fence; when those eight steps succeed, the instance, the
debug messenger, the surface, the logical device, the swapchain, the image
views and the render pass have been created at the point of failure, and the
failure is the exception thrown by the vector construction of `readFile`
unless an empty vertex binary fails the assertion of line 418 first. -/
theorem initVulkan_missing_shader (s : App) (a : StartupAnswers)
    (h : a.vertexFile = none ∨ a.fragmentFile = none) :
    (∃ e, (initVulkan s a).2 = .error e)
      ∧ (∀ loop found, ∃ e, (run s ⟨a, loop, found⟩).2 = .aborted e)
      ∧ (initVulkan s a).1 = (initVulkanToRenderPass s a).1
      ∧ (∀ c ∈ (initVulkan s a).1, c.afterRenderPass = false)
      ∧ (∀ s1, (initVulkanToRenderPass s a).2 = .ok s1 →
          constructed (initVulkan s a).1
              = [(.inst, a.inst), (.debugMessenger, a.messenger), (.surface, a.surface),
                 (.device, a.logicalDevice.device), (.swapchain, a.swapChain.swapchain)]
                ++ (List.range a.swapChain.images.length).map
                    (fun i => (ObjectKind.imageView, (a.imageView i).2))
                ++ [(.renderPass, a.renderPass)]
            ∧ (a.vertexFile ≠ some [] → (initVulkan s a).2 = .error .vectorLengthError)
            ∧ (a.vertexFile = some [] → (initVulkan s a).2 = .error (.assertFailed 418))) := by
  have hall : ∀ s1, ∃ e, createGraphicsPipeline s1 a = ([], .error e) :=
    fun s1 => (createGraphicsPipeline_missing s1 a h).1
  obtain ⟨⟨e, he⟩, hlog, hres⟩ := initVulkan_pipeline_aborts s a hall
  refine ⟨⟨e, he⟩, ?_, hlog, ?_, ?_⟩
  · intro loop found
    have hw : ∃ l0 s0, initWindow s a = (l0, .ok s0) := by
      unfold initWindow
      split <;> exact ⟨_, _, rfl⟩
    obtain ⟨l0, s0, hw⟩ := hw
    obtain ⟨⟨e0, he0⟩, _, _⟩ := initVulkan_pipeline_aborts s0 a hall
    refine ⟨e0, ?_⟩
    simp only [run, hw, andThen, he0]
  · rw [hlog]
    exact initVulkanToRenderPass_early s a
  · intro s1 h1
    have hinit : initVulkanToRenderPass s a = ((initVulkanToRenderPass s a).1, .ok s1) :=
      Prod.ext rfl h1
    refine ⟨?_, ?_, ?_⟩
    · rw [hlog]
      exact (initVulkanToRenderPass_inv s a _ s1 hinit).2.2.2.2.2.2.2.2
    · intro hne
      rw [hres s1 h1]
      cases hvf : a.vertexFile with
      | none => rw [(createGraphicsPipeline_missing s1 a h).2.1 hvf]
      | some code =>
        have hcode : code ≠ [] := fun hc => hne (by rw [hvf, hc])
        have hfr : a.fragmentFile = none := by
          rcases h with h | h
          · rw [hvf] at h; exact absurd h (by simp)
          · exact h
        rw [(createGraphicsPipeline_missing s1 a h).2.2 code hvf hcode hfr]
    · intro hv
      rw [hres s1 h1]
      simp [createGraphicsPipeline, readFile, hv]

/-- Witness of C15: the sample start-up with the vertex shader file missing. -/
theorem initVulkan_missing_shader_witness :
    (initVulkan sampleNewApp sampleStartupMissingShader).1
      = (initVulkanToRenderPass sampleNewApp sampleStartupMissingShader).1 :=
  (initVulkan_missing_shader sampleNewApp sampleStartupMissingShader (Or.inl rfl)).2.2.1

/-! ### The main loop and the order of teardown -/

theorem drawFrame_noDestroy (s : App) (a : FrameAnswers) :
    ∀ c ∈ (drawFrame s a).1, c.isDestroy = false := by
  by_cases h1 : a.acquireResult = VK_SUCCESS
  · by_cases h2 : a.beginResult = VK_SUCCESS
    · cases hfb : s.mSwapChainFramebuffers.get? a.imageIndex with
      | none =>
        simp only [drawFrame, recordCommandBuffer, h1, h2, hfb, ne_eq, not_true_eq_false,
          if_false]
        simp [Call.isDestroy, Call.destroys]
      | some fb =>
        by_cases h4 : a.endResult = VK_SUCCESS
        · simp only [drawFrame, recordCommandBuffer, h1, h2, h4, hfb, ne_eq,
            not_true_eq_false, if_false]
          simp [Call.isDestroy, Call.destroys]
        · simp only [drawFrame, recordCommandBuffer, h1, h2, h4, hfb, ne_eq,
            not_true_eq_false, not_false_eq_true, if_false, if_true]
          simp [Call.isDestroy, Call.destroys]
    · simp only [drawFrame, recordCommandBuffer, h1, h2, ne_eq, not_true_eq_false,
        not_false_eq_true, if_false, if_true]
      simp [Call.isDestroy, Call.destroys]
  · simp only [drawFrame, h1, ne_eq, not_false_eq_true, if_true]
    simp [Call.isDestroy, Call.destroys]

theorem iterations_noDestroy (s : App) (answers : List LoopAnswers) :
    ∀ c ∈ iterations s answers, c.isDestroy = false := by
  induction answers with
  | nil => intro c hc; simp [iterations] at hc
  | cons x rest ih =>
    intro c hc
    simp only [iterations, List.mem_cons, List.mem_append] at hc
    rcases hc with rfl | rfl | hc | hc
    · simp [Call.isDestroy, Call.destroys]
    · simp [Call.isDestroy, Call.destroys]
    · exact drawFrame_noDestroy s x.frame c hc
    · exact ih c hc

/-- The log of `mainLoop`: the passes that run to their end, one for each
answer that finds the window open and whose frame returns, followed by
nothing when the answers run out, by the test that finds the window closed
and `vkDeviceWaitIdle`, or by the pass whose frame aborts. -/
theorem mainLoop_shape (s : App) (answers : List LoopAnswers) :
    ∃ pre post, answers = pre ++ post
      ∧ (∀ x ∈ pre, x.shouldClose = false ∧ (drawFrame s x.frame).2 = .ok ())
      ∧ ((post = [] ∧ mainLoop s answers = (iterations s pre, .running))
        ∨ (∃ last rest, post = last :: rest ∧ last.shouldClose = true
            ∧ mainLoop s answers
              = (iterations s pre ++ [Call.glfwWindowShouldClose s.window true,
                  Call.vkDeviceWaitIdle s.mDevice], .closed))
        ∨ (∃ last rest e, post = last :: rest ∧ last.shouldClose = false
            ∧ (drawFrame s last.frame).2 = .error e
            ∧ mainLoop s answers
              = (iterations s pre ++ Call.glfwWindowShouldClose s.window false
                  :: Call.glfwPollEvents :: (drawFrame s last.frame).1, .aborted e))) := by
  induction answers with
  | nil => exact ⟨[], [], rfl, fun x hx => absurd hx (List.not_mem_nil x), Or.inl ⟨rfl, rfl⟩⟩
  | cons x rest ih =>
    by_cases hc : x.shouldClose = true
    · refine ⟨[], x :: rest, rfl, fun y hy => absurd hy (List.not_mem_nil y),
        Or.inr (Or.inl ⟨x, rest, rfl, hc, ?_⟩)⟩
      simp [mainLoop, hc, iterations]
    · have hc0 : x.shouldClose = false := by
        cases hx : x.shouldClose with
        | true => exact absurd hx hc
        | false => rfl
      rcases hd : drawFrame s x.frame with ⟨log, r⟩
      cases r with
      | error e =>
        refine ⟨[], x :: rest, rfl, fun y hy => absurd hy (List.not_mem_nil y),
          Or.inr (Or.inr ⟨x, rest, e, rfl, hc0, ?_, ?_⟩)⟩
        · rw [hd]
        · simp [mainLoop, hc0, hd, iterations]
      | ok u =>
        obtain ⟨pre, post, hsplit, hpre, hcases⟩ := ih
        have hpre1 : ∀ y ∈ x :: pre,
            y.shouldClose = false ∧ (drawFrame s y.frame).2 = .ok () := by
          intro y hy
          rcases List.mem_cons.mp hy with rfl | hy
          · exact ⟨hc0, by rw [hd]⟩
          · exact hpre y hy
        refine ⟨x :: pre, post, by rw [hsplit]; rfl, hpre1, ?_⟩
        rcases hcases with ⟨hp, hm⟩ | ⟨last, tail, hp, hl, hm⟩ | ⟨last, tail, e, hp, hl, he, hm⟩
        · refine Or.inl ⟨hp, ?_⟩
          simp [mainLoop, hc0, hd, hm, iterations]
        · refine Or.inr (Or.inl ⟨last, tail, hp, hl, ?_⟩)
          simp [mainLoop, hc0, hd, hm, iterations]
        · refine Or.inr (Or.inr ⟨last, tail, e, hp, hl, he, ?_⟩)
          simp [mainLoop, hc0, hd, hm, iterations]

theorem mainLoop_noDestroy (s : App) (answers : List LoopAnswers) :
    ∀ c ∈ (mainLoop s answers).1, c.isDestroy = false := by
  obtain ⟨pre, post, _, _, hcases⟩ := mainLoop_shape s answers
  intro c hc
  rcases hcases with ⟨_, hm⟩ | ⟨last, tail, _, _, hm⟩ | ⟨last, tail, e, _, _, _, hm⟩
  · rw [hm] at hc
    exact iterations_noDestroy s pre c hc
  · rw [hm] at hc
    simp only [List.mem_append, List.mem_cons, List.mem_singleton, List.not_mem_nil,
      or_false] at hc
    rcases hc with hc | rfl | rfl
    · exact iterations_noDestroy s pre c hc
    · simp [Call.isDestroy, Call.destroys]
    · simp [Call.isDestroy, Call.destroys]
  · rw [hm] at hc
    simp only [List.mem_append, List.mem_cons] at hc
    rcases hc with hc | rfl | rfl | hc
    · exact iterations_noDestroy s pre c hc
    · simp [Call.isDestroy, Call.destroys]
    · simp [Call.isDestroy, Call.destroys]
    · exact drawFrame_noDestroy s last.frame c hc

/-- Every destroy call of start-up is one of the `vkDestroyShaderModule` calls
of `createGraphicsPipeline`. -/
theorem startup_onlyShaderModules (s : App) (a : StartupAnswers) :
    ∀ c ∈ (andThen (initWindow s a) (fun s => initVulkan s a)).1, c.isDestroy = true →
      ∃ d m, c = Call.vkDestroyShaderModule d m := by
  have hno : ∀ (l : List Call), (∀ c ∈ l, c.isDestroy = false) →
      ∀ c ∈ l, c.isDestroy = true → ∃ d m, c = Call.vkDestroyShaderModule d m := by
    intro l hl c hc hd
    rw [hl c hc] at hd
    exact absurd hd (by simp)
  unfold initVulkan initVulkanToRenderPass
  refine andThen_forall _ _ _ (hno _ (initWindow_noDestroy s a)) ?_
  intro s0
  refine andThen_forall _ _ _ (andThen_forall _ _ _ (andThen_forall _ _ _
    (andThen_forall _ _ _ (andThen_forall _ _ _ (andThen_forall _ _ _
    (andThen_forall _ _ _ (andThen_forall _ _ _ (andThen_forall _ _ _
    (andThen_forall _ _ _ (andThen_forall _ _ _ (andThen_forall _ _ _
      (hno _ (createInstance_noDestroy s0 a)) ?_) ?_) ?_) ?_) ?_) ?_) ?_) ?_) ?_) ?_) ?_) ?_
  · intro s1; exact hno _ (setupDebugMessenger_noDestroy s1 a)
  · intro s1; exact hno _ (createSurface_noDestroy s1 a)
  · intro s1; exact hno _ (pickPhysicalDeviceStep_noDestroy s1 a)
  · intro s1; exact hno _ (createLogicalDevice_noDestroy s1 a.logicalDevice)
  · intro s1; exact hno _ (createSwapChain_noDestroy s1 a.swapChain)
  · intro s1; exact hno _ (createImageViews_noDestroy s1 a.imageView)
  · intro s1; exact hno _ (createRenderPass_noDestroy s1 a)
  · intro s1; exact createGraphicsPipeline_onlyShaderModules s1 a
  · intro s1; exact hno _ (createFramebuffers_noDestroy s1 a.framebuffer)
  · intro s1; exact hno _ (createCommandPool_noDestroy s1 a)
  · intro s1; exact hno _ (createCommandBuffer_noDestroy s1 a)
  · intro s1; exact hno _ (createSyncObjects_noDestroy s1 a)

theorem mem_or_split (pre post : List Call) (c : Call) :
    ∀ (A B : List Call), pre ++ c :: post = A ++ B →
      c ∈ A ∨ ∃ p, pre = A ++ p ∧ B = p ++ c :: post := by
  induction pre with
  | nil =>
    intro A B h
    cases A with
    | nil => exact Or.inr ⟨[], rfl, h.symm⟩
    | cons x A1 =>
      simp only [List.nil_append, List.cons_append, List.cons.injEq] at h
      exact Or.inl (by rw [h.1]; exact List.mem_cons_self _ _)
  | cons y pre1 ih =>
    intro A B h
    cases A with
    | nil => exact Or.inr ⟨y :: pre1, rfl, h.symm⟩
    | cons x A1 =>
      simp only [List.cons_append, List.cons.injEq] at h
      rcases ih A1 B h.2 with hm | ⟨p, hp, hB⟩
      · exact Or.inl (List.mem_cons_of_mem _ hm)
      · exact Or.inr ⟨p, by rw [h.1, hp]; rfl, hB⟩

/-- C17, the claim as stated fails: in the sample run, which draws one frame
and then sees the window closed, the first destroy call is call 17 of the
log, the `vkDestroyShaderModule` of the fragment shader module made by
`createGraphicsPipeline`, and the first `vkDeviceWaitIdle` is call 44. -/
theorem run_destroys_before_wait_idle :
    (run sampleNewApp sampleRunAnswers).2 = .finished
      ∧ (run sampleNewApp sampleRunAnswers).1.get? 17
          = some (Call.vkDestroyShaderModule 24 51)
      ∧ (Call.vkDestroyShaderModule 24 51).isDestroy = true
      ∧ (run sampleNewApp sampleRunAnswers).1.findIdx Call.isWaitIdle = 44
      ∧ (run sampleNewApp sampleRunAnswers).1.get? 44 = some (Call.vkDeviceWaitIdle 24) := by
  refine ⟨by decide, by decide, by decide, by decide, by decide⟩

/-- C17, amended: in every run the loop of `mainLoop` makes, for each pass
that runs to its end, one test of the should-close flag (which is false), one
`glfwPollEvents` and the calls of one `drawFrame`, and it ends when the
answers run out, when a frame aborts, or when the flag is observed true, in
which case `vkDeviceWaitIdle` follows that test at once.  A run that finishes
logs the calls of start-up, those passes, the last test, `vkDeviceWaitIdle`
and then the calls of `cleanup`, so the wait precedes every destroy call of
`cleanup`.  The only destroy calls that are not preceded by a
`vkDeviceWaitIdle` are the `vkDestroyShaderModule` calls that
`createGraphicsPipeline` makes during start-up. -/
theorem run_waits_before_teardown (s : App) (a : RunAnswers) :
    (∀ s1 : App, ∃ pre post, a.loop = pre ++ post
      ∧ (∀ x ∈ pre, x.shouldClose = false ∧ (drawFrame s1 x.frame).2 = .ok ())
      ∧ ((post = [] ∧ mainLoop s1 a.loop = (iterations s1 pre, .running))
        ∨ (∃ last rest, post = last :: rest ∧ last.shouldClose = true
            ∧ mainLoop s1 a.loop
              = (iterations s1 pre ++ [Call.glfwWindowShouldClose s1.window true,
                  Call.vkDeviceWaitIdle s1.mDevice], .closed))
        ∨ (∃ last rest e, post = last :: rest ∧ last.shouldClose = false
            ∧ (drawFrame s1 last.frame).2 = .error e
            ∧ mainLoop s1 a.loop
              = (iterations s1 pre ++ Call.glfwWindowShouldClose s1.window false
                  :: Call.glfwPollEvents :: (drawFrame s1 last.frame).1, .aborted e))))
    ∧ ((run s a).2 = .finished →
        ∃ started s1 pre last rest,
          andThen (initWindow s a.startup) (fun s => initVulkan s a.startup)
            = (started, .ok s1)
          ∧ a.loop = pre ++ last :: rest
          ∧ (∀ x ∈ pre, x.shouldClose = false ∧ (drawFrame s1 x.frame).2 = .ok ())
          ∧ last.shouldClose = true
          ∧ (run s a).1
              = started ++ iterations s1 pre
                ++ [Call.glfwWindowShouldClose s1.window true,
                    Call.vkDeviceWaitIdle s1.mDevice]
                ++ cleanup s1 a.destroyMessengerFound
          ∧ (∀ c ∈ iterations s1 pre, c.isDestroy = false)
          ∧ (∀ c ∈ started, c.isDestroy = true →
              ∃ d m, c = Call.vkDestroyShaderModule d m))
    ∧ (∀ pre c post, (run s a).1 = pre ++ c :: post → c.isDestroy = true →
        (∃ d m, c = Call.vkDestroyShaderModule d m)
          ∨ ∃ d, Call.vkDeviceWaitIdle d ∈ pre) := by
  refine ⟨fun s1 => mainLoop_shape s1 a.loop, ?_, ?_⟩
  · intro hfin
    have hstart := startup_onlyShaderModules s a.startup
    unfold run at hfin ⊢
    rcases hs : andThen (initWindow s a.startup) (fun s => initVulkan s a.startup)
      with ⟨started, r⟩
    rw [hs] at hfin hstart
    cases r with
    | error e => simp at hfin
    | ok s1 =>
      obtain ⟨pre, post, hsplit, hpre, hcases⟩ := mainLoop_shape s1 a.loop
      rcases hcases with ⟨_, hm⟩ | ⟨last, tail, hp, hl, hm⟩ | ⟨last, tail, e, _, _, _, hm⟩
      · simp [hm] at hfin
      · refine ⟨started, s1, pre, last, tail, rfl, by rw [hsplit, hp], hpre, hl, ?_,
          iterations_noDestroy s1 pre, hstart⟩
        simp [hm]
      · simp [hm] at hfin
  · intro pre c post hlog hd
    have hstart := startup_onlyShaderModules s a.startup
    unfold run at hlog
    rcases hs : andThen (initWindow s a.startup) (fun s => initVulkan s a.startup)
      with ⟨started, r⟩
    rw [hs] at hlog hstart
    cases r with
    | error e =>
      simp only at hlog
      exact Or.inl (hstart c (by rw [hlog]; simp) hd)
    | ok s1 =>
      simp only at hlog hstart
      have hloop := mainLoop_noDestroy s1 a.loop
      obtain ⟨pre1, post1, hsplit, hpre, hcases⟩ := mainLoop_shape s1 a.loop
      have hmem : ∀ l, c ∈ started ++ l →
          (∀ x ∈ l, x.isDestroy = false) → ∃ d m, c = Call.vkDestroyShaderModule d m := by
        intro l hc hl
        rcases List.mem_append.mp hc with hc | hc
        · exact hstart c hc hd
        · rw [hl c hc] at hd
          exact absurd hd (by simp)
      rcases hcases with ⟨_, hm⟩ | ⟨last, tail, hp, hl, hm⟩ | ⟨last, tail, e, _, _, _, hm⟩
      · rw [hm] at hlog hloop
        simp only at hlog hloop
        exact Or.inl (hmem _ (by rw [hlog]; simp) hloop)
      · rw [hm] at hlog hloop
        simp only at hlog hloop
        rcases mem_or_split pre post c _ _ hlog.symm with hc | ⟨p, hp1, _⟩
        · exact Or.inl (hmem _ hc hloop)
        · refine Or.inr ⟨s1.mDevice, ?_⟩
          rw [hp1]
          simp
      · rw [hm] at hlog hloop
        simp only at hlog hloop
        exact Or.inl (hmem _ (by rw [hlog]; simp) hloop)

/-! ### The framebuffer lookup of `recordCommandBuffer` -/

/-- When `initVulkan` returns, the image vector holds the images the platform
returned, and there is at least one (the assertion of line 665). -/
theorem initVulkan_images (s : App) (a : StartupAnswers) (log : List Call) (s1 : App)
    (h : initVulkan s a = (log, .ok s1)) :
    s1.mSwapChainImages = a.swapChain.images ∧ 0 < a.swapChain.images.length := by
  unfold initVulkan initVulkanToRenderPass at h
  obtain ⟨m12, s12, l13, a12, h13, rfl⟩ := andThen_eq_ok _ _ _ _ h
  obtain ⟨m11, s11, l12, a11, h12, rfl⟩ := andThen_eq_ok _ _ _ _ a12
  obtain ⟨m10, s10, l11, a10, h11, rfl⟩ := andThen_eq_ok _ _ _ _ a11
  obtain ⟨m9, s9, l10, a9, h10, rfl⟩ := andThen_eq_ok _ _ _ _ a10
  obtain ⟨m8, s8, l9, a8, h9, rfl⟩ := andThen_eq_ok _ _ _ _ a9
  obtain ⟨m7, s7, l8, a7, h8, rfl⟩ := andThen_eq_ok _ _ _ _ a8
  obtain ⟨m6, s6, l7, a6, h7, rfl⟩ := andThen_eq_ok _ _ _ _ a7
  obtain ⟨m5, s5, l6, a5, h6, rfl⟩ := andThen_eq_ok _ _ _ _ a6
  clear h a12 a11 a10 a9 a8 a7 a6 a5
  have himg : s6.mSwapChainImages = a.swapChain.images ∧ 0 < a.swapChain.images.length := by
    obtain ⟨⟨format, extent, rfl⟩, _, _⟩ := createSwapChain_inv _ _ _ _ h6
    refine ⟨rfl, ?_⟩
    by_contra hlen
    have hnil : a.swapChain.images = [] := List.length_eq_zero.mp (by omega)
    unfold createSwapChain at h6
    repeat' split at h6
    all_goals simp [hnil] at h6
  obtain ⟨rfl, _⟩ := createImageViews_inv _ _ _ _ h7
  obtain ⟨rfl, _, _⟩ := createRenderPass_inv _ _ _ _ h8
  obtain ⟨rfl, _, _, _⟩ := createGraphicsPipeline_inv _ _ _ _ h9
  obtain ⟨rfl, _⟩ := createFramebuffers_inv _ _ _ _ h10
  obtain ⟨rfl, _, _⟩ := createCommandPool_inv _ _ _ _ h11
  obtain ⟨rfl, _, _⟩ := createCommandBuffer_inv _ _ _ _ h12
  obtain ⟨rfl, _, _⟩ := createSyncObjects_inv _ _ _ _ h13
  exact himg

/-- The recording aborts on the subscript of line 262 exactly when
`vkBeginCommandBuffer` succeeded and the index is outside the framebuffer
vector; no assertion stands before the subscript. -/
theorem recordCommandBuffer_outOfBounds_iff (s : App) (commandBuffer : Handle)
    (imageIndex : Nat) (beginResult endResult : VkResult) :
    (recordCommandBuffer s commandBuffer imageIndex beginResult endResult).2
        = .error .outOfBounds
      ↔ beginResult = VK_SUCCESS ∧ s.mSwapChainFramebuffers.length ≤ imageIndex := by
  by_cases hb : beginResult = VK_SUCCESS
  · cases hfb : s.mSwapChainFramebuffers.get? imageIndex with
    | none =>
      have hlen : s.mSwapChainFramebuffers.length ≤ imageIndex := List.get?_eq_none.mp hfb
      simp only [recordCommandBuffer, hb, hfb, ne_eq, not_true_eq_false, if_false, true_and,
        hlen]
    | some fb =>
      have hlen : ¬ s.mSwapChainFramebuffers.length ≤ imageIndex := by
        intro hle
        rw [List.get?_eq_none.mpr hle] at hfb
        exact Option.noConfusion hfb
      by_cases he : endResult = VK_SUCCESS
      · simp only [recordCommandBuffer, hb, hfb, he, ne_eq, not_true_eq_false, if_false,
          hlen, and_false]
        simp
      · simp only [recordCommandBuffer, hb, hfb, he, ne_eq, not_true_eq_false,
          not_false_eq_true, if_false, if_true, hlen, and_false]
        simp
  · simp only [recordCommandBuffer, hb, ne_eq, not_false_eq_true, if_true, false_and]
    simp

/-- C21: once `initVulkan` has returned, the framebuffer vector has one
element for each swapchain image the platform returned, so the lookup
`mSwapChainFramebuffers[imageIndex]` of `recordCommandBuffer` is in bounds for
every image index below that number, and it is out of bounds exactly for the
indices at or above it.  `recordCommandBuffer` makes no check of its own:
with such an index, once `vkBeginCommandBuffer` has succeeded, it goes on to
the out-of-bounds lookup, and so does `drawFrame` with the index the
acquisition returned. -/
theorem recordCommandBuffer_lookup_in_bounds (s : App) (a : StartupAnswers) (s1 : App)
    (h : (initVulkan s a).2 = .ok s1) :
    s1.mSwapChainImages = a.swapChain.images
      ∧ s1.mSwapChainFramebuffers.length = a.swapChain.images.length
      ∧ (∀ imageIndex, imageIndex < a.swapChain.images.length →
          s1.mSwapChainFramebuffers.get? imageIndex = some (a.framebuffer imageIndex).2
          ∧ ∀ commandBuffer beginResult endResult,
              (recordCommandBuffer s1 commandBuffer imageIndex beginResult endResult).2
                ≠ .error .outOfBounds)
      ∧ (∀ imageIndex, s1.mSwapChainFramebuffers.get? imageIndex = none
          ↔ a.swapChain.images.length ≤ imageIndex)
      ∧ (∀ commandBuffer imageIndex beginResult endResult,
          (recordCommandBuffer s1 commandBuffer imageIndex beginResult endResult).2
              = .error .outOfBounds
            ↔ beginResult = VK_SUCCESS ∧ a.swapChain.images.length ≤ imageIndex)
      ∧ (∀ commandBuffer imageIndex endResult, a.swapChain.images.length ≤ imageIndex →
          recordCommandBuffer s1 commandBuffer imageIndex VK_SUCCESS endResult
            = ([Call.vkBeginCommandBuffer commandBuffer VK_SUCCESS], .error .outOfBounds))
      ∧ (∀ answers : FrameAnswers, answers.acquireResult = VK_SUCCESS →
          answers.beginResult = VK_SUCCESS →
          a.swapChain.images.length ≤ answers.imageIndex →
          (drawFrame s1 answers).2 = .error .outOfBounds) := by
  have hinit : initVulkan s a = ((initVulkan s a).1, .ok s1) := Prod.ext rfl h
  obtain ⟨himg, _⟩ := initVulkan_images s a _ s1 hinit
  obtain ⟨_, _, _, _, _, _, _, _, _, _, hfbs, _⟩ := initVulkan_inv s a _ s1 hinit
  have hlen : s1.mSwapChainFramebuffers.length = a.swapChain.images.length := by
    rw [hfbs, List.length_map, List.length_range]
  have hnone : ∀ imageIndex, s1.mSwapChainFramebuffers.get? imageIndex = none
      ↔ a.swapChain.images.length ≤ imageIndex := by
    intro imageIndex
    rw [List.get?_eq_none, hlen]
  have hiff : ∀ commandBuffer imageIndex beginResult endResult,
      (recordCommandBuffer s1 commandBuffer imageIndex beginResult endResult).2
          = .error .outOfBounds
        ↔ beginResult = VK_SUCCESS ∧ a.swapChain.images.length ≤ imageIndex := by
    intro commandBuffer imageIndex beginResult endResult
    rw [recordCommandBuffer_outOfBounds_iff, hlen]
  refine ⟨himg, hlen, ?_, hnone, hiff, ?_, ?_⟩
  · intro imageIndex hi
    refine ⟨?_, ?_⟩
    · rw [hfbs, List.get?_eq_getElem?, List.getElem?_map, List.getElem?_range hi]
      rfl
    · intro commandBuffer beginResult endResult hout
      have := ((hiff commandBuffer imageIndex beginResult endResult).mp hout).2
      omega
  · intro commandBuffer imageIndex endResult hi
    have hfb := (hnone imageIndex).mpr hi
    simp only [recordCommandBuffer, hfb, ne_eq, not_true_eq_false, if_false]
  · intro answers h1 h2 hi
    have hfb := (hnone answers.imageIndex).mpr hi
    simp only [drawFrame, recordCommandBuffer, h1, h2, hfb, ne_eq, not_true_eq_false,
      if_false]

/-- Witness of C21: after the sample start-up, with three swapchain images,
index 2 finds framebuffer 42 and index 3 is out of bounds. -/
theorem recordCommandBuffer_lookup_in_bounds_witness :
    sampleStartedApp.mSwapChainFramebuffers.get? 2 = some 42
      ∧ (recordCommandBuffer sampleStartedApp 15 3 VK_SUCCESS VK_SUCCESS).2
          = .error .outOfBounds :=
  have h := recordCommandBuffer_lookup_in_bounds sampleNewApp sampleStartupAnswers
    sampleStartedApp rfl
  ⟨(h.2.2.1 2 (by decide)).1, (h.2.2.2.2.1 15 3 VK_SUCCESS VK_SUCCESS).mpr ⟨rfl, by decide⟩⟩

end LearnVulkan
